import Mathlib

/-!
Toshiba TOS1900 ACPI driver (toshiba-tos1900.c)

A shallow embedding of the keystroke filter, the hotkey notification path, the
sysfs accessors of the features, the firmware transport (with the raw HCI call
of toshiba.c), the feature setup pass and the attach and detach callbacks of
the driver, with the properties proved about them.

Conventions of the embedding:
* machine words are natural numbers, reduced modulo the width where the C code
  narrows or can overflow;
* a C function that mutates state returns the new state next to its result;
* calls into the kernel (ACPI evaluation, sparse keymap, text parsing) appear as
  arguments carrying what the call produced.
-/

namespace Tos1900

/-! ## Keystroke filter -/

/-- Effect of one call of tos1900_i8042_filter: the value returned (true means
the byte is swallowed), the function-static flag btn_strip afterwards, and how
many times schedule_work(&tos1900_work) was called. -/
structure FilterResult where
  ret : Bool
  btn_strip : Bool
  scheduled : Nat
  deriving DecidableEq

/-- The i8042 filter callback. The static local btn_strip is passed in and
returned; data and str are the unsigned char arguments. -/
def tos1900_i8042_filter (btn_strip : Bool) (data str : Nat) : FilterResult :=
  if str &&& 0x20 ≠ 0 then
    ⟨false, btn_strip, 0⟩
  else if btn_strip = true ∧ data = 0xe0 then
    ⟨true, false, 0⟩
  else if data = 0xe0 then
    ⟨false, btn_strip, 0⟩
  else if data &&& 0x7f = 0x6e then
    ⟨true, btn_strip, 1⟩
  else if data &&& 0x7f = 0x42 then
    ⟨true, true, 1⟩
  else
    ⟨false, btn_strip, 0⟩

/-- The filter applied to a stream of (data, status) bytes in arrival order,
threading btn_strip from one call to the next; one result per byte. -/
def feed (btn_strip : Bool) : List (Nat × Nat) → List FilterResult
  | [] => []
  | (data, str) :: rest =>
    (tos1900_i8042_filter btn_strip data str) ::
      feed (tos1900_i8042_filter btn_strip data str).btn_strip rest


/-! ## Hotkey notification path -/

/-- Key codes named by tos1900_keymap (constants of linux/input.h). -/
inductive Key where
  | KEY_RESERVED | KEY_MUTE | KEY_ZOOMOUT | KEY_ZOOMIN | KEY_KBDILLUMTOGGLE
  | KEY_ZOOMRESET | KEY_COFFEE | KEY_BATTERY | KEY_SLEEP | KEY_SUSPEND
  | KEY_SWITCHVIDEOMODE | KEY_BRIGHTNESSDOWN | KEY_BRIGHTNESSUP | KEY_WLAN
  | KEY_TOUCHPAD_TOGGLE | KEY_FN | KEY_PROG2 | KEY_WWW | KEY_MAIL | KEY_STOP
  | KEY_PREVIOUSSONG | KEY_NEXTSONG | KEY_PLAYPAUSE | KEY_MEDIA
  deriving DecidableEq

/-- Entry kinds of a sparse keymap used by the table. -/
inductive KeType where
  | KE_END | KE_KEY | KE_IGNORE
  deriving DecidableEq

/-- One row of a sparse keymap: kind, raw vendor code, key. -/
structure key_entry where
  type : KeType
  code : Nat
  keycode : Key
  deriving DecidableEq

open Key KeType in
/-- The static hotkey table, rows in source order, KE_END row included. -/
def tos1900_keymap : List key_entry :=
  [ ⟨KE_KEY, 0x101, KEY_MUTE⟩,
    ⟨KE_KEY, 0x102, KEY_ZOOMOUT⟩,
    ⟨KE_KEY, 0x103, KEY_ZOOMIN⟩,
    ⟨KE_IGNORE, 0x10f, KEY_RESERVED⟩,
    ⟨KE_KEY, 0x12c, KEY_KBDILLUMTOGGLE⟩,
    ⟨KE_KEY, 0x139, KEY_ZOOMRESET⟩,
    ⟨KE_KEY, 0x13b, KEY_COFFEE⟩,
    ⟨KE_KEY, 0x13c, KEY_BATTERY⟩,
    ⟨KE_KEY, 0x13d, KEY_SLEEP⟩,
    ⟨KE_KEY, 0x13e, KEY_SUSPEND⟩,
    ⟨KE_KEY, 0x13f, KEY_SWITCHVIDEOMODE⟩,
    ⟨KE_KEY, 0x140, KEY_BRIGHTNESSDOWN⟩,
    ⟨KE_KEY, 0x141, KEY_BRIGHTNESSUP⟩,
    ⟨KE_KEY, 0x142, KEY_WLAN⟩,
    ⟨KE_KEY, 0x143, KEY_TOUCHPAD_TOGGLE⟩,
    ⟨KE_KEY, 0x17f, KEY_FN⟩,
    ⟨KE_KEY, 0xb05, KEY_PROG2⟩,
    ⟨KE_KEY, 0xb06, KEY_WWW⟩,
    ⟨KE_KEY, 0xb07, KEY_MAIL⟩,
    ⟨KE_KEY, 0xb30, KEY_STOP⟩,
    ⟨KE_KEY, 0xb31, KEY_PREVIOUSSONG⟩,
    ⟨KE_KEY, 0xb32, KEY_NEXTSONG⟩,
    ⟨KE_KEY, 0xb33, KEY_PLAYPAUSE⟩,
    ⟨KE_KEY, 0xb5a, KEY_MEDIA⟩,
    ⟨KE_IGNORE, 0x1430, KEY_RESERVED⟩,
    ⟨KE_END, 0, KEY_RESERVED⟩ ]

/-- Modelled from the spec: the table lookup inside the kernel helper
sparse_keymap_report_event, which is not part of the driver source ("look up
via the keymap"). The row for a raw code is the first row before the KE_END row
whose code equals it. -/
def keymap_entry : List key_entry → Nat → Option key_entry
  | [], _ => none
  | e :: rest, code =>
    if e.type = KeType.KE_END then none
    else if e.code = code then some e
    else keymap_entry rest code

/-- Modelled from the spec: the kernel helper sparse_keymap_report_event, which
the driver calls and which is not part of its source. The spec gives it as
"translate(raw_code) -> Option<SemanticEvent> against the static keymap; two
raw codes are reserved as ignore (explicitly known-unmapped, suppressed without
a warning)" and "an unmapped payload produces no event and is logged as
unknown". The result is the value returned to the driver (true when the code
has a row) and the keys reported to the input device. -/
def sparse_keymap_report_event (keymap : List key_entry) (code : Nat) :
    Bool × List Key :=
  match keymap_entry keymap code with
  | some e => if e.type = KeType.KE_KEY then (true, [e.keycode]) else (true, [])
  | none => (false, [])

/-- Status code AE_OK of ACPICA; ACPI_FAILURE(s) is s ≠ AE_OK. -/
def AE_OK : Nat := 0

/-- What acpi_evaluate_integer produced: its status and the 64-bit integer. -/
structure AcpiInteger where
  status : Nat
  value : Nat

/-- Observable effect of tos1900_notify: the code handed to
sparse_keymap_report_event (none when the helper was not called), the keys the
helper reported, and the value printed by the "Unknown Hotkey" message (none
when nothing was logged). -/
structure NotifyResult where
  lookup : Option Nat
  events : List Key
  unknown : Option Nat
  deriving DecidableEq

/-- The ACPI notify handler. The argument report is the helper
sparse_keymap_report_event bound to the hotkey device; info is what evaluating
INFO yields (only consulted when event is 0x80). The helper takes its code as
unsigned int and the message prints (unsigned int) hotkey, hence the
reductions modulo 2^32. -/
def tos1900_notify (report : Nat → Bool × List Key) (event : Nat)
    (info : AcpiInteger) : NotifyResult :=
  if event ≠ 0x80 then
    ⟨none, [], none⟩
  else if info.status ≠ AE_OK then
    ⟨none, [], none⟩
  else if info.value = 0x000 ∨ info.value = 0x100 then
    ⟨none, [], none⟩
  else if info.value &&& 0x80 ≠ 0 then
    ⟨none, [], none⟩
  else if (report (info.value % 2 ^ 32)).1 = true then
    ⟨some (info.value % 2 ^ 32), (report (info.value % 2 ^ 32)).2, none⟩
  else
    ⟨some (info.value % 2 ^ 32), (report (info.value % 2 ^ 32)).2,
      some (info.value % 2 ^ 32)⟩


/-! ## Firmware transport -/

def SPFC_PARAMS : Nat := 6
def SPFC_RESULTS : Nat := 7

def SPFC_UPPER_SET : Nat := 0xF400
def SPFC_UPPER_GET : Nat := 0xF300

def SPFC_KBD_BACKLIGHT : Nat := 0x015C

/-- Error numbers of the kernel (errno-base.h). -/
def EINVAL : Int := 22
def EIO : Int := 5

/-- What acpi_evaluate_object produced for a call of the SPFC method: its
status and the integer values of the elements of the returned package
(package.count is the length of the list). -/
structure AcpiPackage where
  status : Nat
  elements : List Nat

/-- The firmware behind the SPFC method: from its state and the six argument
words, the reply and its next state. -/
abbrev Spfc (σ : Type) := σ → List Nat → AcpiPackage × σ

/-- The part of the machine the accessors act on: the firmware state and the
requests passed to SPFC so far, oldest first. -/
structure World (σ : Type) where
  fw : σ
  calls : List (List Nat)

/-- The copy loop of toshiba_spfc_communicate: out[i] takes element i,
narrowed to u32, for every i below package.count; other words keep their
content. A buffer is a map from index to word. -/
def copy_results (out : Nat → Nat) (elements : List Nat) : Nat → Nat :=
  fun i => if i < elements.length then elements.getD i 0 % 2 ^ 32 else out i

/-- Evaluate SPFC on the six words of inp. With an out buffer, the results are
copied only when the call succeeded and package.count is below SPFC_RESULTS.
Returns the status, the out buffer afterwards and the new world. -/
def toshiba_spfc_communicate {σ : Type} (spfc : Spfc σ) (w : World σ)
    (inp : List Nat) (out : Option (Nat → Nat)) :
    Nat × Option (Nat → Nat) × World σ :=
  let r := spfc w.fw inp
  let w1 : World σ := ⟨r.2, w.calls ++ [inp]⟩
  match out with
  | some o =>
    if r.1.status = AE_OK ∧ r.1.elements.length < SPFC_RESULTS then
      (r.1.status, some (copy_results o r.1.elements), w1)
    else
      (r.1.status, some o, w1)
  | none => (r.1.status, none, w1)

/-- Word i of an out buffer after a call that was given one. -/
def out_word (out : Option (Nat → Nat)) (i : Nat) : Nat :=
  match out with
  | some o => o i
  | none => 0

/-- A u32 read as int, as printf("%d") shows it. -/
def int_of_u32 (x : Nat) : Int :=
  if x % 2 ^ 32 < 2 ^ 31 then (x % 2 ^ 32 : Nat) else (x % 2 ^ 32 : Nat) - 2 ^ 32

/-! ## Keyboard backlight -/

/-- The mode field of the register word, as __toshiba_kbd_backlight_mode_show
extracts it. -/
def kbd_backlight_mode_of (word : Nat) : Nat := word &&& 0xFFFF

/-- The timeout field of the register word, as
__toshiba_kbd_backlight_time_show extracts it. -/
def kbd_backlight_time_of (word : Nat) : Nat := (word &&& 0x00FF0000) >>> 16

/-- Reads the mode field. The argument out0 is the indeterminate initial
content of the local array out. The result is the error returned, or the value
written to *mode. -/
def __toshiba_kbd_backlight_mode_show {σ : Type} (spfc : Spfc σ) (w : World σ)
    (out0 : Nat → Nat) : Except Int Nat × World σ :=
  let r := toshiba_spfc_communicate spfc w
    [SPFC_UPPER_GET, SPFC_KBD_BACKLIGHT, 0, 0, 0, 0] (some out0)
  if r.1 ≠ AE_OK then (.error (- EIO), r.2.2)
  else (.ok (kbd_backlight_mode_of (out_word r.2.1 2)), r.2.2)

/-- Reads the timeout field; out0 as above. -/
def __toshiba_kbd_backlight_time_show {σ : Type} (spfc : Spfc σ) (w : World σ)
    (out0 : Nat → Nat) : Except Int Nat × World σ :=
  let r := toshiba_spfc_communicate spfc w
    [SPFC_UPPER_GET, SPFC_KBD_BACKLIGHT, 0, 0, 0, 0] (some out0)
  if r.1 ≠ AE_OK then (.error (- EIO), r.2.2)
  else (.ok (kbd_backlight_time_of (out_word r.2.1 2)), r.2.2)

/-- The sysfs read of kbd_backlight: the error returned, or the int printed
with "%d\n". The switch has no default, so other codes are printed as read. -/
def toshiba_kbd_backlight_mode_show {σ : Type} (spfc : Spfc σ) (w : World σ)
    (out0 : Nat → Nat) : Except Int Int × World σ :=
  match __toshiba_kbd_backlight_mode_show spfc w out0 with
  | (.error e, w1) => (.error e, w1)
  | (.ok mode, w1) =>
    if mode = 0x10 then (.ok 0, w1)
    else if mode = 0x08 then (.ok 1, w1)
    else if mode = 0x02 then (.ok 2, w1)
    else (.ok (int_of_u32 mode), w1)

/-- The sysfs read of kbd_backlight_timeout. -/
def toshiba_kbd_backlight_time_show {σ : Type} (spfc : Spfc σ) (w : World σ)
    (out0 : Nat → Nat) : Except Int Int × World σ :=
  match __toshiba_kbd_backlight_time_show spfc w out0 with
  | (.error e, w1) => (.error e, w1)
  | (.ok time, w1) => (.ok (int_of_u32 time), w1)

/-- The word sent as in[2] by __toshiba_kbd_backlight_store, in u32
arithmetic. -/
def kbd_backlight_word (mode time : Nat) : Nat :=
  (((time <<< 16) % 2 ^ 32) ||| mode) % 2 ^ 32

/-- Writes mode and timeout together; both parameters are u32. Returns 0 or a
negative error number. -/
def __toshiba_kbd_backlight_store {σ : Type} (spfc : Spfc σ) (w : World σ)
    (mode time : Nat) : Int × World σ :=
  if time > 60 then (- EINVAL, w)
  else if mode ≠ 0x10 ∧ mode ≠ 0x08 ∧ mode ≠ 0x02 then (- EINVAL, w)
  else
    let r := toshiba_spfc_communicate spfc w
      [SPFC_UPPER_SET, SPFC_KBD_BACKLIGHT, kbd_backlight_word mode time, 0, 0, 0]
      none
    if r.1 ≠ AE_OK then (- EIO, r.2.2) else (0, r.2.2)

/-- The switch of toshiba_kbd_backlight_mode_store from the value written to
the firmware mode code; it has no default and mode starts as 0x10. -/
def kbd_backlight_mode_code (value : Nat) : Nat :=
  if value = 0 then 0x10 else if value = 1 then 0x08
  else if value = 2 then 0x02 else 0x10

/-- The sysfs write of kbd_backlight. The argument count is the length of the
text written and parsed is what kstrtoul(buffer, 10, &value) produced: none for
a nonzero return, else the unsigned long stored in value. -/
def toshiba_kbd_backlight_mode_store {σ : Type} (spfc : Spfc σ) (w : World σ)
    (out0 : Nat → Nat) (count : Nat) (parsed : Option Nat) : Int × World σ :=
  if count > 31 then (- EINVAL, w)
  else match parsed with
    | none => (- EINVAL, w)
    | some value =>
      let mode : Nat := kbd_backlight_mode_code value
      match __toshiba_kbd_backlight_time_show spfc w out0 with
      | (.error e, w1) => (e, w1)
      | (.ok time, w1) =>
        let r := __toshiba_kbd_backlight_store spfc w1 mode time
        if r.1 ≠ 0 then (r.1, r.2) else ((count : Int), r.2)

/-- The sysfs write of kbd_backlight_timeout; count and parsed as above. The
unsigned long value (64 bits) is narrowed to the u32 parameter time of
__toshiba_kbd_backlight_store. -/
def toshiba_kbd_backlight_time_store {σ : Type} (spfc : Spfc σ) (w : World σ)
    (out0 : Nat → Nat) (count : Nat) (parsed : Option Nat) : Int × World σ :=
  if count > 31 then (- EINVAL, w)
  else match parsed with
    | none => (- EINVAL, w)
    | some value =>
      match __toshiba_kbd_backlight_mode_show spfc w out0 with
      | (.error e, w1) => (e, w1)
      | (.ok mode, w1) =>
        let r := __toshiba_kbd_backlight_store spfc w1 mode (value % 2 ^ 32)
        if r.1 ≠ 0 then (r.1, r.2) else ((count : Int), r.2)

/-- A firmware register that keeps one word: the request [set, reg, x, ...]
stores x, the request [get, reg, ...] answers the six words
[0, reg, stored, 0, 0, 0]; both succeed. Any other request fails with
AE_ERROR and changes nothing. -/
def word2_register (set get reg : Nat) : Spfc Nat :=
  fun stored inp =>
    if inp.getD 0 0 = set ∧ inp.getD 1 0 = reg then
      (⟨AE_OK, [0, reg, inp.getD 2 0, 0, 0, 0]⟩, inp.getD 2 0)
    else if inp.getD 0 0 = get ∧ inp.getD 1 0 = reg then
      (⟨AE_OK, [0, reg, stored, 0, 0, 0]⟩, stored)
    else
      (⟨1, []⟩, stored)

/-- The firmware spfc keeps, for register reg, the word read off its state by
stored: a SET of reg succeeds and stores request word 2, a GET of reg succeeds,
answers fewer than SPFC_RESULTS words with the stored word as word 2, and
leaves the stored word as it is. -/
structure StoresWord2 {σ : Type} (spfc : Spfc σ) (set get reg : Nat)
    (stored : σ → Nat) : Prop where
  set_status : ∀ s x, (spfc s [set, reg, x, 0, 0, 0]).1.status = AE_OK
  set_stored : ∀ s x, stored (spfc s [set, reg, x, 0, 0, 0]).2 = x
  get_status : ∀ s, (spfc s [get, reg, 0, 0, 0, 0]).1.status = AE_OK
  get_count : ∀ s, (spfc s [get, reg, 0, 0, 0, 0]).1.elements.length < SPFC_RESULTS
  get_word2 : ∀ s, (spfc s [get, reg, 0, 0, 0, 0]).1.elements.get? 2 = some (stored s)
  get_stored : ∀ s, stored (spfc s [get, reg, 0, 0, 0, 0]).2 = stored s

/-! ## Boolean features, illumination, illumination flash -/

def SPFC_LOWER_SET : Nat := 0xFF00
def SPFC_LOWER_GET : Nat := 0xFE00

def SPFC_ILLUMINATION : Nat := 0x014E
def SPFC_BOOT_SPEED : Nat := 0x015D
def SPFC_SLEEP_MUSIC : Nat := 0x015E
def SPFC_TRACKPAD : Nat := 0x050E
def SPFC_CPU_MODE : Nat := 0x7F
def SPFC_ALT_KBD_BL : Nat := 0x95
def SPFC_ILLUMIN_FLASH : Nat := 0x97

def ENOMEM : Int := 12

/-- The body shared by the show handlers that print out[2] as it is: one
request [get, reg, 0, 0, 0, 0] with a local out array of indeterminate initial
content out0, the error EIO on a failed call, else out[2] printed with "%d\n".
The result is the error returned or the int printed. -/
def show_word2 {σ : Type} (spfc : Spfc σ) (w : World σ) (get reg : Nat)
    (out0 : Nat → Nat) : Except Int Int × World σ :=
  let r := toshiba_spfc_communicate spfc w [get, reg, 0, 0, 0, 0] (some out0)
  if r.1 ≠ AE_OK then (.error (- EIO), r.2.2)
  else (.ok (int_of_u32 (out_word r.2.1 2)), r.2.2)

/-- The body shared by the store handlers of the on/off features: the length
check, the parse (parsed is what kstrtoul produced, none for a nonzero return),
in[2] = value ? 1 : 0 on the unsigned long value, one request
[set, reg, in[2], 0, 0, 0] without out buffer. Returns count or a negative
error number. -/
def store_flag {σ : Type} (spfc : Spfc σ) (w : World σ) (set reg : Nat)
    (count : Nat) (parsed : Option Nat) : Int × World σ :=
  if count > 31 then (- EINVAL, w)
  else match parsed with
    | none => (- EINVAL, w)
    | some value =>
      let r := toshiba_spfc_communicate spfc w
        [set, reg, if value ≠ 0 then 1 else 0, 0, 0, 0] none
      if r.1 ≠ AE_OK then (- EIO, r.2.2) else ((count : Int), r.2.2)

def toshiba_alt_kbdbl_show {σ : Type} (spfc : Spfc σ) (w : World σ)
    (out0 : Nat → Nat) : Except Int Int × World σ :=
  show_word2 spfc w SPFC_LOWER_GET SPFC_ALT_KBD_BL out0

def toshiba_alt_kbdbl_store {σ : Type} (spfc : Spfc σ) (w : World σ)
    (count : Nat) (parsed : Option Nat) : Int × World σ :=
  store_flag spfc w SPFC_LOWER_SET SPFC_ALT_KBD_BL count parsed

def toshiba_boot_speed_show {σ : Type} (spfc : Spfc σ) (w : World σ)
    (out0 : Nat → Nat) : Except Int Int × World σ :=
  show_word2 spfc w SPFC_UPPER_GET SPFC_BOOT_SPEED out0

def toshiba_boot_speed_store {σ : Type} (spfc : Spfc σ) (w : World σ)
    (count : Nat) (parsed : Option Nat) : Int × World σ :=
  store_flag spfc w SPFC_UPPER_SET SPFC_BOOT_SPEED count parsed

def toshiba_sleep_music_show {σ : Type} (spfc : Spfc σ) (w : World σ)
    (out0 : Nat → Nat) : Except Int Int × World σ :=
  show_word2 spfc w SPFC_UPPER_GET SPFC_SLEEP_MUSIC out0

def toshiba_sleep_music_store {σ : Type} (spfc : Spfc σ) (w : World σ)
    (count : Nat) (parsed : Option Nat) : Int × World σ :=
  store_flag spfc w SPFC_UPPER_SET SPFC_SLEEP_MUSIC count parsed

def toshiba_trackpad_show {σ : Type} (spfc : Spfc σ) (w : World σ)
    (out0 : Nat → Nat) : Except Int Int × World σ :=
  show_word2 spfc w SPFC_UPPER_GET SPFC_TRACKPAD out0

def toshiba_trackpad_store {σ : Type} (spfc : Spfc σ) (w : World σ)
    (count : Nat) (parsed : Option Nat) : Int × World σ :=
  store_flag spfc w SPFC_UPPER_SET SPFC_TRACKPAD count parsed

/-- The sysfs read of cpu_mode: the only show handler that masks, it prints
out[2] & 0x1. -/
def toshiba_cpu_mode_show {σ : Type} (spfc : Spfc σ) (w : World σ)
    (out0 : Nat → Nat) : Except Int Int × World σ :=
  let r := toshiba_spfc_communicate spfc w
    [SPFC_LOWER_GET, SPFC_CPU_MODE, 0, 0, 0, 0] (some out0)
  if r.1 ≠ AE_OK then (.error (- EIO), r.2.2)
  else (.ok ((out_word r.2.1 2 &&& 0x1 : Nat) : Int), r.2.2)

def toshiba_cpu_mode_store {σ : Type} (spfc : Spfc σ) (w : World σ)
    (count : Nat) (parsed : Option Nat) : Int × World σ :=
  store_flag spfc w SPFC_LOWER_SET SPFC_CPU_MODE count parsed

/-- The sysfs read of illumination: __toshiba_illumination_mode_show stores
out[2] in an int, which is printed. -/
def toshiba_illumination_mode_show {σ : Type} (spfc : Spfc σ) (w : World σ)
    (out0 : Nat → Nat) : Except Int Int × World σ :=
  show_word2 spfc w SPFC_UPPER_GET SPFC_ILLUMINATION out0

/-- Sends value ? 1 : 0 for its u32 parameter; 0 or the error EIO. -/
def __toshiba_illumination_mode_store {σ : Type} (spfc : Spfc σ) (w : World σ)
    (value : Nat) : Int × World σ :=
  let r := toshiba_spfc_communicate spfc w
    [SPFC_UPPER_SET, SPFC_ILLUMINATION, if value ≠ 0 then 1 else 0, 0, 0, 0] none
  if r.1 ≠ AE_OK then (- EIO, r.2.2) else (0, r.2.2)

/-- The sysfs write of illumination; the unsigned long value is narrowed to
the u32 parameter of __toshiba_illumination_mode_store. -/
def toshiba_illumination_mode_store {σ : Type} (spfc : Spfc σ) (w : World σ)
    (count : Nat) (parsed : Option Nat) : Int × World σ :=
  if count > 31 then (- EINVAL, w)
  else match parsed with
    | none => (- EINVAL, w)
    | some value =>
      let r := __toshiba_illumination_mode_store spfc w (value % 2 ^ 32)
      if r.1 ≠ 0 then (r.1, r.2) else ((count : Int), r.2)

/-- The device attributes of struct tos1900_device, named by their field. -/
inductive Attr where
  | lumin_mode | lumin_flash | kbdbl_mode | kbdbl_time | alt_kbdbl
  | boot_speed | sleep_music | trackpad | cpu_mode
  deriving DecidableEq

/-- A change of the sysfs files of the platform device: device_create_file
that succeeded, or device_remove_file. -/
inductive SysfsOp where
  | create (a : Attr)
  | remove (a : Attr)
  deriving DecidableEq

/-- The state the driver works on: the cached lumin_flash_mode (a 2-bit
field), the attribute pointers of tos1900_dev that are not NULL, the attribute
files present on the platform device, the record of file creations and
removals (oldest first), and the firmware world. -/
structure DriverState (σ : Type) where
  lumin_flash_mode : Nat
  attrs : List Attr
  files : List Attr
  log : List SysfsOp
  world : World σ

/-- The sysfs read of illumination_flash: prints the cached mode, without any
firmware call. -/
def toshiba_illumination_flash_show {σ : Type} (s : DriverState σ) :
    Except Int Int :=
  .ok (s.lumin_flash_mode : Int)

/-- Sets the flash mode; value is the u32 parameter. The assignment to the
2-bit field keeps value modulo 4. -/
def __toshiba_illumination_flash_store {σ : Type} (spfc : Spfc σ)
    (s : DriverState σ) (value : Nat) : Int × DriverState σ :=
  if value ≥ 3 then (- EINVAL, s)
  else
    let r := toshiba_spfc_communicate spfc s.world
      [SPFC_LOWER_SET, SPFC_ILLUMIN_FLASH, value, 0, 0, 0] none
    if r.1 ≠ AE_OK then (- EIO, { s with world := r.2.2 })
    else (0, { s with world := r.2.2, lumin_flash_mode := value % 4 })

/-- The sysfs write of illumination_flash; the unsigned long value (64 bits)
is narrowed to the u32 parameter of __toshiba_illumination_flash_store. -/
def toshiba_illumination_flash_store {σ : Type} (spfc : Spfc σ)
    (s : DriverState σ) (count : Nat) (parsed : Option Nat) :
    Int × DriverState σ :=
  if count > 31 then (- EINVAL, s)
  else match parsed with
    | none => (- EINVAL, s)
    | some value =>
      let r := __toshiba_illumination_flash_store spfc s (value % 2 ^ 32)
      if r.1 ≠ 0 then (r.1, r.2) else ((count : Int), r.2)

/-! ## The HCI call of toshiba.c -/

def HCI_WORDS : Nat := 6

/-- The raw HCI call of toshiba.c: like toshiba_spfc_communicate, with an out
buffer that is always there and the test package.count <= HCI_WORDS. -/
def hci_raw {σ : Type} (hci : Spfc σ) (w : World σ) (inp : List Nat)
    (out : Nat → Nat) : Nat × (Nat → Nat) × World σ :=
  let r := hci w.fw inp
  let w1 : World σ := ⟨r.2, w.calls ++ [inp]⟩
  if r.1.status = AE_OK ∧ r.1.elements.length ≤ HCI_WORDS then
    (r.1.status, copy_results out r.1.elements, w1)
  else
    (r.1.status, out, w1)

/-! ## Firmware models used to state and instantiate the properties -/

/-- The firmware spfc with word 0 of every reply replaced by s0 (a reply
without words stays as it is). -/
def with_word0 {σ : Type} (s0 : Nat) (spfc : Spfc σ) : Spfc σ :=
  fun st inp =>
    (⟨(spfc st inp).1.status, (spfc st inp).1.elements.set 0 s0⟩,
      (spfc st inp).2)

/-- A firmware that answers every request with the same words and status
AE_OK, and has no state. -/
def fixed_reply (elements : List Nat) : Spfc Unit :=
  fun _ _ => (⟨AE_OK, elements⟩, ())

/-- A firmware keeping one word per register: a request with a SET operation
code stores request word 2 in the register named by word 1, a request with a
GET operation code answers [0, reg, stored word, 0, 0, 0]; both succeed. Any
other request fails with AE_ERROR and changes nothing. -/
def register_file : Spfc (Nat → Nat) :=
  fun regs inp =>
    if inp.getD 0 0 = SPFC_UPPER_SET ∨ inp.getD 0 0 = SPFC_LOWER_SET then
      (⟨AE_OK, [0, inp.getD 1 0, inp.getD 2 0, 0, 0, 0]⟩,
        fun r => if r = inp.getD 1 0 then inp.getD 2 0 else regs r)
    else if inp.getD 0 0 = SPFC_UPPER_GET ∨ inp.getD 0 0 = SPFC_LOWER_GET then
      (⟨AE_OK, [0, inp.getD 1 0, regs (inp.getD 1 0), 0, 0, 0]⟩, regs)
    else
      (⟨1, []⟩, regs)

/-- A firmware whose every call fails in the transport (status AE_ERROR, no
reply words) and that has no state. -/
def failed_transport : Spfc Unit :=
  fun _ _ => (⟨1, []⟩, ())

/-- A firmware without state on which every GET request succeeds with the
reply [0, reg, x, 0, 0, 0] and every other request fails in the transport. -/
def read_only_register (x : Nat) : Spfc Unit :=
  fun _ inp =>
    if inp.getD 0 0 = SPFC_UPPER_GET ∨ inp.getD 0 0 = SPFC_LOWER_GET then
      (⟨AE_OK, [0, inp.getD 1 0, x, 0, 0, 0]⟩, ())
    else
      (⟨1, []⟩, ())

/-! ## Feature setup -/

def PIDC_ID_ILLUMIN : Nat := 0x06
def PIDC_ID_KBD_BL : Nat := 0x12
def PIDC_ID_BOOT_SPEED : Nat := 0x13
def PIDC_ID_SLEEP_MUSIC : Nat := 0x14
def PIDC_ID_ALT_KBD_BL : Nat := 0x15
def PIDC_ID_ILLUMIN_FLASH : Nat := 0x17
def PIDC_ID_0A : Nat := 0x0A

/-- What the kernel answers during a setup pass: the result of evaluating
\PIDC on a device id, whether kzalloc of an attribute succeeds, and the value
returned by device_create_file for an attribute (0 or a negative error). -/
structure SetupEnv where
  pidc : Nat → AcpiInteger
  kzalloc : Attr → Bool
  device_create_file : Attr → Int

/-- The presence probe: false when the evaluation fails, else whether the
64-bit result differs from -1. -/
def toshiba_acpi_is_device (env : SetupEnv) (id : Nat) : Bool :=
  if (env.pidc id).status ≠ AE_OK then false
  else decide ((env.pidc id).value ≠ 2 ^ 64 - 1)

/-- The attribute pointers after pointer a is set to NULL. -/
def clear_ptr (a : Attr) (attrs : List Attr) : List Attr :=
  attrs.filter (fun x => x ≠ a)

/-- The attribute pointers after pointer a is set to an allocated object. -/
def set_ptr (a : Attr) (attrs : List Attr) : List Attr :=
  attrs.filter (fun x => x ≠ a) ++ [a]

/-- The body shared by the setup functions of the features with one
attribute: kzalloc into the pointer (ENOMEM when it fails), device_create_file
(on failure kfree, pointer back to NULL, the error returned), else 0. -/
def attr_setup {σ : Type} (env : SetupEnv) (a : Attr) (s : DriverState σ) :
    Int × DriverState σ :=
  if env.kzalloc a = false then
    (- ENOMEM, { s with attrs := clear_ptr a s.attrs })
  else if env.device_create_file a ≠ 0 then
    (env.device_create_file a, { s with attrs := clear_ptr a s.attrs })
  else
    (0, { s with attrs := set_ptr a s.attrs, files := s.files ++ [a],
                 log := s.log ++ [SysfsOp.create a] })

/-- The body shared by the cleanup functions of the features with one
attribute: when the pointer is not NULL, device_remove_file, kfree, pointer
back to NULL. -/
def attr_cleanup {σ : Type} (a : Attr) (s : DriverState σ) : DriverState σ :=
  if a ∈ s.attrs then
    { s with attrs := clear_ptr a s.attrs,
             files := s.files.filter (fun x => x ≠ a),
             log := s.log ++ [SysfsOp.remove a] }
  else s

def toshiba_illumination_setup {σ : Type} (env : SetupEnv)
    (s : DriverState σ) : Int × DriverState σ :=
  attr_setup env Attr.lumin_mode s

def toshiba_illumination_cleanup {σ : Type} (s : DriverState σ) :
    DriverState σ :=
  attr_cleanup Attr.lumin_mode s

/-- Setup of illumination_flash: as attr_setup, and after the file is created
the mode is set to 0 with __toshiba_illumination_flash_store, whose result is
not looked at. -/
def toshiba_illumination_flash_setup {σ : Type} (spfc : Spfc σ)
    (env : SetupEnv) (s : DriverState σ) : Int × DriverState σ :=
  if (attr_setup env Attr.lumin_flash s).1 ≠ 0 then
    attr_setup env Attr.lumin_flash s
  else
    (0, (__toshiba_illumination_flash_store spfc
      (attr_setup env Attr.lumin_flash s).2 0).2)

def toshiba_illumination_flash_cleanup {σ : Type} (s : DriverState σ) :
    DriverState σ :=
  attr_cleanup Attr.lumin_flash s

/-- Setup of the two keyboard-backlight attributes: both allocations, then
both files; each failure undoes what this function did before it. -/
def toshiba_kbd_backlight_setup {σ : Type} (env : SetupEnv)
    (s : DriverState σ) : Int × DriverState σ :=
  if env.kzalloc Attr.kbdbl_mode = false then
    (- ENOMEM, { s with attrs := clear_ptr Attr.kbdbl_mode s.attrs })
  else if env.kzalloc Attr.kbdbl_time = false then
    (- ENOMEM,
      { s with
        attrs := clear_ptr Attr.kbdbl_mode (clear_ptr Attr.kbdbl_time s.attrs) })
  else if env.device_create_file Attr.kbdbl_mode ≠ 0 then
    (env.device_create_file Attr.kbdbl_mode,
      { s with
        attrs := clear_ptr Attr.kbdbl_mode (clear_ptr Attr.kbdbl_time s.attrs) })
  else if env.device_create_file Attr.kbdbl_time ≠ 0 then
    (env.device_create_file Attr.kbdbl_time,
      { s with
        attrs := clear_ptr Attr.kbdbl_mode (clear_ptr Attr.kbdbl_time s.attrs),
        files := (s.files ++ [Attr.kbdbl_mode]).filter
          (fun x => x ≠ Attr.kbdbl_mode),
        log := s.log ++
          [SysfsOp.create Attr.kbdbl_mode, SysfsOp.remove Attr.kbdbl_mode] })
  else
    (0,
      { s with
        attrs := set_ptr Attr.kbdbl_time (set_ptr Attr.kbdbl_mode s.attrs),
        files := s.files ++ [Attr.kbdbl_mode, Attr.kbdbl_time],
        log := s.log ++
          [SysfsOp.create Attr.kbdbl_mode, SysfsOp.create Attr.kbdbl_time] })

def toshiba_alt_kbd_backlight_setup {σ : Type} (env : SetupEnv)
    (s : DriverState σ) : Int × DriverState σ :=
  attr_setup env Attr.alt_kbdbl s

def toshiba_boot_speed_setup {σ : Type} (env : SetupEnv)
    (s : DriverState σ) : Int × DriverState σ :=
  attr_setup env Attr.boot_speed s

def toshiba_boot_speed_cleanup {σ : Type} (s : DriverState σ) :
    DriverState σ :=
  attr_cleanup Attr.boot_speed s

def toshiba_sleep_music_setup {σ : Type} (env : SetupEnv)
    (s : DriverState σ) : Int × DriverState σ :=
  attr_setup env Attr.sleep_music s

def toshiba_sleep_music_cleanup {σ : Type} (s : DriverState σ) :
    DriverState σ :=
  attr_cleanup Attr.sleep_music s

def toshiba_trackpad_setup {σ : Type} (env : SetupEnv)
    (s : DriverState σ) : Int × DriverState σ :=
  attr_setup env Attr.trackpad s

def toshiba_trackpad_cleanup {σ : Type} (s : DriverState σ) :
    DriverState σ :=
  attr_cleanup Attr.trackpad s

def toshiba_cpu_mode_setup {σ : Type} (env : SetupEnv)
    (s : DriverState σ) : Int × DriverState σ :=
  attr_setup env Attr.cpu_mode s

def toshiba_cpu_mode_cleanup {σ : Type} (s : DriverState σ) :
    DriverState σ :=
  attr_cleanup Attr.cpu_mode s

/-- The code of tos1900_acpi_setup from the label outillumination on. -/
def outillumination {σ : Type} (s : DriverState σ) : DriverState σ :=
  toshiba_illumination_cleanup s

/-- From the label outbootspeed on. -/
def outbootspeed {σ : Type} (s : DriverState σ) : DriverState σ :=
  outillumination (toshiba_boot_speed_cleanup s)

/-- From the label outsleepmusic on. -/
def outsleepmusic {σ : Type} (s : DriverState σ) : DriverState σ :=
  outbootspeed (toshiba_sleep_music_cleanup s)

/-- From the label outluminflash on. -/
def outluminflash {σ : Type} (s : DriverState σ) : DriverState σ :=
  outsleepmusic (toshiba_illumination_flash_cleanup s)

/-- From the label outtrackpad on. -/
def outtrackpad {σ : Type} (s : DriverState σ) : DriverState σ :=
  outluminflash (toshiba_trackpad_cleanup s)

/-- From the label outcpumode on. -/
def outcpumode {σ : Type} (s : DriverState σ) : DriverState σ :=
  outtrackpad (toshiba_cpu_mode_cleanup s)

/-- The body of tos1900_acpi_setup from the keyboard-backlight step to the
end. -/
def acpi_setup_kbd {σ : Type} (env : SetupEnv) (s : DriverState σ) :
    Int × DriverState σ :=
  if toshiba_acpi_is_device env PIDC_ID_KBD_BL = true then
    if (toshiba_kbd_backlight_setup env s).1 ≠ 0 then
      ((toshiba_kbd_backlight_setup env s).1,
        outcpumode (toshiba_kbd_backlight_setup env s).2)
    else (0, (toshiba_kbd_backlight_setup env s).2)
  else if toshiba_acpi_is_device env PIDC_ID_ALT_KBD_BL = true then
    if (toshiba_alt_kbd_backlight_setup env s).1 ≠ 0 then
      ((toshiba_alt_kbd_backlight_setup env s).1,
        outcpumode (toshiba_alt_kbd_backlight_setup env s).2)
    else (0, (toshiba_alt_kbd_backlight_setup env s).2)
  else (0, s)

/-- From the cpu_mode step to the end. -/
def acpi_setup_cpu_mode {σ : Type} (env : SetupEnv) (s : DriverState σ) :
    Int × DriverState σ :=
  if (toshiba_cpu_mode_setup env s).1 ≠ 0 then
    ((toshiba_cpu_mode_setup env s).1,
      outtrackpad (toshiba_cpu_mode_setup env s).2)
  else acpi_setup_kbd env (toshiba_cpu_mode_setup env s).2

/-- From the trackpad step to the end. -/
def acpi_setup_trackpad {σ : Type} (env : SetupEnv) (s : DriverState σ) :
    Int × DriverState σ :=
  if (toshiba_trackpad_setup env s).1 ≠ 0 then
    ((toshiba_trackpad_setup env s).1,
      outluminflash (toshiba_trackpad_setup env s).2)
  else acpi_setup_cpu_mode env (toshiba_trackpad_setup env s).2

/-- From the illumination_flash step to the end. -/
def acpi_setup_flash {σ : Type} (spfc : Spfc σ) (env : SetupEnv)
    (s : DriverState σ) : Int × DriverState σ :=
  if toshiba_acpi_is_device env PIDC_ID_ILLUMIN_FLASH = true then
    if (toshiba_illumination_flash_setup spfc env s).1 ≠ 0 then
      ((toshiba_illumination_flash_setup spfc env s).1,
        outsleepmusic (toshiba_illumination_flash_setup spfc env s).2)
    else acpi_setup_trackpad env (toshiba_illumination_flash_setup spfc env s).2
  else acpi_setup_trackpad env s

/-- From the sleep_and_music step to the end. -/
def acpi_setup_sleep_music {σ : Type} (spfc : Spfc σ) (env : SetupEnv)
    (s : DriverState σ) : Int × DriverState σ :=
  if toshiba_acpi_is_device env PIDC_ID_SLEEP_MUSIC = true then
    if (toshiba_sleep_music_setup env s).1 ≠ 0 then
      ((toshiba_sleep_music_setup env s).1,
        outbootspeed (toshiba_sleep_music_setup env s).2)
    else acpi_setup_flash spfc env (toshiba_sleep_music_setup env s).2
  else acpi_setup_flash spfc env s

/-- From the fast_boot step to the end. -/
def acpi_setup_boot_speed {σ : Type} (spfc : Spfc σ) (env : SetupEnv)
    (s : DriverState σ) : Int × DriverState σ :=
  if toshiba_acpi_is_device env PIDC_ID_BOOT_SPEED = true then
    if (toshiba_boot_speed_setup env s).1 ≠ 0 then
      ((toshiba_boot_speed_setup env s).1,
        outillumination (toshiba_boot_speed_setup env s).2)
    else acpi_setup_sleep_music spfc env (toshiba_boot_speed_setup env s).2
  else acpi_setup_sleep_music spfc env s

/-- The setup pass over the features: each step probes, sets the feature up
and, on failure, jumps to the label that cleans up the steps before it. -/
def tos1900_acpi_setup {σ : Type} (spfc : Spfc σ) (env : SetupEnv)
    (s : DriverState σ) : Int × DriverState σ :=
  if (toshiba_acpi_is_device env PIDC_ID_ILLUMIN
      || toshiba_acpi_is_device env PIDC_ID_0A) = true then
    if (toshiba_illumination_setup env s).1 ≠ 0 then
      ((toshiba_illumination_setup env s).1, (toshiba_illumination_setup env s).2)
    else acpi_setup_boot_speed spfc env (toshiba_illumination_setup env s).2
  else acpi_setup_boot_speed spfc env s

/-! ## The setup pass as the rollback property describes it -/

/-- The features of the setup pass, by the name of their sysfs attribute;
kbd_backlight stands for the pair kbd_backlight and kbd_backlight_timeout. -/
inductive Feature where
  | illumination | fast_boot | sleep_and_music | illumination_flash
  | trackpad | cpu_mode | kbd_backlight | alt_kbd_backlight
  deriving DecidableEq

/-- The attributes a feature registers, in the order it creates them. -/
def Feature.attrs : Feature → List Attr
  | .illumination => [Attr.lumin_mode]
  | .fast_boot => [Attr.boot_speed]
  | .sleep_and_music => [Attr.sleep_music]
  | .illumination_flash => [Attr.lumin_flash]
  | .trackpad => [Attr.trackpad]
  | .cpu_mode => [Attr.cpu_mode]
  | .kbd_backlight => [Attr.kbdbl_mode, Attr.kbdbl_time]
  | .alt_kbd_backlight => [Attr.alt_kbdbl]

/-- The last step of the setup order: kbd_backlight when the probe of id 0x12
reports present, else its alternate when the probe of id 0x15 does. -/
def order_from_kbd (env : SetupEnv) : List Feature :=
  if toshiba_acpi_is_device env PIDC_ID_KBD_BL = true then
    [Feature.kbd_backlight]
  else if toshiba_acpi_is_device env PIDC_ID_ALT_KBD_BL = true then
    [Feature.alt_kbd_backlight]
  else []

def order_from_cpu_mode (env : SetupEnv) : List Feature :=
  Feature.cpu_mode :: order_from_kbd env

def order_from_trackpad (env : SetupEnv) : List Feature :=
  Feature.trackpad :: order_from_cpu_mode env

def order_from_flash (env : SetupEnv) : List Feature :=
  if toshiba_acpi_is_device env PIDC_ID_ILLUMIN_FLASH = true then
    Feature.illumination_flash :: order_from_trackpad env
  else order_from_trackpad env

def order_from_sleep_music (env : SetupEnv) : List Feature :=
  if toshiba_acpi_is_device env PIDC_ID_SLEEP_MUSIC = true then
    Feature.sleep_and_music :: order_from_flash env
  else order_from_flash env

def order_from_boot_speed (env : SetupEnv) : List Feature :=
  if toshiba_acpi_is_device env PIDC_ID_BOOT_SPEED = true then
    Feature.fast_boot :: order_from_sleep_music env
  else order_from_sleep_music env

/-- The features the pass sets up, in setup order: illumination, fast_boot,
sleep_and_music, illumination_flash (each when its probe reports present),
trackpad, cpu_mode, then kbd_backlight or its alternate. -/
def setup_order (env : SetupEnv) : List Feature :=
  if (toshiba_acpi_is_device env PIDC_ID_ILLUMIN
      || toshiba_acpi_is_device env PIDC_ID_0A) = true then
    Feature.illumination :: order_from_boot_speed env
  else order_from_boot_speed env

/-- Exposing a feature succeeds: every allocation and every file creation of
its attributes does. -/
def exposes (env : SetupEnv) (f : Feature) : Bool :=
  f.attrs.all (fun a => env.kzalloc a && decide (env.device_create_file a = 0))

/-- The failure code of a feature that fails to expose: ENOMEM when one of its
allocations fails, else the error of its first file creation that fails. -/
def failure_code (env : SetupEnv) (f : Feature) : Int :=
  if f.attrs.all env.kzalloc = true then
    match f.attrs.find? (fun a => decide (env.device_create_file a ≠ 0)) with
    | some a => env.device_create_file a
    | none => 0
  else - ENOMEM

/-- The files a failing feature created and removed again by itself: those of
its attributes before the first file creation that fails, removed in reverse
order; none when an allocation fails. -/
def failure_trace (env : SetupEnv) (f : Feature) : List SysfsOp :=
  if f.attrs.all env.kzalloc = true then
    (f.attrs.takeWhile (fun a => decide (env.device_create_file a = 0))).map
        SysfsOp.create ++
      ((f.attrs.takeWhile
        (fun a => decide (env.device_create_file a = 0))).reverse).map
        SysfsOp.remove
  else []

/-- The outcome the rollback property gives for a pass over the features
order, with the attributes in exposed already registered: the value returned,
the record of file operations and the files left. The first feature that fails
to expose ends the pass with its failure code, the attributes exposed before
it are removed in the reverse of their creation order and no file is left. -/
def expected_outcome (env : SetupEnv) :
    List Attr → List Feature → Int × List SysfsOp × List Attr
  | exposed, [] => (0, exposed.map SysfsOp.create, exposed)
  | exposed, f :: order =>
    if exposes env f = true then
      expected_outcome env (exposed ++ f.attrs) order
    else
      (failure_code env f,
        exposed.map SysfsOp.create ++ failure_trace env f ++
          exposed.reverse.map SysfsOp.remove,
        [])

/-- One attribute, or none. -/
def opt (b : Bool) (a : Attr) : List Attr := if b = true then [a] else []

/-- The attributes registered by the steps before the keyboard-backlight
step, given which of these steps registered theirs. -/
def early_attrs (b1 b2 b3 b4 b5 b6 : Bool) : List Attr :=
  opt b1 Attr.lumin_mode ++ opt b2 Attr.boot_speed ++ opt b3 Attr.sleep_music ++
    opt b4 Attr.lumin_flash ++ opt b5 Attr.trackpad ++ opt b6 Attr.cpu_mode

/-- A kernel for a setup pass in which the probes of the ids in absent report
absent (the result -1) and all others present, every allocation succeeds, and
device_create_file fails with -17 for the attributes in failing and succeeds
for the others. -/
def sample_env (absent : List Nat) (failing : List Attr) : SetupEnv where
  pidc := fun id => if id ∈ absent then ⟨AE_OK, 2 ^ 64 - 1⟩ else ⟨AE_OK, 0⟩
  kzalloc := fun _ => true
  device_create_file := fun a => if a ∈ failing then -17 else 0

/-! ## Attach and detach -/

def EBUSY : Int := 16

def SPFC_HOTKEYS : Nat := 0x1E
def SPFC_HOTKEY_ENABLE : Nat := 0x08

def toshiba_kbd_backlight_cleanup {σ : Type} (s : DriverState σ) :
    DriverState σ :=
  attr_cleanup Attr.kbdbl_time (attr_cleanup Attr.kbdbl_mode s)

def toshiba_alt_kbd_backlight_cleanup {σ : Type} (s : DriverState σ) :
    DriverState σ :=
  attr_cleanup Attr.alt_kbdbl s

/-- The cleanup of every feature, in the order of the source. -/
def tos1900_acpi_cleanup {σ : Type} (s : DriverState σ) : DriverState σ :=
  toshiba_illumination_cleanup
    (toshiba_kbd_backlight_cleanup
      (toshiba_boot_speed_cleanup
        (toshiba_sleep_music_cleanup
          (toshiba_alt_kbd_backlight_cleanup
            (toshiba_illumination_flash_cleanup
              (toshiba_trackpad_cleanup
                (toshiba_cpu_mode_cleanup s)))))))

/-- What the kernel answers during one call of tos1900_add: the address
returned by kzalloc for the device object (none is NULL), the results of the
platform calls of tos1900_pf_add, the status of acpi_get_handle for SPFC, the
answers to the setup pass, and the results of the input calls of
toshiba_acpi_keyboard_setup. -/
structure AddEnv where
  kzalloc_dev : Option Nat
  platform_driver_register : Int
  platform_device_alloc : Option Nat
  platform_device_add : Int
  acpi_get_handle : Nat
  setup : SetupEnv
  input_allocate_device : Option Nat
  sparse_keymap_setup : Int
  i8042_install_filter : Int
  input_register_device : Int

/-- The platform side: whether tos1900_pf_driver is registered, the pointer
tos1900_pf_device (none is NULL) and whether that device is added. -/
structure Platform where
  driver_registered : Bool
  tos1900_pf_device : Option Nat
  device_added : Bool
  deriving DecidableEq

/-- The hotkey side: the pointer tos1900_dev->hotkey_dev (none is NULL),
whether the sparse keymap is set on the input device, whether the i8042 filter
is installed and whether the input device is registered. -/
structure Keyboard where
  hotkey_dev : Option Nat
  keymap : Bool
  filter : Bool
  registered : Bool
  deriving DecidableEq

/-- The state attach and detach act on. tos1900_dev is the global pointer
(none is NULL); live holds the addresses of the device objects obtained from
kzalloc and not freed, so a pointer whose address is not in live dangles. The
fields of the device object are keyboard.hotkey_dev and, in dev, the attribute
pointers and lumin_flash_mode; they have a meaning only while tos1900_dev
holds the address of a live object, and no function below reads them
otherwise. -/
structure Module (σ : Type) where
  tos1900_dev : Option Nat
  live : List Nat
  platform : Platform
  keyboard : Keyboard
  dev : DriverState σ

/-- The allocations left after kfree of a pointer to a live object;
kfree(NULL) does nothing. The functions below call it with the address of a
live object only. -/
def kfree (p : Option Nat) (live : List Nat) : List Nat :=
  match p with
  | none => live
  | some a => live.filter (fun x => x ≠ a)

def tos1900_pf_add (env : AddEnv) (p : Platform) : Int × Platform :=
  if env.platform_driver_register ≠ 0 then (env.platform_driver_register, p)
  else match env.platform_device_alloc with
    | none =>
      (- ENOMEM, { p with driver_registered := false, tos1900_pf_device := none })
    | some d =>
      if env.platform_device_add ≠ 0 then
        (env.platform_device_add,
          { p with driver_registered := false, tos1900_pf_device := none })
      else
        (0, { driver_registered := true, tos1900_pf_device := some d,
              device_added := true })

/-- Unregisters the device and the driver; the pointer keeps its value. -/
def tos1900_pf_remove (p : Platform) : Platform :=
  { p with driver_registered := false, device_added := false }

/-- Sends the request that enables the hotkeys; the status is not looked
at. -/
def tos1900_enable_hotkeys {σ : Type} (spfc : Spfc σ) (w : World σ) : World σ :=
  (toshiba_spfc_communicate spfc w
    [SPFC_LOWER_SET, SPFC_HOTKEYS, SPFC_HOTKEY_ENABLE, 0, 0, 0] none).2.2

/-- Allocates the input device, sets the keymap, installs the filter and
registers the device; a failure undoes the steps before it and sets
hotkey_dev back to NULL. On success the hotkeys are enabled. -/
def toshiba_acpi_keyboard_setup {σ : Type} (spfc : Spfc σ) (env : AddEnv)
    (k : Keyboard) (w : World σ) : Int × Keyboard × World σ :=
  match env.input_allocate_device with
  | none => (- ENOMEM, { k with hotkey_dev := none }, w)
  | some h =>
    if env.sparse_keymap_setup ≠ 0 then
      (env.sparse_keymap_setup, { k with hotkey_dev := none }, w)
    else if env.i8042_install_filter ≠ 0 then
      (env.i8042_install_filter,
        { k with hotkey_dev := none, keymap := false }, w)
    else if env.input_register_device ≠ 0 then
      (env.input_register_device,
        { k with hotkey_dev := none, keymap := false, filter := false }, w)
    else
      (0, { hotkey_dev := some h, keymap := true, filter := true,
            registered := true },
        tos1900_enable_hotkeys spfc w)

def toshiba_acpi_keyboard_cleanup (k : Keyboard) : Keyboard :=
  if k.hotkey_dev ≠ none then
    { hotkey_dev := none, keymap := false, filter := false,
      registered := false }
  else k

def toshiba_acpi_wireless_setup : Int := 0

/-- The code of tos1900_add from the label out on: kfree(tos1900_dev); the
pointer itself keeps its value. -/
def add_out {σ : Type} (m : Module σ) : Module σ :=
  { m with live := kfree m.tos1900_dev m.live }

/-- From the label outpf on. -/
def add_outpf {σ : Type} (m : Module σ) : Module σ :=
  add_out { m with platform := tos1900_pf_remove m.platform }

/-- From the label outacpi on. -/
def add_outacpi {σ : Type} (m : Module σ) : Module σ :=
  add_outpf { m with dev := tos1900_acpi_cleanup m.dev }

/-- From the label outkeyboard on. -/
def add_outkeyboard {σ : Type} (m : Module σ) : Module σ :=
  add_outacpi { m with keyboard := toshiba_acpi_keyboard_cleanup m.keyboard }

/-- The body of tos1900_add from the call of toshiba_acpi_keyboard_setup to
the end. -/
def add_keyboard {σ : Type} (spfc : Spfc σ) (env : AddEnv) (m : Module σ) :
    Int × Module σ :=
  let kb := toshiba_acpi_keyboard_setup spfc env m.keyboard m.dev.world
  let m1 : Module σ :=
    { m with keyboard := kb.2.1, dev := { m.dev with world := kb.2.2 } }
  if kb.1 ≠ 0 then (kb.1, add_outacpi m1)
  else if toshiba_acpi_wireless_setup ≠ 0 then
    (toshiba_acpi_wireless_setup, add_outkeyboard m1)
  else (0, m1)

/-- From the lookup of the SPFC handle to the end: the setup pass runs only
when the handle is found. -/
def add_acpi {σ : Type} (spfc : Spfc σ) (env : AddEnv) (m : Module σ) :
    Int × Module σ :=
  if env.acpi_get_handle = AE_OK then
    let ac := tos1900_acpi_setup spfc env.setup m.dev
    if ac.1 ≠ 0 then (ac.1, add_outpf { m with dev := ac.2 })
    else add_keyboard spfc env { m with dev := ac.2 }
  else add_keyboard spfc env m

/-- From the call of tos1900_pf_add to the end. -/
def add_pf {σ : Type} (spfc : Spfc σ) (env : AddEnv) (m : Module σ) :
    Int × Module σ :=
  let pf := tos1900_pf_add env m.platform
  if pf.1 ≠ 0 then (pf.1, add_out { m with platform := pf.2 })
  else add_acpi spfc env { m with platform := pf.2 }

/-- The attach callback. A pointer tos1900_dev that is not NULL ends it with
EBUSY. Else the device object is allocated with kzalloc, which zeroes its
fields, and the platform device, the features and the hotkeys are set up; a
failure undoes the steps before it and frees the object. -/
def tos1900_add {σ : Type} (spfc : Spfc σ) (env : AddEnv) (m : Module σ) :
    Int × Module σ :=
  if m.tos1900_dev ≠ none then (- EBUSY, m)
  else match env.kzalloc_dev with
    | none => (- ENOMEM, m)
    | some p =>
      add_pf spfc env
        { m with
          tos1900_dev := some p,
          live := p :: m.live,
          keyboard := { m.keyboard with hotkey_dev := none },
          dev := { m.dev with lumin_flash_mode := 0, attrs := [] } }

/-- The detach callback: the cleanups, kfree(tos1900_dev), and the pointer
set to NULL. The cleanups read the fields of the device object through
tos1900_dev and the object is then freed, so the call has a result only when
the pointer holds the address of a live object. With a NULL pointer, or with
the dangling pointer a failed attach leaves, the C code dereferences it (and
frees the dangling one a second time); that behaviour is undefined and the
result is none. -/
def tos1900_remove {σ : Type} (m : Module σ) : Option (Int × Module σ) :=
  match m.tos1900_dev with
  | none => none
  | some p =>
    if p ∈ m.live then
      some (0,
        { tos1900_dev := none,
          live := kfree (some p) m.live,
          platform := tos1900_pf_remove m.platform,
          keyboard := toshiba_acpi_keyboard_cleanup m.keyboard,
          dev := tos1900_acpi_cleanup m.dev })
    else none

/-- Successive calls of tos1900_add, one per kernel answer in arrival order,
each on the state the call before it left: the values returned and the final
state. -/
def adds {σ : Type} (spfc : Spfc σ) :
    List AddEnv → Module σ → List Int × Module σ
  | [], m => ([], m)
  | env :: rest, m =>
    ((tos1900_add spfc env m).1 :: (adds spfc rest (tos1900_add spfc env m).2).1,
      (adds spfc rest (tos1900_add spfc env m).2).2)

/-- A kernel for one attach in which the device object is allocated at address
addr and every call succeeds, with the setup pass answered by setup. -/
def sample_add_env (addr : Nat) (setup : SetupEnv) : AddEnv where
  kzalloc_dev := some addr
  platform_driver_register := 0
  platform_device_alloc := some 1
  platform_device_add := 0
  acpi_get_handle := AE_OK
  setup := setup
  input_allocate_device := some 2
  sparse_keymap_setup := 0
  i8042_install_filter := 0
  input_register_device := 0

/-- The state before the first attach: no device object, nothing registered,
no attribute file, and a firmware that answers every request with six zero
words. -/
def initial_module : Module Unit where
  tos1900_dev := none
  live := []
  platform := ⟨false, none, false⟩
  keyboard := ⟨none, false, false, false⟩
  dev := ⟨0, [], [], [], ⟨(), []⟩⟩

/-- A kernel for one attach that fails in tos1900_pf_add: platform_device_add
returns -19. -/
def failing_pf_env (addr : Nat) : AddEnv :=
  { sample_add_env addr (sample_env [] []) with platform_device_add := -19 }

/-- A kernel for one attach that fails in toshiba_acpi_keyboard_setup:
i8042_install_filter returns -16. -/
def failing_keyboard_env (addr : Nat) : AddEnv :=
  { sample_add_env addr (sample_env [] []) with i8042_install_filter := -16 }

/-! ## Theorems: keystroke filter -/

/-- C1 (as stated, refuted): in Idle with a clear status byte the byte 0xE0 is
not swallowed and the filter does not move to ExtendedPending. -/
theorem filter_idle_e0_not_swallowed :
    tos1900_i8042_filter false 0xE0 0 = ⟨false, false, 0⟩ := by
  decide

/-- C1 (amended): in Idle, with status bit 0x20 clear, the byte 0xE0 is passed
through, schedules no work and leaves the filter in Idle; feeding
[0xE0, 0x55] passes both bytes through. -/
theorem filter_idle_e0_passes (str str2 : Nat)
    (h : str &&& 0x20 = 0) (h2 : str2 &&& 0x20 = 0) :
    tos1900_i8042_filter false 0xE0 str = ⟨false, false, 0⟩ ∧
    feed false [(0xE0, str), (0x55, str2)] =
      [⟨false, false, 0⟩, ⟨false, false, 0⟩] := by
  have h55 : (0x55 &&& 0x7f : Nat) = 0x55 := by decide
  simp [feed, tos1900_i8042_filter, h, h2, h55]

theorem filter_idle_e0_passes_witness :
    (0 &&& 0x20 = 0) ∧
    tos1900_i8042_filter false 0xE0 0 = ⟨false, false, 0⟩ ∧
    feed false [(0xE0, 0), (0x55, 0)] =
      [⟨false, false, 0⟩, ⟨false, false, 0⟩] :=
  ⟨by decide, filter_idle_e0_passes 0 0 (by decide) (by decide)⟩

/-- C2: from Idle, with status bit 0x20 clear on both bytes, a button-strip
byte d (low seven bits 0x42) followed by 0xE0 schedules the deferred work once
(on d), has both bytes swallowed and ends in Idle. -/
theorem filter_button_strip_then_e0 (d str str2 : Nat)
    (hd : d &&& 0x7F = 0x42) (h : str &&& 0x20 = 0) (h2 : str2 &&& 0x20 = 0) :
    feed false [(d, str), (0xE0, str2)] =
      [⟨true, true, 1⟩, ⟨true, false, 0⟩] := by
  have hne : d ≠ 0xe0 := by
    rintro rfl
    exact absurd hd (by decide)
  have h6e : ¬ (d &&& 0x7f = 0x6e) := by
    rw [hd]; decide
  simp [feed, tos1900_i8042_filter, h, h2, hne, h6e, hd]

theorem filter_button_strip_then_e0_witness :
    feed false [(0x42, 0), (0xE0, 0)] = [⟨true, true, 1⟩, ⟨true, false, 0⟩] ∧
    feed false [(0xC2, 0), (0xE0, 0)] = [⟨true, true, 1⟩, ⟨true, false, 0⟩] :=
  ⟨filter_button_strip_then_e0 0x42 0 0 (by decide) (by decide) (by decide),
   filter_button_strip_then_e0 0xC2 0 0 (by decide) (by decide) (by decide)⟩

/-- C3: in Idle, with status bit 0x20 clear, a function-key byte d (low seven
bits 0x6E) schedules the deferred work once, is swallowed, and the filter stays
in Idle. -/
theorem filter_function_key (d str : Nat)
    (hd : d &&& 0x7F = 0x6E) (h : str &&& 0x20 = 0) :
    tos1900_i8042_filter false d str = ⟨true, false, 1⟩ := by
  have hne : d ≠ 0xe0 := by
    rintro rfl
    exact absurd hd (by decide)
  simp [tos1900_i8042_filter, h, hne, hd]

theorem filter_function_key_witness :
    tos1900_i8042_filter false 0x6E 0 = ⟨true, false, 1⟩ ∧
    tos1900_i8042_filter false 0xEE 0 = ⟨true, false, 1⟩ :=
  ⟨filter_function_key 0x6E 0 (by decide) (by decide),
   filter_function_key 0xEE 0 (by decide) (by decide)⟩

/-- C4: whatever the filter state and the data byte, a status byte with bit
0x20 set makes the filter return false, schedule nothing and keep its state. -/
theorem filter_status_bit_passes (btn_strip : Bool) (d str : Nat)
    (h : str &&& 0x20 ≠ 0) :
    tos1900_i8042_filter btn_strip d str = ⟨false, btn_strip, 0⟩ := by
  simp [tos1900_i8042_filter, h]

theorem filter_status_bit_passes_witness :
    tos1900_i8042_filter true 0xE0 0x20 = ⟨false, true, 0⟩ ∧
    tos1900_i8042_filter false 0x42 0x21 = ⟨false, false, 0⟩ ∧
    tos1900_i8042_filter false 0x6E 0xA0 = ⟨false, false, 0⟩ :=
  ⟨filter_status_bit_passes true 0xE0 0x20 (by decide),
   filter_status_bit_passes false 0x42 0x21 (by decide),
   filter_status_bit_passes false 0x6E 0xA0 (by decide)⟩

/-! ## Theorems: hotkey notification path -/

/-- C5: on event 0x80 with INFO read successfully, a payload equal to 0x000 or
0x100, or with bit 0x80 set, never reaches the keymap helper (whatever the
helper is), so no key is reported and no unknown-hotkey message is logged. -/
theorem notify_discards (report : Nat → Bool × List Key) (h : Nat)
    (hd : h = 0x000 ∨ h = 0x100 ∨ h &&& 0x80 ≠ 0) :
    tos1900_notify report 0x80 ⟨AE_OK, h⟩ = ⟨none, [], none⟩ := by
  unfold tos1900_notify
  rcases hd with rfl | rfl | hd
  · simp
  · simp
  · simp [hd]

theorem notify_discards_witness :
    tos1900_notify (sparse_keymap_report_event tos1900_keymap) 0x80
        ⟨AE_OK, 0x100⟩ = ⟨none, [], none⟩ ∧
    tos1900_notify (sparse_keymap_report_event tos1900_keymap) 0x80
        ⟨AE_OK, 0x181⟩ = ⟨none, [], none⟩ :=
  ⟨notify_discards _ 0x100 (by decide), notify_discards _ 0x181 (by decide)⟩

/-- C6: for every KE_KEY row of tos1900_keymap, a notification whose INFO
payload is the row's raw code passes the discard rules, is looked up, reports
exactly the row's key and logs no unknown-hotkey message. -/
theorem notify_mapped_key (e : key_entry) (he : e ∈ tos1900_keymap)
    (hk : e.type = KeType.KE_KEY) :
    tos1900_notify (sparse_keymap_report_event tos1900_keymap) 0x80
        ⟨AE_OK, e.code⟩ = ⟨some e.code, [e.keycode], none⟩ := by
  have hall : ∀ x ∈ tos1900_keymap, x.type = KeType.KE_KEY →
      tos1900_notify (sparse_keymap_report_event tos1900_keymap) 0x80
        ⟨AE_OK, x.code⟩ = ⟨some x.code, [x.keycode], none⟩ := by
    decide
  exact hall e he hk

theorem notify_mapped_key_witness :
    tos1900_notify (sparse_keymap_report_event tos1900_keymap) 0x80
        ⟨AE_OK, 0x101⟩ = ⟨some 0x101, [Key.KEY_MUTE], none⟩ :=
  notify_mapped_key ⟨KeType.KE_KEY, 0x101, Key.KEY_MUTE⟩ (by decide) rfl

/-- C7 (as stated, refuted): payload 0x999 has bit 0x80 set, so it is discarded
before the keymap is consulted and no unknown-hotkey message is logged. -/
theorem notify_0x999_not_logged :
    (tos1900_notify (sparse_keymap_report_event tos1900_keymap) 0x80
        ⟨AE_OK, 0x999⟩).unknown = none := by
  decide

/-- C7 (amended): payload 0x999 is discarded as a release edge, with no key
reported and nothing logged; a payload that passes the discard rules (not
0x000, not 0x100, bit 0x80 clear) and that the keymap helper does not know is
handed to the helper and logged as an unknown hotkey, the driver reporting no
key of its own. -/
theorem notify_unknown_logged (report : Nat → Bool × List Key) (h : Nat)
    (h0 : h ≠ 0x000) (h100 : h ≠ 0x100) (h80 : h &&& 0x80 = 0)
    (hun : (report (h % 2 ^ 32)).1 = false) :
    tos1900_notify report 0x80 ⟨AE_OK, 0x999⟩ = ⟨none, [], none⟩ ∧
    tos1900_notify report 0x80 ⟨AE_OK, h⟩ =
      ⟨some (h % 2 ^ 32), (report (h % 2 ^ 32)).2, some (h % 2 ^ 32)⟩ := by
  refine ⟨?_, ?_⟩
  · have h999 : (0x999 &&& 0x80 : Nat) ≠ 0 := by decide
    simp [tos1900_notify, h999]
  · have hun2 : (report (h % 4294967296)).1 = false := by simpa using hun
    simp [tos1900_notify, h0, h100, h80, hun2]

theorem notify_unknown_logged_witness :
    tos1900_notify (sparse_keymap_report_event tos1900_keymap) 0x80
        ⟨AE_OK, 0x999⟩ = ⟨none, [], none⟩ ∧
    tos1900_notify (sparse_keymap_report_event tos1900_keymap) 0x80
        ⟨AE_OK, 0x919⟩ = ⟨some 0x919, [], some 0x919⟩ :=
  notify_unknown_logged (sparse_keymap_report_event tos1900_keymap) 0x919
    (by decide) (by decide) (by decide) (by decide)


/-! ## Theorems: keyboard backlight -/

/-- The packed word of a valid mode code and a timeout of at most 60 is
(t << 16) | m without wrap-around, and its two fields are m and t. -/
theorem kbd_backlight_word_fields (m t : Nat)
    (hm : m = 0x10 ∨ m = 0x08 ∨ m = 0x02) (ht : t ≤ 60) :
    kbd_backlight_word m t = (t <<< 16) ||| m ∧
    kbd_backlight_word m t < 2 ^ 32 ∧
    kbd_backlight_mode_of (kbd_backlight_word m t) = m ∧
    kbd_backlight_time_of (kbd_backlight_word m t) = t := by
  have hall : ∀ t < 61, ∀ m ∈ [0x10, 0x08, 0x02],
      kbd_backlight_word m t = (t <<< 16) ||| m ∧
      kbd_backlight_word m t < 2 ^ 32 ∧
      kbd_backlight_mode_of (kbd_backlight_word m t) = m ∧
      kbd_backlight_time_of (kbd_backlight_word m t) = t := by
    decide
  exact hall t (by omega) m (by simpa using hm)

/-- Every call of toshiba_spfc_communicate appends its request to the record
of calls. -/
theorem communicate_calls {σ : Type} (spfc : Spfc σ) (w : World σ)
    (inp : List Nat) (out : Option (Nat → Nat)) :
    (toshiba_spfc_communicate spfc w inp out).2.2.calls = w.calls ++ [inp] := by
  unfold toshiba_spfc_communicate
  cases out with
  | none => rfl
  | some o =>
    simp only
    split_ifs <;> rfl

/-- C8: for each firmware mode code m (0x10, 0x08, 0x02) and each timeout
t ≤ 60, __toshiba_kbd_backlight_store sends one request whose word 2 is
w = (t << 16) | m, a 32-bit word, and w decodes back to m with the mask of the
mode read and to t with the mask and shift of the timeout read. -/
theorem kbd_backlight_pack_exact {σ : Type} (spfc : Spfc σ) (w : World σ)
    (m t : Nat) (hm : m = 0x10 ∨ m = 0x08 ∨ m = 0x02) (ht : t ≤ 60) :
    (__toshiba_kbd_backlight_store spfc w m t).2.calls = w.calls ++
      [[SPFC_UPPER_SET, SPFC_KBD_BACKLIGHT, (t <<< 16) ||| m, 0, 0, 0]] ∧
    (t <<< 16) ||| m < 2 ^ 32 ∧
    kbd_backlight_mode_of ((t <<< 16) ||| m) = m ∧
    kbd_backlight_time_of ((t <<< 16) ||| m) = t := by
  obtain ⟨h1, h2, h3, h4⟩ := kbd_backlight_word_fields m t hm ht
  rw [h1] at h2 h3 h4
  refine ⟨?_, h2, h3, h4⟩
  have ht2 : ¬ (t > 60) := by omega
  have hm2 : ¬ (m ≠ 0x10 ∧ m ≠ 0x08 ∧ m ≠ 0x02) := by
    rcases hm with rfl | rfl | rfl <;> simp
  have hc := communicate_calls spfc w
    [SPFC_UPPER_SET, SPFC_KBD_BACKLIGHT, kbd_backlight_word m t, 0, 0, 0] none
  rw [h1] at hc
  simp only [__toshiba_kbd_backlight_store, if_neg ht2, if_neg hm2, h1]
  split_ifs <;> exact hc

theorem kbd_backlight_pack_exact_witness :
    (__toshiba_kbd_backlight_store
      (word2_register SPFC_UPPER_SET SPFC_UPPER_GET SPFC_KBD_BACKLIGHT)
      ⟨0, []⟩ 0x08 60).2.calls =
      [] ++ [[SPFC_UPPER_SET, SPFC_KBD_BACKLIGHT, (60 <<< 16) ||| 0x08, 0, 0, 0]] ∧
    (60 <<< 16) ||| 0x08 < 2 ^ 32 ∧
    kbd_backlight_mode_of ((60 <<< 16) ||| 0x08) = 0x08 ∧
    kbd_backlight_time_of ((60 <<< 16) ||| 0x08) = 60 :=
  kbd_backlight_pack_exact
    (word2_register SPFC_UPPER_SET SPFC_UPPER_GET SPFC_KBD_BACKLIGHT)
    ⟨0, []⟩ 0x08 60 (by decide) (by decide)

/-- A successful GET of a word-keeping register through
toshiba_spfc_communicate: status AE_OK, word 2 of the out buffer is the stored
word narrowed to u32, the stored word is kept and the request is recorded. -/
theorem communicate_get {σ : Type} {spfc : Spfc σ} {set get reg : Nat}
    {stored : σ → Nat} (hfw : StoresWord2 spfc set get reg stored)
    (w : World σ) (out0 : Nat → Nat) :
    (toshiba_spfc_communicate spfc w [get, reg, 0, 0, 0, 0] (some out0)).1
      = AE_OK ∧
    out_word (toshiba_spfc_communicate spfc w [get, reg, 0, 0, 0, 0]
      (some out0)).2.1 2 = stored w.fw % 2 ^ 32 ∧
    stored (toshiba_spfc_communicate spfc w [get, reg, 0, 0, 0, 0]
      (some out0)).2.2.fw = stored w.fw ∧
    (toshiba_spfc_communicate spfc w [get, reg, 0, 0, 0, 0]
      (some out0)).2.2.calls = w.calls ++ [[get, reg, 0, 0, 0, 0]] := by
  have h1 := hfw.get_status w.fw
  have h2 := hfw.get_count w.fw
  have h3 := hfw.get_word2 w.fw
  have h4 := hfw.get_stored w.fw
  have hlen : 2 < (spfc w.fw [get, reg, 0, 0, 0, 0]).1.elements.length := by
    by_contra hc
    rw [List.get?_eq_none.mpr (by omega)] at h3
    exact absurd h3 (by simp)
  have hget : (spfc w.fw [get, reg, 0, 0, 0, 0]).1.elements[2]
      = stored w.fw := by
    rw [List.get?_eq_getElem?, List.getElem?_eq_getElem hlen] at h3
    exact Option.some.inj h3
  simp [toshiba_spfc_communicate, h1, h2, h4, out_word, copy_results, hlen, hget]


/-- A SET of a word-keeping register through toshiba_spfc_communicate: status
AE_OK, request word 2 becomes the stored word, the request is recorded. -/
theorem communicate_set {σ : Type} {spfc : Spfc σ} {set get reg : Nat}
    {stored : σ → Nat} (hfw : StoresWord2 spfc set get reg stored)
    (w : World σ) (x : Nat) :
    (toshiba_spfc_communicate spfc w [set, reg, x, 0, 0, 0] none).1 = AE_OK ∧
    stored (toshiba_spfc_communicate spfc w [set, reg, x, 0, 0, 0] none).2.2.fw
      = x ∧
    (toshiba_spfc_communicate spfc w [set, reg, x, 0, 0, 0] none).2.2.calls
      = w.calls ++ [[set, reg, x, 0, 0, 0]] := by
  have h1 := hfw.set_status w.fw x
  have h2 := hfw.set_stored w.fw x
  simp [toshiba_spfc_communicate, h1, h2]

/-- Narrowing a word to 32 bits does not change its mode field. -/
theorem kbd_backlight_mode_of_mod (x : Nat) :
    kbd_backlight_mode_of (x % 2 ^ 32) = kbd_backlight_mode_of x := by
  unfold kbd_backlight_mode_of
  rw [← Nat.and_pow_two_sub_one_eq_mod x 32, Nat.and_assoc]
  rfl

/-- Narrowing a word to 32 bits does not change its timeout field. -/
theorem kbd_backlight_time_of_mod (x : Nat) :
    kbd_backlight_time_of (x % 2 ^ 32) = kbd_backlight_time_of x := by
  unfold kbd_backlight_time_of
  rw [← Nat.and_pow_two_sub_one_eq_mod x 32, Nat.and_assoc]
  rfl

/-- The mode read on a word-keeping register yields the mode field of the
stored word and keeps the stored word. -/
theorem mode_show_reads {σ : Type} {spfc : Spfc σ} {stored : σ → Nat}
    (hfw : StoresWord2 spfc SPFC_UPPER_SET SPFC_UPPER_GET SPFC_KBD_BACKLIGHT
      stored) (w : World σ) (out0 : Nat → Nat) :
    (__toshiba_kbd_backlight_mode_show spfc w out0).1
      = .ok (kbd_backlight_mode_of (stored w.fw)) ∧
    stored (__toshiba_kbd_backlight_mode_show spfc w out0).2.fw
      = stored w.fw := by
  obtain ⟨h1, h2, h3, -⟩ := communicate_get hfw w out0
  simp [__toshiba_kbd_backlight_mode_show, h1, h2, h3]
  exact kbd_backlight_mode_of_mod _

/-- The timeout read on a word-keeping register yields the timeout field of
the stored word and keeps the stored word. -/
theorem time_show_reads {σ : Type} {spfc : Spfc σ} {stored : σ → Nat}
    (hfw : StoresWord2 spfc SPFC_UPPER_SET SPFC_UPPER_GET SPFC_KBD_BACKLIGHT
      stored) (w : World σ) (out0 : Nat → Nat) :
    (__toshiba_kbd_backlight_time_show spfc w out0).1
      = .ok (kbd_backlight_time_of (stored w.fw)) ∧
    stored (__toshiba_kbd_backlight_time_show spfc w out0).2.fw
      = stored w.fw := by
  obtain ⟨h1, h2, h3, -⟩ := communicate_get hfw w out0
  simp [__toshiba_kbd_backlight_time_show, h1, h2, h3]
  exact kbd_backlight_time_of_mod _

/-- A write of a valid mode code and a timeout of at most 60 succeeds on a
word-keeping register and stores the packed word. -/
theorem store_writes {σ : Type} {spfc : Spfc σ} {stored : σ → Nat}
    (hfw : StoresWord2 spfc SPFC_UPPER_SET SPFC_UPPER_GET SPFC_KBD_BACKLIGHT
      stored) (w : World σ) (m t : Nat)
    (hm : m = 0x10 ∨ m = 0x08 ∨ m = 0x02) (ht : t ≤ 60) :
    (__toshiba_kbd_backlight_store spfc w m t).1 = 0 ∧
    stored (__toshiba_kbd_backlight_store spfc w m t).2.fw
      = kbd_backlight_word m t := by
  obtain ⟨h1, h2, -⟩ := communicate_set hfw w (kbd_backlight_word m t)
  have ht2 : ¬ (t > 60) := by omega
  have hm2 : ¬ (m ≠ 0x10 ∧ m ≠ 0x08 ∧ m ≠ 0x02) := by
    rcases hm with rfl | rfl | rfl <;> simp
  simp only [__toshiba_kbd_backlight_store, if_neg ht2, if_neg hm2, h1]
  simp
  exact h2


/-- The mode code of an exposed mode 0, 1 or 2 is one of the three firmware
codes. -/
theorem kbd_backlight_mode_code_valid (value : Nat) :
    kbd_backlight_mode_code value = 0x10 ∨ kbd_backlight_mode_code value = 0x08 ∨
    kbd_backlight_mode_code value = 0x02 := by
  unfold kbd_backlight_mode_code
  split_ifs <;> simp

/-- Writing an exposed mode over a stored timeout of at most 60 succeeds and
stores the mode code packed with that timeout. -/
theorem mode_store_writes {σ : Type} {spfc : Spfc σ} {stored : σ → Nat}
    (hfw : StoresWord2 spfc SPFC_UPPER_SET SPFC_UPPER_GET SPFC_KBD_BACKLIGHT
      stored) (w : World σ) (out0 : Nat → Nat) (count value : Nat)
    (hc : count ≤ 31) (ht : kbd_backlight_time_of (stored w.fw) ≤ 60) :
    (toshiba_kbd_backlight_mode_store spfc w out0 count (some value)).1
      = (count : Int) ∧
    stored (toshiba_kbd_backlight_mode_store spfc w out0 count
      (some value)).2.fw
      = kbd_backlight_word (kbd_backlight_mode_code value)
          (kbd_backlight_time_of (stored w.fw)) := by
  obtain ⟨h1, h2⟩ := time_show_reads hfw w out0
  rcases hts : __toshiba_kbd_backlight_time_show spfc w out0 with ⟨r, w1⟩
  rw [hts] at h1 h2
  simp only at h1 h2
  subst h1
  have ht1 : kbd_backlight_time_of (stored w1.fw) ≤ 60 := by rw [h2]; exact ht
  obtain ⟨h3, h4⟩ := store_writes hfw w1 (kbd_backlight_mode_code value)
    (kbd_backlight_time_of (stored w.fw)) (kbd_backlight_mode_code_valid value) ht
  have hc2 : ¬ (count > 31) := by omega
  simp [toshiba_kbd_backlight_mode_store, hc2, hts, h3, h4]

/-- Writing a timeout of at most 60 over a stored valid mode code succeeds and
stores that mode code packed with the timeout. -/
theorem time_store_writes {σ : Type} {spfc : Spfc σ} {stored : σ → Nat}
    (hfw : StoresWord2 spfc SPFC_UPPER_SET SPFC_UPPER_GET SPFC_KBD_BACKLIGHT
      stored) (w : World σ) (out0 : Nat → Nat) (count value : Nat)
    (hc : count ≤ 31) (hv : value ≤ 60)
    (hm : kbd_backlight_mode_of (stored w.fw) = 0x10 ∨
      kbd_backlight_mode_of (stored w.fw) = 0x08 ∨
      kbd_backlight_mode_of (stored w.fw) = 0x02) :
    (toshiba_kbd_backlight_time_store spfc w out0 count (some value)).1
      = (count : Int) ∧
    stored (toshiba_kbd_backlight_time_store spfc w out0 count
      (some value)).2.fw
      = kbd_backlight_word (kbd_backlight_mode_of (stored w.fw)) value := by
  obtain ⟨h1, h2⟩ := mode_show_reads hfw w out0
  rcases hts : __toshiba_kbd_backlight_mode_show spfc w out0 with ⟨r, w1⟩
  rw [hts] at h1 h2
  simp only at h1 h2
  subst h1
  obtain ⟨h3, h4⟩ := store_writes hfw w1 (kbd_backlight_mode_of (stored w.fw))
    value hm hv
  have hc2 : ¬ (count > 31) := by omega
  have hv2 : value % 2 ^ 32 = value := Nat.mod_eq_of_lt (by omega)
  simp only [toshiba_kbd_backlight_time_store, if_neg hc2, hts, hv2, h3]
  simp
  exact h4


/-- The sysfs read of the mode on a word-keeping register whose stored mode
field is the code of an exposed mode (0, 1 or 2) prints that mode and keeps
the stored word. -/
theorem mode_show_prints {σ : Type} {spfc : Spfc σ} {stored : σ → Nat}
    (hfw : StoresWord2 spfc SPFC_UPPER_SET SPFC_UPPER_GET SPFC_KBD_BACKLIGHT
      stored) (w : World σ) (out0 : Nat → Nat) (mode : Nat) (hmode : mode ≤ 2)
    (hm : kbd_backlight_mode_of (stored w.fw) = kbd_backlight_mode_code mode) :
    (toshiba_kbd_backlight_mode_show spfc w out0).1 = .ok (mode : Int) ∧
    stored (toshiba_kbd_backlight_mode_show spfc w out0).2.fw
      = stored w.fw := by
  obtain ⟨h1, h2⟩ := mode_show_reads hfw w out0
  rcases hts : __toshiba_kbd_backlight_mode_show spfc w out0 with ⟨r, w1⟩
  rw [hts] at h1 h2
  simp only at h1 h2
  subst h1
  rw [hm] at hts
  interval_cases mode <;>
    simp [toshiba_kbd_backlight_mode_show, hts, kbd_backlight_mode_code, h2]

/-- The sysfs read of the timeout on a word-keeping register whose stored
timeout field is at most 60 prints that timeout. -/
theorem time_show_prints {σ : Type} {spfc : Spfc σ} {stored : σ → Nat}
    (hfw : StoresWord2 spfc SPFC_UPPER_SET SPFC_UPPER_GET SPFC_KBD_BACKLIGHT
      stored) (w : World σ) (out0 : Nat → Nat)
    (ht : kbd_backlight_time_of (stored w.fw) ≤ 60) :
    (toshiba_kbd_backlight_time_show spfc w out0).1
      = .ok (kbd_backlight_time_of (stored w.fw) : Int) := by
  obtain ⟨h1, h2⟩ := time_show_reads hfw w out0
  rcases hts : __toshiba_kbd_backlight_time_show spfc w out0 with ⟨r, w1⟩
  rw [hts] at h1 h2
  simp only at h1 h2
  subst h1
  have hlt : kbd_backlight_time_of (stored w.fw) < 2 ^ 31 := by omega
  have hmod : kbd_backlight_time_of (stored w.fw) % 2 ^ 32
      = kbd_backlight_time_of (stored w.fw) := Nat.mod_eq_of_lt (by omega)
  simp only [toshiba_kbd_backlight_time_show, hts, int_of_u32, if_pos hlt, hmod]

/-- C9: on a firmware that keeps request word 2 of each SET of register 0x015C
and returns it as word 2 of each GET, all calls succeeding, and with a stored
timeout of at most 60 to start from: for every exposed mode in 0..2 and every
minutes in 0..60, writing the mode and then the timeout both succeed (each
returns its count), and the mode read and timeout read that follow print
exactly mode and minutes. -/
theorem kbd_backlight_round_trip {σ : Type} (spfc : Spfc σ) (stored : σ → Nat)
    (hfw : StoresWord2 spfc SPFC_UPPER_SET SPFC_UPPER_GET SPFC_KBD_BACKLIGHT
      stored)
    (w : World σ) (mode minutes count1 count2 : Nat) (o1 o2 o3 o4 : Nat → Nat)
    (h0 : kbd_backlight_time_of (stored w.fw) ≤ 60)
    (hmode : mode ≤ 2) (hmin : minutes ≤ 60)
    (hc1 : count1 ≤ 31) (hc2 : count2 ≤ 31) :
    (toshiba_kbd_backlight_mode_store spfc w o1 count1 (some mode)).1
      = (count1 : Int) ∧
    (toshiba_kbd_backlight_time_store spfc
      (toshiba_kbd_backlight_mode_store spfc w o1 count1 (some mode)).2
      o2 count2 (some minutes)).1 = (count2 : Int) ∧
    (toshiba_kbd_backlight_mode_show spfc
      (toshiba_kbd_backlight_time_store spfc
        (toshiba_kbd_backlight_mode_store spfc w o1 count1 (some mode)).2
        o2 count2 (some minutes)).2 o3).1 = .ok (mode : Int) ∧
    (toshiba_kbd_backlight_time_show spfc
      (toshiba_kbd_backlight_mode_show spfc
        (toshiba_kbd_backlight_time_store spfc
          (toshiba_kbd_backlight_mode_store spfc w o1 count1 (some mode)).2
          o2 count2 (some minutes)).2 o3).2 o4).1 = .ok (minutes : Int) := by
  have hcode := kbd_backlight_mode_code_valid mode
  obtain ⟨a1, a2⟩ := mode_store_writes hfw w o1 count1 mode hc1 h0
  have p1 := kbd_backlight_word_fields (kbd_backlight_mode_code mode)
    (kbd_backlight_time_of (stored w.fw)) hcode h0
  have m1 : kbd_backlight_mode_of (stored
      (toshiba_kbd_backlight_mode_store spfc w o1 count1 (some mode)).2.fw)
      = kbd_backlight_mode_code mode := by
    rw [a2]; exact p1.2.2.1
  obtain ⟨b1, b2⟩ := time_store_writes hfw
    (toshiba_kbd_backlight_mode_store spfc w o1 count1 (some mode)).2
    o2 count2 minutes hc2 hmin (by rw [m1]; exact hcode)
  rw [m1] at b2
  have p2 := kbd_backlight_word_fields (kbd_backlight_mode_code mode) minutes
    hcode hmin
  obtain ⟨c1, c2⟩ := mode_show_prints hfw
    (toshiba_kbd_backlight_time_store spfc
      (toshiba_kbd_backlight_mode_store spfc w o1 count1 (some mode)).2
      o2 count2 (some minutes)).2 o3 mode hmode (by rw [b2]; exact p2.2.2.1)
  have t3 : kbd_backlight_time_of (stored
      (toshiba_kbd_backlight_mode_show spfc
        (toshiba_kbd_backlight_time_store spfc
          (toshiba_kbd_backlight_mode_store spfc w o1 count1 (some mode)).2
          o2 count2 (some minutes)).2 o3).2.fw) = minutes := by
    rw [c2, b2]; exact p2.2.2.2
  have d1 := time_show_prints hfw
    (toshiba_kbd_backlight_mode_show spfc
      (toshiba_kbd_backlight_time_store spfc
        (toshiba_kbd_backlight_mode_store spfc w o1 count1 (some mode)).2
        o2 count2 (some minutes)).2 o3).2 o4 (by rw [t3]; exact hmin)
  rw [t3] at d1
  exact ⟨a1, b1, c1, d1⟩


/-- The register word2_register keeps word 2 of its SET requests and returns
it as word 2 of its GET replies, provided the two operation codes differ. -/
theorem word2_register_stores (set get reg : Nat) (h : set ≠ get) :
    StoresWord2 (word2_register set get reg) set get reg id := by
  have h2 : get ≠ set := fun e => h e.symm
  constructor <;> intros <;> simp [word2_register, AE_OK, SPFC_RESULTS, h2]

theorem kbd_backlight_round_trip_witness :
    (toshiba_kbd_backlight_mode_store
      (word2_register SPFC_UPPER_SET SPFC_UPPER_GET SPFC_KBD_BACKLIGHT)
      ⟨0x1E0008, []⟩ (fun _ => 0) 2 (some 2)).1 = ((2 : Nat) : Int) ∧
    (toshiba_kbd_backlight_time_store
      (word2_register SPFC_UPPER_SET SPFC_UPPER_GET SPFC_KBD_BACKLIGHT)
      (toshiba_kbd_backlight_mode_store
        (word2_register SPFC_UPPER_SET SPFC_UPPER_GET SPFC_KBD_BACKLIGHT)
        ⟨0x1E0008, []⟩ (fun _ => 0) 2 (some 2)).2
      (fun _ => 0) 3 (some 45)).1 = ((3 : Nat) : Int) ∧
    (toshiba_kbd_backlight_mode_show
      (word2_register SPFC_UPPER_SET SPFC_UPPER_GET SPFC_KBD_BACKLIGHT)
      (toshiba_kbd_backlight_time_store
        (word2_register SPFC_UPPER_SET SPFC_UPPER_GET SPFC_KBD_BACKLIGHT)
        (toshiba_kbd_backlight_mode_store
          (word2_register SPFC_UPPER_SET SPFC_UPPER_GET SPFC_KBD_BACKLIGHT)
          ⟨0x1E0008, []⟩ (fun _ => 0) 2 (some 2)).2
        (fun _ => 0) 3 (some 45)).2 (fun _ => 0)).1 = .ok ((2 : Nat) : Int) ∧
    (toshiba_kbd_backlight_time_show
      (word2_register SPFC_UPPER_SET SPFC_UPPER_GET SPFC_KBD_BACKLIGHT)
      (toshiba_kbd_backlight_mode_show
        (word2_register SPFC_UPPER_SET SPFC_UPPER_GET SPFC_KBD_BACKLIGHT)
        (toshiba_kbd_backlight_time_store
          (word2_register SPFC_UPPER_SET SPFC_UPPER_GET SPFC_KBD_BACKLIGHT)
          (toshiba_kbd_backlight_mode_store
            (word2_register SPFC_UPPER_SET SPFC_UPPER_GET SPFC_KBD_BACKLIGHT)
            ⟨0x1E0008, []⟩ (fun _ => 0) 2 (some 2)).2
          (fun _ => 0) 3 (some 45)).2 (fun _ => 0)).2 (fun _ => 0)).1
      = .ok ((45 : Nat) : Int) :=
  kbd_backlight_round_trip
    (word2_register SPFC_UPPER_SET SPFC_UPPER_GET SPFC_KBD_BACKLIGHT) id
    (word2_register_stores SPFC_UPPER_SET SPFC_UPPER_GET SPFC_KBD_BACKLIGHT
      (by decide))
    ⟨0x1E0008, []⟩ 2 45 2 3 (fun _ => 0) (fun _ => 0) (fun _ => 0) (fun _ => 0)
    (by decide) (by decide) (by decide) (by decide) (by decide)

/-- The part of C10 that holds: a timeout whose low 32 bits exceed 60 is
rejected with EINVAL after the mode read, and the only request issued is that
GET. -/
theorem time_store_rejects {σ : Type} (spfc : Spfc σ) (w : World σ)
    (out0 : Nat → Nat) (count value m : Nat) (hc : count ≤ 31)
    (hv : 60 < value % 2 ^ 32)
    (hread : (__toshiba_kbd_backlight_mode_show spfc w out0).1 = .ok m) :
    (toshiba_kbd_backlight_time_store spfc w out0 count (some value)).1
      = - EINVAL ∧
    (toshiba_kbd_backlight_time_store spfc w out0 count (some value)).2.calls
      = w.calls ++ [[SPFC_UPPER_GET, SPFC_KBD_BACKLIGHT, 0, 0, 0, 0]] ∧
    (toshiba_kbd_backlight_time_store spfc w out0 count (some value)).2.fw
      = (spfc w.fw [SPFC_UPPER_GET, SPFC_KBD_BACKLIGHT, 0, 0, 0, 0]).2 := by
  have hcalls := communicate_calls spfc w
    [SPFC_UPPER_GET, SPFC_KBD_BACKLIGHT, 0, 0, 0, 0] (some out0)
  have hfw : (toshiba_spfc_communicate spfc w
      [SPFC_UPPER_GET, SPFC_KBD_BACKLIGHT, 0, 0, 0, 0] (some out0)).2.2.fw
      = (spfc w.fw [SPFC_UPPER_GET, SPFC_KBD_BACKLIGHT, 0, 0, 0, 0]).2 := by
    unfold toshiba_spfc_communicate
    simp only
    split_ifs <;> rfl
  have hw : (__toshiba_kbd_backlight_mode_show spfc w out0).2
      = (toshiba_spfc_communicate spfc w
        [SPFC_UPPER_GET, SPFC_KBD_BACKLIGHT, 0, 0, 0, 0] (some out0)).2.2 := by
    unfold __toshiba_kbd_backlight_mode_show
    simp only
    split_ifs <;> rfl
  rcases hts : __toshiba_kbd_backlight_mode_show spfc w out0 with ⟨r, w1⟩
  rw [hts] at hread hw
  simp only at hread hw
  subst hread
  have hc2 : ¬ (count > 31) := by omega
  simp only [toshiba_kbd_backlight_time_store, if_neg hc2, hts,
    __toshiba_kbd_backlight_store, gt_iff_lt, if_pos hv]
  rw [hw]
  exact ⟨by simp [EINVAL], hcalls, hfw⟩

/-- C10 (failing input): with unsigned long 64 bits wide, writing the timeout
2^32 while the register holds mode 0x08 with timeout 30 is accepted: the value
is narrowed to 0, a SET with word 0x00000008 is sent, the write returns its
count and the stored timeout drops from 30 to 0. -/
theorem time_store_accepts_two_pow_32 :
    (toshiba_kbd_backlight_time_store
      (word2_register SPFC_UPPER_SET SPFC_UPPER_GET SPFC_KBD_BACKLIGHT)
      ⟨0x1E0008, []⟩ (fun _ => 0) 10 (some (2 ^ 32))).1 = 10 ∧
    (toshiba_kbd_backlight_time_store
      (word2_register SPFC_UPPER_SET SPFC_UPPER_GET SPFC_KBD_BACKLIGHT)
      ⟨0x1E0008, []⟩ (fun _ => 0) 10 (some (2 ^ 32))).2.calls =
      [[0xF300, 0x015C, 0, 0, 0, 0], [0xF400, 0x015C, 0x00000008, 0, 0, 0]] ∧
    (toshiba_kbd_backlight_time_store
      (word2_register SPFC_UPPER_SET SPFC_UPPER_GET SPFC_KBD_BACKLIGHT)
      ⟨0x1E0008, []⟩ (fun _ => 0) 10 (some (2 ^ 32))).2.fw = 0x00000008 ∧
    kbd_backlight_time_of 0x1E0008 = 30 ∧
    kbd_backlight_time_of 0x00000008 = 0 := by
  decide

/-! ## Theorems: rejected writes, illumination flash -/

/-- C11 (failing input): writing the mode value 3 while the register holds
mode 0x08 with timeout 30 is not rejected: the switch leaves mode at 0x10, the
timeout is read, a SET with word 0x001E0010 is sent, the write returns its
count and the stored mode changes from 0x08 to 0x10. -/
theorem mode_store_accepts_3 :
    kbd_backlight_mode_code 3 = 0x10 ∧
    (toshiba_kbd_backlight_mode_store
      (word2_register SPFC_UPPER_SET SPFC_UPPER_GET SPFC_KBD_BACKLIGHT)
      ⟨0x1E0008, []⟩ (fun _ => 0) 1 (some 3)).1 = 1 ∧
    (toshiba_kbd_backlight_mode_store
      (word2_register SPFC_UPPER_SET SPFC_UPPER_GET SPFC_KBD_BACKLIGHT)
      ⟨0x1E0008, []⟩ (fun _ => 0) 1 (some 3)).2.calls =
      [[0xF300, 0x015C, 0, 0, 0, 0], [0xF400, 0x015C, 0x001E0010, 0, 0, 0]] ∧
    (toshiba_kbd_backlight_mode_store
      (word2_register SPFC_UPPER_SET SPFC_UPPER_GET SPFC_KBD_BACKLIGHT)
      ⟨0x1E0008, []⟩ (fun _ => 0) 1 (some 3)).2.fw = 0x001E0010 := by
  decide

/-- A store handler of an on/off feature that returns the error EINVAL has
left the world as it was: no firmware call was made. -/
theorem store_flag_einval {σ : Type} (spfc : Spfc σ) (w : World σ)
    (set reg count : Nat) (parsed : Option Nat)
    (h : (store_flag spfc w set reg count parsed).1 = - EINVAL) :
    (store_flag spfc w set reg count parsed).2 = w := by
  unfold store_flag at h ⊢
  by_cases hc : count > 31
  · simp [hc]
  · cases parsed with
    | none => simp [hc]
    | some value =>
      exfalso
      simp only [if_neg hc] at h
      split_ifs at h <;> simp [ EIO, EINVAL] at h

/-- The world after __toshiba_kbd_backlight_store returned the error EINVAL
is the world before: no request was sent. -/
theorem kbd_store_einval {σ : Type} (spfc : Spfc σ) (w : World σ)
    (m t : Nat) (h : (__toshiba_kbd_backlight_store spfc w m t).1 = - EINVAL) :
    (__toshiba_kbd_backlight_store spfc w m t).2 = w := by
  unfold __toshiba_kbd_backlight_store at h ⊢
  by_cases h1 : t > 60
  · simp [h1]
  · by_cases h2 : m ≠ 0x10 ∧ m ≠ 0x08 ∧ m ≠ 0x02
    · simp only [if_neg h1, if_pos h2]
    · exfalso
      simp only [if_neg h1, if_neg h2] at h
      split_ifs at h <;> simp [ EIO, EINVAL] at h

/-- The world after a read of the mode field: the GET request was recorded. -/
theorem mode_show_calls {σ : Type} (spfc : Spfc σ) (w : World σ)
    (out0 : Nat → Nat) :
    (__toshiba_kbd_backlight_mode_show spfc w out0).2.calls
      = w.calls ++ [[SPFC_UPPER_GET, SPFC_KBD_BACKLIGHT, 0, 0, 0, 0]] := by
  have hc := communicate_calls spfc w
    [SPFC_UPPER_GET, SPFC_KBD_BACKLIGHT, 0, 0, 0, 0] (some out0)
  unfold __toshiba_kbd_backlight_mode_show
  simp only
  split_ifs <;> exact hc

/-- The world after a read of the timeout field: the GET request was
recorded. -/
theorem time_show_calls {σ : Type} (spfc : Spfc σ) (w : World σ)
    (out0 : Nat → Nat) :
    (__toshiba_kbd_backlight_time_show spfc w out0).2.calls
      = w.calls ++ [[SPFC_UPPER_GET, SPFC_KBD_BACKLIGHT, 0, 0, 0, 0]] := by
  have hc := communicate_calls spfc w
    [SPFC_UPPER_GET, SPFC_KBD_BACKLIGHT, 0, 0, 0, 0] (some out0)
  unfold __toshiba_kbd_backlight_time_show
  simp only
  split_ifs <;> exact hc

/-- A keyboard-backlight mode write that returns the error EINVAL has sent no
SET: either nothing was called, or only the GET that reads the timeout. -/
theorem mode_store_einval {σ : Type} (spfc : Spfc σ) (w : World σ)
    (out0 : Nat → Nat) (count : Nat) (parsed : Option Nat)
    (h : (toshiba_kbd_backlight_mode_store spfc w out0 count parsed).1
      = - EINVAL) :
    (toshiba_kbd_backlight_mode_store spfc w out0 count parsed).2 = w ∨
    (toshiba_kbd_backlight_mode_store spfc w out0 count parsed).2.calls
      = w.calls ++ [[SPFC_UPPER_GET, SPFC_KBD_BACKLIGHT, 0, 0, 0, 0]] := by
  have hcalls := time_show_calls spfc w out0
  unfold toshiba_kbd_backlight_mode_store at h ⊢
  by_cases hc : count > 31
  · left; simp [hc]
  · cases parsed with
    | none => left; simp [hc]
    | some value =>
      right
      simp only [if_neg hc] at h ⊢
      rcases hts : __toshiba_kbd_backlight_time_show spfc w out0 with ⟨r, w1⟩
      rw [hts] at hcalls
      simp only [hts] at h ⊢
      cases r with
      | error e => exact hcalls
      | ok time =>
        simp only at h ⊢
        split_ifs at h ⊢ with h1
        · rw [kbd_store_einval spfc w1 _ _ h]; exact hcalls
        · simp only [EINVAL] at h
          omega

/-- A keyboard-backlight timeout write that returns the error EINVAL has sent
no SET: either nothing was called, or only the GET that reads the mode. -/
theorem time_store_einval {σ : Type} (spfc : Spfc σ) (w : World σ)
    (out0 : Nat → Nat) (count : Nat) (parsed : Option Nat)
    (h : (toshiba_kbd_backlight_time_store spfc w out0 count parsed).1
      = - EINVAL) :
    (toshiba_kbd_backlight_time_store spfc w out0 count parsed).2 = w ∨
    (toshiba_kbd_backlight_time_store spfc w out0 count parsed).2.calls
      = w.calls ++ [[SPFC_UPPER_GET, SPFC_KBD_BACKLIGHT, 0, 0, 0, 0]] := by
  have hcalls := mode_show_calls spfc w out0
  unfold toshiba_kbd_backlight_time_store at h ⊢
  by_cases hc : count > 31
  · left; simp [hc]
  · cases parsed with
    | none => left; simp [hc]
    | some value =>
      right
      simp only [if_neg hc] at h ⊢
      rcases hts : __toshiba_kbd_backlight_mode_show spfc w out0 with ⟨r, w1⟩
      rw [hts] at hcalls
      simp only [hts] at h ⊢
      cases r with
      | error e => exact hcalls
      | ok mode =>
        simp only at h ⊢
        split_ifs at h ⊢ with h1
        · rw [kbd_store_einval spfc w1 _ _ h]; exact hcalls
        · simp only [EINVAL] at h
          omega

/-- An illumination write that returns the error EINVAL has left the world as
it was. -/
theorem illumination_store_einval {σ : Type} (spfc : Spfc σ) (w : World σ)
    (count : Nat) (parsed : Option Nat)
    (h : (toshiba_illumination_mode_store spfc w count parsed).1 = - EINVAL) :
    (toshiba_illumination_mode_store spfc w count parsed).2 = w := by
  unfold toshiba_illumination_mode_store at h ⊢
  by_cases hc : count > 31
  · simp [hc]
  · cases parsed with
    | none => simp [hc]
    | some value =>
      exfalso
      simp only [if_neg hc, __toshiba_illumination_mode_store] at h
      split_ifs at h <;> simp [ EIO, EINVAL] at h

/-- An illumination-flash write that returns the error EINVAL has left the
driver state, cache and world, as it was. -/
theorem flash_store_einval {σ : Type} (spfc : Spfc σ) (s : DriverState σ)
    (count : Nat) (parsed : Option Nat)
    (h : (toshiba_illumination_flash_store spfc s count parsed).1 = - EINVAL) :
    (toshiba_illumination_flash_store spfc s count parsed).2 = s := by
  unfold toshiba_illumination_flash_store at h ⊢
  by_cases hc : count > 31
  · simp [hc]
  · cases parsed with
    | none => simp [hc]
    | some value =>
      simp only [if_neg hc, __toshiba_illumination_flash_store] at h ⊢
      by_cases hv : value % 2 ^ 32 ≥ 3
      · simp only [if_pos hv]
        simp [EINVAL]
      · exfalso
        simp only [if_neg hv] at h
        split_ifs at h <;> simp [ EIO, EINVAL] at h

/-- C12 (as stated, refuted): the timeout write of 61 is rejected with EINVAL
after a firmware call was made: the GET that reads the mode. -/
theorem time_store_einval_after_get :
    (toshiba_kbd_backlight_time_store
      (word2_register SPFC_UPPER_SET SPFC_UPPER_GET SPFC_KBD_BACKLIGHT)
      ⟨0x1E0008, []⟩ (fun _ => 0) 2 (some 61)).1 = - EINVAL ∧
    (toshiba_kbd_backlight_time_store
      (word2_register SPFC_UPPER_SET SPFC_UPPER_GET SPFC_KBD_BACKLIGHT)
      ⟨0x1E0008, []⟩ (fun _ => 0) 2 (some 61)).2.calls
      = [[0xF300, 0x015C, 0, 0, 0, 0]] := by
  decide

/-- C12 (amended): a feature write that returns the error EINVAL has sent no
SET request. For illumination, illumination_flash, the alternate
kbd_backlight, fast_boot, sleep_and_music, trackpad and cpu_mode no firmware
call was made at all (the world, and for the flash write the cache, are as
before); for the kbd_backlight mode and timeout writes either no call was made
or the only call is the GET of register 0x015C that reads the other field. -/
theorem einval_sends_no_set {σ : Type} (spfc : Spfc σ) (w : World σ)
    (s : DriverState σ) (out0 : Nat → Nat) (count : Nat) (parsed : Option Nat) :
    ((toshiba_illumination_mode_store spfc w count parsed).1 = - EINVAL →
      (toshiba_illumination_mode_store spfc w count parsed).2 = w) ∧
    ((toshiba_illumination_flash_store spfc s count parsed).1 = - EINVAL →
      (toshiba_illumination_flash_store spfc s count parsed).2 = s) ∧
    ((toshiba_alt_kbdbl_store spfc w count parsed).1 = - EINVAL →
      (toshiba_alt_kbdbl_store spfc w count parsed).2 = w) ∧
    ((toshiba_boot_speed_store spfc w count parsed).1 = - EINVAL →
      (toshiba_boot_speed_store spfc w count parsed).2 = w) ∧
    ((toshiba_sleep_music_store spfc w count parsed).1 = - EINVAL →
      (toshiba_sleep_music_store spfc w count parsed).2 = w) ∧
    ((toshiba_trackpad_store spfc w count parsed).1 = - EINVAL →
      (toshiba_trackpad_store spfc w count parsed).2 = w) ∧
    ((toshiba_cpu_mode_store spfc w count parsed).1 = - EINVAL →
      (toshiba_cpu_mode_store spfc w count parsed).2 = w) ∧
    ((toshiba_kbd_backlight_mode_store spfc w out0 count parsed).1 = - EINVAL →
      (toshiba_kbd_backlight_mode_store spfc w out0 count parsed).2 = w ∨
      (toshiba_kbd_backlight_mode_store spfc w out0 count parsed).2.calls
        = w.calls ++ [[SPFC_UPPER_GET, SPFC_KBD_BACKLIGHT, 0, 0, 0, 0]]) ∧
    ((toshiba_kbd_backlight_time_store spfc w out0 count parsed).1 = - EINVAL →
      (toshiba_kbd_backlight_time_store spfc w out0 count parsed).2 = w ∨
      (toshiba_kbd_backlight_time_store spfc w out0 count parsed).2.calls
        = w.calls ++ [[SPFC_UPPER_GET, SPFC_KBD_BACKLIGHT, 0, 0, 0, 0]]) :=
  ⟨illumination_store_einval spfc w count parsed,
   flash_store_einval spfc s count parsed,
   store_flag_einval spfc w _ _ count parsed,
   store_flag_einval spfc w _ _ count parsed,
   store_flag_einval spfc w _ _ count parsed,
   store_flag_einval spfc w _ _ count parsed,
   store_flag_einval spfc w _ _ count parsed,
   mode_store_einval spfc w out0 count parsed,
   time_store_einval spfc w out0 count parsed⟩

theorem einval_sends_no_set_witness :
    (toshiba_illumination_flash_store register_file
      ⟨2, [], [], [], ⟨fun _ => 0, []⟩⟩ 1 (some 3)).2
      = ⟨2, [], [], [], ⟨fun _ => 0, []⟩⟩ ∧
    (toshiba_trackpad_store register_file ⟨fun _ => 0, []⟩ 32 (some 1)).2
      = ⟨fun _ => 0, []⟩ ∧
    ((toshiba_kbd_backlight_time_store register_file ⟨fun _ => 0x1E0008, []⟩
        (fun _ => 0) 2 (some 61)).2 = ⟨fun _ => 0x1E0008, []⟩ ∨
      (toshiba_kbd_backlight_time_store register_file ⟨fun _ => 0x1E0008, []⟩
        (fun _ => 0) 2 (some 61)).2.calls
        = [] ++ [[SPFC_UPPER_GET, SPFC_KBD_BACKLIGHT, 0, 0, 0, 0]]) :=
  ⟨(einval_sends_no_set register_file ⟨fun _ => 0, []⟩
      ⟨2, [], [], [], ⟨fun _ => 0, []⟩⟩ (fun _ => 0) 1 (some 3)).2.1 (by decide),
   (einval_sends_no_set register_file ⟨fun _ => 0, []⟩
      ⟨2, [], [], [], ⟨fun _ => 0, []⟩⟩ (fun _ => 0) 32
      (some 1)).2.2.2.2.2.1 (by decide),
   (einval_sends_no_set register_file ⟨fun _ => 0x1E0008, []⟩
      ⟨2, [], [], [], ⟨fun _ => 0, []⟩⟩ (fun _ => 0) 2
      (some 61)).2.2.2.2.2.2.2.2 (by decide)⟩

/-- C13: for v in 0..2, __toshiba_illumination_flash_store sends the request
[0xFF00, 0x97, v, 0, 0, 0] and nothing else; when that call succeeds it
returns 0 and the cached lumin_flash_mode becomes v, which is what
toshiba_illumination_flash_show then prints; when the call fails it returns
the error EIO and the cache is as before. -/
theorem flash_store_updates_cache {σ : Type} (spfc : Spfc σ)
    (s : DriverState σ) (v : Nat) (hv : v < 3) :
    (__toshiba_illumination_flash_store spfc s v).2.world.calls
      = s.world.calls ++ [[0xFF00, 0x97, v, 0, 0, 0]] ∧
    ((spfc s.world.fw [0xFF00, 0x97, v, 0, 0, 0]).1.status = AE_OK →
      (__toshiba_illumination_flash_store spfc s v).1 = 0 ∧
      (__toshiba_illumination_flash_store spfc s v).2.lumin_flash_mode = v ∧
      toshiba_illumination_flash_show
        (__toshiba_illumination_flash_store spfc s v).2 = .ok (v : Int)) ∧
    ((spfc s.world.fw [0xFF00, 0x97, v, 0, 0, 0]).1.status ≠ AE_OK →
      (__toshiba_illumination_flash_store spfc s v).1 = - EIO ∧
      (__toshiba_illumination_flash_store spfc s v).2.lumin_flash_mode
        = s.lumin_flash_mode) := by
  have hv2 : ¬ (v ≥ 3) := by omega
  have hmod : v % 4 = v := Nat.mod_eq_of_lt (by omega)
  have hc := communicate_calls spfc s.world
    [SPFC_LOWER_SET, SPFC_ILLUMIN_FLASH, v, 0, 0, 0] none
  have hst : (toshiba_spfc_communicate spfc s.world
      [SPFC_LOWER_SET, SPFC_ILLUMIN_FLASH, v, 0, 0, 0] none).1
      = (spfc s.world.fw [0xFF00, 0x97, v, 0, 0, 0]).1.status := rfl
  simp only [__toshiba_illumination_flash_store, if_neg hv2, hst]
  refine ⟨?_, ?_, ?_⟩
  · split_ifs <;> exact hc
  · intro hok
    simp [hok, hmod, toshiba_illumination_flash_show]
  · intro hfail
    simp [hfail]

theorem flash_store_updates_cache_witness :
    (__toshiba_illumination_flash_store register_file
      ⟨0, [], [], [], ⟨fun _ => 0, []⟩⟩ 2).2.world.calls
      = [] ++ [[0xFF00, 0x97, 2, 0, 0, 0]] ∧
    (__toshiba_illumination_flash_store register_file
      ⟨0, [], [], [], ⟨fun _ => 0, []⟩⟩ 2).1 = 0 ∧
    (__toshiba_illumination_flash_store register_file
      ⟨0, [], [], [], ⟨fun _ => 0, []⟩⟩ 2).2.lumin_flash_mode = 2 ∧
    toshiba_illumination_flash_show
      (__toshiba_illumination_flash_store register_file
        ⟨0, [], [], [], ⟨fun _ => 0, []⟩⟩ 2).2 = .ok ((2 : Nat) : Int) ∧
    (__toshiba_illumination_flash_store (fun st _ => (⟨1, []⟩, st))
      ⟨1, [], [], [], ⟨(), []⟩⟩ 2).1 = - EIO ∧
    (__toshiba_illumination_flash_store (fun st _ => (⟨1, []⟩, st))
      ⟨1, [], [], [], ⟨(), []⟩⟩ 2).2.lumin_flash_mode = 1 := by
  have a := flash_store_updates_cache register_file
    ⟨0, [], [], [], ⟨fun _ => 0, []⟩⟩ 2 (by decide)
  have b := flash_store_updates_cache (fun st _ => (⟨1, []⟩, st))
    ⟨1, [], [], [], ⟨(), []⟩⟩ 2 (by decide)
  exact ⟨a.1, (a.2.1 (by decide)).1, (a.2.1 (by decide)).2.1,
    (a.2.1 (by decide)).2.2, (b.2.2 (by decide)).1, (b.2.2 (by decide)).2⟩

/-- C14 (failing input): with unsigned long 64 bits wide, writing the flash
mode 2^32 while the cache holds 2 is not rejected: the value is narrowed to 0,
the request [0xFF00, 0x97, 0, 0, 0, 0] is sent, the write returns its count
and the cache becomes 0. -/
theorem flash_store_accepts_two_pow_32 :
    (toshiba_illumination_flash_store register_file
      ⟨2, [], [], [], ⟨fun _ => 0, []⟩⟩ 10 (some (2 ^ 32))).1 = 10 ∧
    (toshiba_illumination_flash_store register_file
      ⟨2, [], [], [], ⟨fun _ => 0, []⟩⟩ 10 (some (2 ^ 32))).2.world.calls
      = [[0xFF00, 0x97, 0, 0, 0, 0]] ∧
    (toshiba_illumination_flash_store register_file
      ⟨2, [], [], [], ⟨fun _ => 0, []⟩⟩ 10 (some (2 ^ 32))).2.lumin_flash_mode
      = 0 := by
  decide

/-- The part of C14 that holds: a flash mode whose low 32 bits are 3 or more
is rejected with EINVAL, without any firmware call and with the cache, like
the rest of the driver state, as before. -/
theorem flash_store_rejects {σ : Type} (spfc : Spfc σ) (s : DriverState σ)
    (count value : Nat) (hv : 3 ≤ value % 2 ^ 32) :
    toshiba_illumination_flash_store spfc s count (some value)
      = (- EINVAL, s) := by
  have hv2 : value % 2 ^ 32 ≥ 3 := hv
  unfold toshiba_illumination_flash_store __toshiba_illumination_flash_store
  by_cases hc : count > 31
  · simp [hc]
  · simp only [if_neg hc, if_pos hv2]
    simp [EINVAL]

/-! ## Theorems: on/off features -/

/-- Narrowing to 32 bits first does not change a word read as int. -/
theorem int_of_u32_mod (x : Nat) : int_of_u32 (x % 2 ^ 32) = int_of_u32 x := by
  unfold int_of_u32
  rw [Nat.mod_mod]

/-- A word below 2^31 read as int is itself. -/
theorem int_of_u32_small (x : Nat) (h : x < 2 ^ 31) : int_of_u32 x = (x : Int) := by
  have hmod : x % 2 ^ 32 = x := Nat.mod_eq_of_lt (by omega)
  unfold int_of_u32
  rw [hmod, if_pos h]

/-- An accepted write of an on/off feature records the request
[set, reg, b, 0, 0, 0] with b = 0 for the value 0 and b = 1 otherwise. -/
theorem store_flag_request {σ : Type} (spfc : Spfc σ) (w : World σ)
    (set reg count v : Nat) (hc : count ≤ 31) :
    (store_flag spfc w set reg count (some v)).2.calls
      = w.calls ++ [[set, reg, if v = 0 then 0 else 1, 0, 0, 0]] := by
  have hc2 : ¬ (count > 31) := by omega
  have hb : (if v ≠ 0 then 1 else 0 : Nat) = if v = 0 then 0 else 1 := by
    split_ifs <;> simp_all
  simp only [store_flag, if_neg hc2, hb]
  generalize (if v = 0 then 0 else 1 : Nat) = b
  have hcalls := communicate_calls spfc w [set, reg, b, 0, 0, 0] none
  split_ifs <;> exact hcalls

/-- On a register that keeps request word 2, an accepted write of an on/off
feature returns its count and leaves 0 or 1 stored. -/
theorem store_flag_writes {σ : Type} {spfc : Spfc σ} {set get reg : Nat}
    {stored : σ → Nat} (hfw : StoresWord2 spfc set get reg stored)
    (w : World σ) (count v : Nat) (hc : count ≤ 31) :
    (store_flag spfc w set reg count (some v)).1 = (count : Int) ∧
    stored (store_flag spfc w set reg count (some v)).2.fw
      = if v = 0 then 0 else 1 := by
  have hc2 : ¬ (count > 31) := by omega
  have hb : (if v ≠ 0 then 1 else 0 : Nat) = if v = 0 then 0 else 1 := by
    split_ifs <;> simp_all
  obtain ⟨h1, h2, -⟩ := communicate_set hfw w (if v = 0 then 0 else 1)
  simp only [store_flag, if_neg hc2, hb, h1]
  simp
  exact h2

/-- On a register that keeps a word, a show handler that prints out[2] prints
the stored word, narrowed to 32 bits and read as int. -/
theorem show_word2_reads {σ : Type} {spfc : Spfc σ} {set get reg : Nat}
    {stored : σ → Nat} (hfw : StoresWord2 spfc set get reg stored)
    (w : World σ) (out0 : Nat → Nat) :
    (show_word2 spfc w get reg out0).1 = .ok (int_of_u32 (stored w.fw)) := by
  obtain ⟨h1, h2, -, -⟩ := communicate_get hfw w out0
  simp only [show_word2, h1, h2, int_of_u32_mod]
  simp

/-- On a register that keeps a word, the cpu_mode read prints bit 0 of the
stored word. -/
theorem cpu_mode_show_reads {σ : Type} {spfc : Spfc σ} {stored : σ → Nat}
    (hfw : StoresWord2 spfc SPFC_LOWER_SET SPFC_LOWER_GET SPFC_CPU_MODE stored)
    (w : World σ) (out0 : Nat → Nat) :
    (toshiba_cpu_mode_show spfc w out0).1
      = .ok ((stored w.fw % 2 ^ 32 &&& 0x1 : Nat) : Int) := by
  obtain ⟨h1, h2, -, -⟩ := communicate_get hfw w out0
  simp only [toshiba_cpu_mode_show, h1, h2]
  simp

/-- Write then read of an on/off feature whose show handler prints out[2], on
a register that keeps request word 2: the read prints 0 after the value 0 and
1 after any other value. -/
theorem flag_write_read {σ : Type} {spfc : Spfc σ} {set get reg : Nat}
    {stored : σ → Nat} (hfw : StoresWord2 spfc set get reg stored)
    (w : World σ) (count v : Nat) (out0 : Nat → Nat) (hc : count ≤ 31) :
    (show_word2 spfc (store_flag spfc w set reg count (some v)).2 get reg
      out0).1 = .ok (((if v = 0 then 0 else 1 : Nat)) : Int) := by
  obtain ⟨-, h2⟩ := store_flag_writes hfw w count v hc
  rw [show_word2_reads hfw, h2]
  split_ifs <;> rfl

/-- C15: for trackpad, cpu_mode, the alternate kbd_backlight, fast_boot and
sleep_and_music and every parsed value v, the write sends exactly one request,
[SET, register, b, 0, 0, 0] with b = 0 for v = 0 and b = 1 otherwise; and when
the firmware keeps request word 2 of the feature's register and returns it as
word 2 of a GET, the read that follows the write prints b. -/
theorem flag_write_coerces {σ : Type} (spfc : Spfc σ) (stored : Nat → σ → Nat)
    (w : World σ) (count v : Nat) (out0 : Nat → Nat) (hc : count ≤ 31) :
    ((toshiba_trackpad_store spfc w count (some v)).2.calls = w.calls ++
        [[0xF400, 0x050E, if v = 0 then 0 else 1, 0, 0, 0]] ∧
      (StoresWord2 spfc SPFC_UPPER_SET SPFC_UPPER_GET SPFC_TRACKPAD
          (stored SPFC_TRACKPAD) →
        (toshiba_trackpad_show spfc
          (toshiba_trackpad_store spfc w count (some v)).2 out0).1
          = .ok (((if v = 0 then 0 else 1 : Nat)) : Int))) ∧
    ((toshiba_cpu_mode_store spfc w count (some v)).2.calls = w.calls ++
        [[0xFF00, 0x7F, if v = 0 then 0 else 1, 0, 0, 0]] ∧
      (StoresWord2 spfc SPFC_LOWER_SET SPFC_LOWER_GET SPFC_CPU_MODE
          (stored SPFC_CPU_MODE) →
        (toshiba_cpu_mode_show spfc
          (toshiba_cpu_mode_store spfc w count (some v)).2 out0).1
          = .ok (((if v = 0 then 0 else 1 : Nat)) : Int))) ∧
    ((toshiba_alt_kbdbl_store spfc w count (some v)).2.calls = w.calls ++
        [[0xFF00, 0x95, if v = 0 then 0 else 1, 0, 0, 0]] ∧
      (StoresWord2 spfc SPFC_LOWER_SET SPFC_LOWER_GET SPFC_ALT_KBD_BL
          (stored SPFC_ALT_KBD_BL) →
        (toshiba_alt_kbdbl_show spfc
          (toshiba_alt_kbdbl_store spfc w count (some v)).2 out0).1
          = .ok (((if v = 0 then 0 else 1 : Nat)) : Int))) ∧
    ((toshiba_boot_speed_store spfc w count (some v)).2.calls = w.calls ++
        [[0xF400, 0x015D, if v = 0 then 0 else 1, 0, 0, 0]] ∧
      (StoresWord2 spfc SPFC_UPPER_SET SPFC_UPPER_GET SPFC_BOOT_SPEED
          (stored SPFC_BOOT_SPEED) →
        (toshiba_boot_speed_show spfc
          (toshiba_boot_speed_store spfc w count (some v)).2 out0).1
          = .ok (((if v = 0 then 0 else 1 : Nat)) : Int))) ∧
    ((toshiba_sleep_music_store spfc w count (some v)).2.calls = w.calls ++
        [[0xF400, 0x015E, if v = 0 then 0 else 1, 0, 0, 0]] ∧
      (StoresWord2 spfc SPFC_UPPER_SET SPFC_UPPER_GET SPFC_SLEEP_MUSIC
          (stored SPFC_SLEEP_MUSIC) →
        (toshiba_sleep_music_show spfc
          (toshiba_sleep_music_store spfc w count (some v)).2 out0).1
          = .ok (((if v = 0 then 0 else 1 : Nat)) : Int))) := by
  refine ⟨⟨?_, ?_⟩, ⟨?_, ?_⟩, ⟨?_, ?_⟩, ⟨?_, ?_⟩, ⟨?_, ?_⟩⟩
  · exact store_flag_request spfc w _ _ count v hc
  · exact fun h => flag_write_read h w count v out0 hc
  · exact store_flag_request spfc w _ _ count v hc
  · intro hcpu
    obtain ⟨-, h2⟩ := store_flag_writes hcpu w count v hc
    rw [cpu_mode_show_reads hcpu, toshiba_cpu_mode_store, h2]
    split_ifs <;> rfl
  · exact store_flag_request spfc w _ _ count v hc
  · exact fun h => flag_write_read h w count v out0 hc
  · exact store_flag_request spfc w _ _ count v hc
  · exact fun h => flag_write_read h w count v out0 hc
  · exact store_flag_request spfc w _ _ count v hc
  · exact fun h => flag_write_read h w count v out0 hc

/-- The firmware register_file keeps a word for every register, whichever of
the two SET and the two GET operation codes is used. -/
theorem register_file_stores (set get reg : Nat)
    (hset : set = SPFC_UPPER_SET ∨ set = SPFC_LOWER_SET)
    (hget : get = SPFC_UPPER_GET ∨ get = SPFC_LOWER_GET) :
    StoresWord2 register_file set get reg (fun regs => regs reg) := by
  have hs : ∀ x : Nat, ([set, reg, x, 0, 0, 0] : List Nat).getD 0 0 = SPFC_UPPER_SET ∨
      ([set, reg, x, 0, 0, 0] : List Nat).getD 0 0 = SPFC_LOWER_SET := by
    intro x; exact hset
  have hg1 : ¬ (([get, reg, 0, 0, 0, 0] : List Nat).getD 0 0 = SPFC_UPPER_SET ∨
      ([get, reg, 0, 0, 0, 0] : List Nat).getD 0 0 = SPFC_LOWER_SET) := by
    show ¬ (get = SPFC_UPPER_SET ∨ get = SPFC_LOWER_SET)
    rcases hget with rfl | rfl <;> decide
  have hg2 : ([get, reg, 0, 0, 0, 0] : List Nat).getD 0 0 = SPFC_UPPER_GET ∨
      ([get, reg, 0, 0, 0, 0] : List Nat).getD 0 0 = SPFC_LOWER_GET := hget
  constructor
  · intro s x
    unfold register_file
    rw [if_pos (hs x)]
  · intro s x
    unfold register_file
    rw [if_pos (hs x)]
    simp
  · intro s
    unfold register_file
    rw [if_neg hg1, if_pos hg2]
  · intro s
    unfold register_file
    rw [if_neg hg1, if_pos hg2]
    show 6 < 7
    decide
  · intro s
    unfold register_file
    rw [if_neg hg1, if_pos hg2]
    rfl
  · intro s
    unfold register_file
    rw [if_neg hg1, if_pos hg2]

theorem flag_write_coerces_witness :
    ((toshiba_trackpad_store register_file ⟨fun _ => 7, []⟩ 1 (some 5)).2.calls
        = [] ++ [[0xF400, 0x050E, 1, 0, 0, 0]] ∧
      (toshiba_trackpad_show register_file
        (toshiba_trackpad_store register_file ⟨fun _ => 7, []⟩ 1 (some 5)).2
        (fun _ => 0)).1 = .ok ((1 : Nat) : Int)) ∧
    ((toshiba_cpu_mode_store register_file ⟨fun _ => 7, []⟩ 1 (some 5)).2.calls
        = [] ++ [[0xFF00, 0x7F, 1, 0, 0, 0]] ∧
      (toshiba_cpu_mode_show register_file
        (toshiba_cpu_mode_store register_file ⟨fun _ => 7, []⟩ 1 (some 5)).2
        (fun _ => 0)).1 = .ok ((1 : Nat) : Int)) ∧
    ((toshiba_alt_kbdbl_store register_file ⟨fun _ => 7, []⟩ 1 (some 5)).2.calls
        = [] ++ [[0xFF00, 0x95, 1, 0, 0, 0]] ∧
      (toshiba_alt_kbdbl_show register_file
        (toshiba_alt_kbdbl_store register_file ⟨fun _ => 7, []⟩ 1 (some 5)).2
        (fun _ => 0)).1 = .ok ((1 : Nat) : Int)) ∧
    ((toshiba_boot_speed_store register_file ⟨fun _ => 7, []⟩ 1 (some 5)).2.calls
        = [] ++ [[0xF400, 0x015D, 1, 0, 0, 0]] ∧
      (toshiba_boot_speed_show register_file
        (toshiba_boot_speed_store register_file ⟨fun _ => 7, []⟩ 1 (some 5)).2
        (fun _ => 0)).1 = .ok ((1 : Nat) : Int)) ∧
    ((toshiba_sleep_music_store register_file ⟨fun _ => 7, []⟩ 1 (some 5)).2.calls
        = [] ++ [[0xF400, 0x015E, 1, 0, 0, 0]] ∧
      (toshiba_sleep_music_show register_file
        (toshiba_sleep_music_store register_file ⟨fun _ => 7, []⟩ 1 (some 5)).2
        (fun _ => 0)).1 = .ok ((1 : Nat) : Int)) := by
  have h := flag_write_coerces register_file (fun reg regs => regs reg)
    ⟨fun _ => 7, []⟩ 1 5 (fun _ => 0) (by decide)
  have e : (if (5 : Nat) = 0 then 0 else 1 : Nat) = 1 := by decide
  rw [e] at h
  exact ⟨⟨h.1.1, h.1.2 (register_file_stores _ _ _ (Or.inl rfl) (Or.inl rfl))⟩,
    ⟨h.2.1.1,
      h.2.1.2 (register_file_stores _ _ _ (Or.inr rfl) (Or.inr rfl))⟩,
    ⟨h.2.2.1.1,
      h.2.2.1.2 (register_file_stores _ _ _ (Or.inr rfl) (Or.inr rfl))⟩,
    ⟨h.2.2.2.1.1,
      h.2.2.2.1.2 (register_file_stores _ _ _ (Or.inl rfl) (Or.inl rfl))⟩,
    ⟨h.2.2.2.2.1,
      h.2.2.2.2.2 (register_file_stores _ _ _ (Or.inl rfl) (Or.inl rfl))⟩⟩

/-- A successful call through toshiba_spfc_communicate with an out buffer and
a reply of 3 to 6 words leaves word 2 of the reply, narrowed to 32 bits, in
out[2]. -/
theorem communicate_word2 {σ : Type} (spfc : Spfc σ) (w : World σ)
    (inp : List Nat) (out0 : Nat → Nat)
    (hok : (spfc w.fw inp).1.status = AE_OK)
    (h3 : 2 < (spfc w.fw inp).1.elements.length)
    (h6 : (spfc w.fw inp).1.elements.length ≤ 6) :
    (toshiba_spfc_communicate spfc w inp (some out0)).1 = AE_OK ∧
    out_word (toshiba_spfc_communicate spfc w inp (some out0)).2.1 2
      = (spfc w.fw inp).1.elements.getD 2 0 % 2 ^ 32 := by
  have h7 : (spfc w.fw inp).1.elements.length < SPFC_RESULTS := by
    unfold SPFC_RESULTS; omega
  simp only [toshiba_spfc_communicate, hok, h7, and_self, if_true, out_word,
    copy_results, if_pos h3]

/-- C16 (as stated, refuted): the trackpad read of a successful reply whose
word 2 is 2 reports 2, not a value masked to one bit. -/
theorem trackpad_show_unmasked :
    (toshiba_trackpad_show (fixed_reply [0, 0x050E, 2, 0, 0, 0]) ⟨(), []⟩
      (fun _ => 0)).1 = .ok 2 := by
  rfl

/-- C16 (amended): on a successful call, the cpu_mode read reports out[2]
masked with 0x1, hence 0 or 1 whatever the reply is; the trackpad, alternate
kbd_backlight, fast_boot and sleep_and_music reads report word 2 of a reply of
3 to 6 words unmasked, narrowed to 32 bits and read as int. -/
theorem show_masks_only_cpu_mode {σ : Type} (spfc : Spfc σ) (w : World σ)
    (out0 : Nat → Nat) :
    ((spfc w.fw [0xFE00, 0x7F, 0, 0, 0, 0]).1.status = AE_OK →
      ∃ x : Nat, x ≤ 1 ∧ (toshiba_cpu_mode_show spfc w out0).1 = .ok (x : Int) ∧
        ((2 < (spfc w.fw [0xFE00, 0x7F, 0, 0, 0, 0]).1.elements.length ∧
          (spfc w.fw [0xFE00, 0x7F, 0, 0, 0, 0]).1.elements.length ≤ 6) →
          x = ((spfc w.fw [0xFE00, 0x7F, 0, 0, 0, 0]).1.elements.getD 2 0
            % 2 ^ 32) &&& 0x1)) ∧
    (((spfc w.fw [0xF300, 0x050E, 0, 0, 0, 0]).1.status = AE_OK ∧
        2 < (spfc w.fw [0xF300, 0x050E, 0, 0, 0, 0]).1.elements.length ∧
        (spfc w.fw [0xF300, 0x050E, 0, 0, 0, 0]).1.elements.length ≤ 6) →
      (toshiba_trackpad_show spfc w out0).1 = .ok (int_of_u32
        ((spfc w.fw [0xF300, 0x050E, 0, 0, 0, 0]).1.elements.getD 2 0))) ∧
    (((spfc w.fw [0xFE00, 0x95, 0, 0, 0, 0]).1.status = AE_OK ∧
        2 < (spfc w.fw [0xFE00, 0x95, 0, 0, 0, 0]).1.elements.length ∧
        (spfc w.fw [0xFE00, 0x95, 0, 0, 0, 0]).1.elements.length ≤ 6) →
      (toshiba_alt_kbdbl_show spfc w out0).1 = .ok (int_of_u32
        ((spfc w.fw [0xFE00, 0x95, 0, 0, 0, 0]).1.elements.getD 2 0))) ∧
    (((spfc w.fw [0xF300, 0x015D, 0, 0, 0, 0]).1.status = AE_OK ∧
        2 < (spfc w.fw [0xF300, 0x015D, 0, 0, 0, 0]).1.elements.length ∧
        (spfc w.fw [0xF300, 0x015D, 0, 0, 0, 0]).1.elements.length ≤ 6) →
      (toshiba_boot_speed_show spfc w out0).1 = .ok (int_of_u32
        ((spfc w.fw [0xF300, 0x015D, 0, 0, 0, 0]).1.elements.getD 2 0))) ∧
    (((spfc w.fw [0xF300, 0x015E, 0, 0, 0, 0]).1.status = AE_OK ∧
        2 < (spfc w.fw [0xF300, 0x015E, 0, 0, 0, 0]).1.elements.length ∧
        (spfc w.fw [0xF300, 0x015E, 0, 0, 0, 0]).1.elements.length ≤ 6) →
      (toshiba_sleep_music_show spfc w out0).1 = .ok (int_of_u32
        ((spfc w.fw [0xF300, 0x015E, 0, 0, 0, 0]).1.elements.getD 2 0))) := by
  have hshow : ∀ get reg : Nat,
      ((spfc w.fw [get, reg, 0, 0, 0, 0]).1.status = AE_OK ∧
        2 < (spfc w.fw [get, reg, 0, 0, 0, 0]).1.elements.length ∧
        (spfc w.fw [get, reg, 0, 0, 0, 0]).1.elements.length ≤ 6) →
      (show_word2 spfc w get reg out0).1 = .ok (int_of_u32
        ((spfc w.fw [get, reg, 0, 0, 0, 0]).1.elements.getD 2 0)) := by
    intro get reg ⟨hok, h3, h6⟩
    obtain ⟨h1, h2⟩ := communicate_word2 spfc w [get, reg, 0, 0, 0, 0] out0
      hok h3 h6
    simp only [show_word2, h1, h2, int_of_u32_mod]
    simp
  refine ⟨?_, hshow _ _, hshow _ _, hshow _ _, hshow _ _⟩
  intro hok
  have hst : (toshiba_spfc_communicate spfc w
      [SPFC_LOWER_GET, SPFC_CPU_MODE, 0, 0, 0, 0] (some out0)).1 = AE_OK := by
    have : (toshiba_spfc_communicate spfc w
        [SPFC_LOWER_GET, SPFC_CPU_MODE, 0, 0, 0, 0] (some out0)).1
        = (spfc w.fw [0xFE00, 0x7F, 0, 0, 0, 0]).1.status := by
      unfold toshiba_spfc_communicate
      simp only
      split_ifs <;> rfl
    rw [this, hok]
  refine ⟨out_word (toshiba_spfc_communicate spfc w
      [SPFC_LOWER_GET, SPFC_CPU_MODE, 0, 0, 0, 0] (some out0)).2.1 2 &&& 0x1,
    ?_, ?_, ?_⟩
  · exact Nat.and_le_right
  · simp only [toshiba_cpu_mode_show, hst]
    simp
  · intro ⟨h3, h6⟩
    rw [(communicate_word2 spfc w [SPFC_LOWER_GET, SPFC_CPU_MODE, 0, 0, 0, 0]
      out0 hok h3 h6).2]
    rfl

theorem show_masks_only_cpu_mode_witness :
    (∃ x : Nat, x ≤ 1 ∧
      (toshiba_cpu_mode_show (fixed_reply [0, 0, 3, 0, 0, 0]) ⟨(), []⟩
        (fun _ => 0)).1 = .ok (x : Int) ∧
      ((2 < 6 ∧ 6 ≤ 6) → x = (3 % 2 ^ 32) &&& 0x1)) ∧
    (toshiba_trackpad_show (fixed_reply [0, 0, 3, 0, 0, 0]) ⟨(), []⟩
      (fun _ => 0)).1 = .ok (int_of_u32 3) :=
  ⟨(show_masks_only_cpu_mode (fixed_reply [0, 0, 3, 0, 0, 0]) ⟨(), []⟩
      (fun _ => 0)).1 rfl,
   (show_masks_only_cpu_mode (fixed_reply [0, 0, 3, 0, 0, 0]) ⟨(), []⟩
      (fun _ => 0)).2.1 ⟨rfl, by decide, by decide⟩⟩

/-! ## Theorems: response decoding, embedded status -/

/-- C17 (as stated, refuted): when a successful SPFC call reports 7 words for a
6-word buffer, toshiba_spfc_communicate and hci_raw copy nothing: out[0] keeps
its old content 0xAA instead of taking the first reported word 1. -/
theorem over_reported_reply_not_copied :
    out_word (toshiba_spfc_communicate (fixed_reply [1, 2, 3, 4, 5, 6, 7])
      ⟨(), []⟩ [0xF300, 0x050E, 0, 0, 0, 0] (some (fun _ => 0xAA))).2.1 0
      = 0xAA ∧
    (hci_raw (fixed_reply [1, 2, 3, 4, 5, 6, 7]) ⟨(), []⟩
      [0xFE00, 0x050E, 0, 0, 0, 0] (fun _ => 0xAA)).2.1 0 = 0xAA := by
  decide

/-- C17 (amended): when the firmware call succeeds and reports more than 6
words, toshiba_spfc_communicate and hci_raw copy no word at all and the
caller's buffer is left as it was; when it reports at most 6 words, each
reported word is copied, narrowed to 32 bits, and the words of the buffer
beyond the reported count are left as they were. -/
theorem reply_copied_only_when_it_fits {σ : Type} (spfc : Spfc σ)
    (w : World σ) (inp : List Nat) (out0 : Nat → Nat)
    (hok : (spfc w.fw inp).1.status = AE_OK) :
    (6 < (spfc w.fw inp).1.elements.length →
      (toshiba_spfc_communicate spfc w inp (some out0)).2.1 = some out0 ∧
      (hci_raw spfc w inp out0).2.1 = out0) ∧
    ((spfc w.fw inp).1.elements.length ≤ 6 →
      ∀ i : Nat,
        out_word (toshiba_spfc_communicate spfc w inp (some out0)).2.1 i
          = (hci_raw spfc w inp out0).2.1 i ∧
        (i < (spfc w.fw inp).1.elements.length →
          (hci_raw spfc w inp out0).2.1 i
            = (spfc w.fw inp).1.elements.getD i 0 % 2 ^ 32) ∧
        ((spfc w.fw inp).1.elements.length ≤ i →
          (hci_raw spfc w inp out0).2.1 i = out0 i)) := by
  constructor
  · intro h
    have h7 : ¬ ((spfc w.fw inp).1.elements.length < SPFC_RESULTS) := by
      unfold SPFC_RESULTS; omega
    have h6 : ¬ ((spfc w.fw inp).1.elements.length ≤ HCI_WORDS) := by
      unfold HCI_WORDS; omega
    simp [toshiba_spfc_communicate, hci_raw, h7, h6]
  · intro h i
    have h7 : (spfc w.fw inp).1.elements.length < SPFC_RESULTS := by
      unfold SPFC_RESULTS; omega
    have h6 : (spfc w.fw inp).1.elements.length ≤ HCI_WORDS := by
      unfold HCI_WORDS; omega
    simp only [toshiba_spfc_communicate, hci_raw, hok, h7, h6, and_self,
      if_true, out_word, copy_results, true_and]
    constructor
    · intro hi
      rw [if_pos hi]
    · intro hi
      rw [if_neg (by omega)]

theorem reply_copied_only_when_it_fits_witness :
    (toshiba_spfc_communicate (fixed_reply [1, 2, 3, 4, 5, 6, 7]) ⟨(), []⟩
      [0xF300, 0x050E, 0, 0, 0, 0] (some (fun _ => 0xAA))).2.1
      = some (fun _ => 0xAA) ∧
    (hci_raw (fixed_reply [1, 2, 3, 4, 5, 6, 7]) ⟨(), []⟩
      [0xF300, 0x050E, 0, 0, 0, 0] (fun _ => 0xAA)).2.1 = (fun _ => 0xAA) :=
  (reply_copied_only_when_it_fits (fixed_reply [1, 2, 3, 4, 5, 6, 7]) ⟨(), []⟩
    [0xF300, 0x050E, 0, 0, 0, 0] (fun _ => 0xAA) rfl).1 (by decide)

/-- Without an out buffer, replacing word 0 of the replies changes nothing in
a call through toshiba_spfc_communicate. -/
theorem communicate_word0_none {σ : Type} (s0 : Nat) (spfc : Spfc σ)
    (w : World σ) (inp : List Nat) :
    toshiba_spfc_communicate (with_word0 s0 spfc) w inp none
      = toshiba_spfc_communicate spfc w inp none := rfl

/-- With an out buffer, replacing word 0 of the replies changes neither the
status, nor the world, nor out[2]. -/
theorem communicate_word0_some {σ : Type} (s0 : Nat) (spfc : Spfc σ)
    (w : World σ) (inp : List Nat) (out0 : Nat → Nat) :
    (toshiba_spfc_communicate (with_word0 s0 spfc) w inp (some out0)).1
      = (toshiba_spfc_communicate spfc w inp (some out0)).1 ∧
    (toshiba_spfc_communicate (with_word0 s0 spfc) w inp (some out0)).2.2
      = (toshiba_spfc_communicate spfc w inp (some out0)).2.2 ∧
    out_word (toshiba_spfc_communicate (with_word0 s0 spfc) w inp
      (some out0)).2.1 2
      = out_word (toshiba_spfc_communicate spfc w inp (some out0)).2.1 2 := by
  by_cases hc : (spfc w.fw inp).1.status = AE_OK ∧
      (spfc w.fw inp).1.elements.length < SPFC_RESULTS
  · simp [toshiba_spfc_communicate, with_word0, hc, out_word, copy_results,
      List.getD_eq_getElem?_getD, List.getElem?_set]
  · simp [toshiba_spfc_communicate, with_word0, hc, out_word]

/-- Replacing word 0 of the replies does not change what a show handler that
prints out[2] returns. -/
theorem show_word2_word0 {σ : Type} (s0 : Nat) (spfc : Spfc σ) (w : World σ)
    (get reg : Nat) (out0 : Nat → Nat) :
    show_word2 (with_word0 s0 spfc) w get reg out0
      = show_word2 spfc w get reg out0 := by
  obtain ⟨h1, h2, h3⟩ := communicate_word0_some s0 spfc w
    [get, reg, 0, 0, 0, 0] out0
  simp only [show_word2, h1, h2, h3]

theorem store_flag_word0 {σ : Type} (s0 : Nat) (spfc : Spfc σ) (w : World σ)
    (set reg count : Nat) (parsed : Option Nat) :
    store_flag (with_word0 s0 spfc) w set reg count parsed
      = store_flag spfc w set reg count parsed := by
  simp only [store_flag, communicate_word0_none]

theorem kbd_mode_show_word0 {σ : Type} (s0 : Nat) (spfc : Spfc σ)
    (w : World σ) (out0 : Nat → Nat) :
    __toshiba_kbd_backlight_mode_show (with_word0 s0 spfc) w out0
      = __toshiba_kbd_backlight_mode_show spfc w out0 := by
  obtain ⟨h1, h2, h3⟩ := communicate_word0_some s0 spfc w
    [SPFC_UPPER_GET, SPFC_KBD_BACKLIGHT, 0, 0, 0, 0] out0
  simp only [__toshiba_kbd_backlight_mode_show, h1, h2, h3]

theorem kbd_time_show_word0 {σ : Type} (s0 : Nat) (spfc : Spfc σ)
    (w : World σ) (out0 : Nat → Nat) :
    __toshiba_kbd_backlight_time_show (with_word0 s0 spfc) w out0
      = __toshiba_kbd_backlight_time_show spfc w out0 := by
  obtain ⟨h1, h2, h3⟩ := communicate_word0_some s0 spfc w
    [SPFC_UPPER_GET, SPFC_KBD_BACKLIGHT, 0, 0, 0, 0] out0
  simp only [__toshiba_kbd_backlight_time_show, h1, h2, h3]

theorem kbd_store_word0 {σ : Type} (s0 : Nat) (spfc : Spfc σ) (w : World σ)
    (m t : Nat) :
    __toshiba_kbd_backlight_store (with_word0 s0 spfc) w m t
      = __toshiba_kbd_backlight_store spfc w m t := by
  simp only [__toshiba_kbd_backlight_store, communicate_word0_none]

/-- C18 (as stated, refuted): the trackpad read returns the same outcome for a
reply whose word 0 is NOT_SUPPORTED (0x8000) as for the same reply with word 0
SUCCESS (0): the embedded status is not surfaced. -/
theorem embedded_status_not_surfaced :
    (toshiba_trackpad_show (fixed_reply [0x8000, 0x050E, 1, 0, 0, 0]) ⟨(), []⟩
      (fun _ => 0)).1 = .ok 1 ∧
    (toshiba_trackpad_show (fixed_reply [0, 0x050E, 1, 0, 0, 0]) ⟨(), []⟩
      (fun _ => 0)).1 = .ok 1 := by
  exact ⟨rfl, rfl⟩

/-- Replacing word 0 of every reply by any value s0 changes neither the value
returned nor the state left by any feature read or write handler. -/
theorem word0_not_read {σ : Type} (s0 : Nat) (spfc : Spfc σ)
    (w : World σ) (s : DriverState σ) (out0 : Nat → Nat) (count : Nat)
    (parsed : Option Nat) :
    toshiba_illumination_mode_show (with_word0 s0 spfc) w out0
      = toshiba_illumination_mode_show spfc w out0 ∧
    toshiba_kbd_backlight_mode_show (with_word0 s0 spfc) w out0
      = toshiba_kbd_backlight_mode_show spfc w out0 ∧
    toshiba_kbd_backlight_time_show (with_word0 s0 spfc) w out0
      = toshiba_kbd_backlight_time_show spfc w out0 ∧
    toshiba_alt_kbdbl_show (with_word0 s0 spfc) w out0
      = toshiba_alt_kbdbl_show spfc w out0 ∧
    toshiba_boot_speed_show (with_word0 s0 spfc) w out0
      = toshiba_boot_speed_show spfc w out0 ∧
    toshiba_sleep_music_show (with_word0 s0 spfc) w out0
      = toshiba_sleep_music_show spfc w out0 ∧
    toshiba_trackpad_show (with_word0 s0 spfc) w out0
      = toshiba_trackpad_show spfc w out0 ∧
    toshiba_cpu_mode_show (with_word0 s0 spfc) w out0
      = toshiba_cpu_mode_show spfc w out0 ∧
    toshiba_illumination_mode_store (with_word0 s0 spfc) w count parsed
      = toshiba_illumination_mode_store spfc w count parsed ∧
    toshiba_illumination_flash_store (with_word0 s0 spfc) s count parsed
      = toshiba_illumination_flash_store spfc s count parsed ∧
    toshiba_kbd_backlight_mode_store (with_word0 s0 spfc) w out0 count parsed
      = toshiba_kbd_backlight_mode_store spfc w out0 count parsed ∧
    toshiba_kbd_backlight_time_store (with_word0 s0 spfc) w out0 count parsed
      = toshiba_kbd_backlight_time_store spfc w out0 count parsed ∧
    toshiba_alt_kbdbl_store (with_word0 s0 spfc) w count parsed
      = toshiba_alt_kbdbl_store spfc w count parsed ∧
    toshiba_boot_speed_store (with_word0 s0 spfc) w count parsed
      = toshiba_boot_speed_store spfc w count parsed ∧
    toshiba_sleep_music_store (with_word0 s0 spfc) w count parsed
      = toshiba_sleep_music_store spfc w count parsed ∧
    toshiba_trackpad_store (with_word0 s0 spfc) w count parsed
      = toshiba_trackpad_store spfc w count parsed ∧
    toshiba_cpu_mode_store (with_word0 s0 spfc) w count parsed
      = toshiba_cpu_mode_store spfc w count parsed := by
  obtain ⟨h1, h2, h3⟩ := communicate_word0_some s0 spfc w
    [SPFC_LOWER_GET, SPFC_CPU_MODE, 0, 0, 0, 0] out0
  refine ⟨show_word2_word0 _ _ _ _ _ _, ?_, ?_, show_word2_word0 _ _ _ _ _ _,
    show_word2_word0 _ _ _ _ _ _, show_word2_word0 _ _ _ _ _ _,
    show_word2_word0 _ _ _ _ _ _, ?_, ?_, ?_, ?_, ?_,
    store_flag_word0 _ _ _ _ _ _ _, store_flag_word0 _ _ _ _ _ _ _,
    store_flag_word0 _ _ _ _ _ _ _, store_flag_word0 _ _ _ _ _ _ _,
    store_flag_word0 _ _ _ _ _ _ _⟩
  · simp only [toshiba_kbd_backlight_mode_show, kbd_mode_show_word0]
  · simp only [toshiba_kbd_backlight_time_show, kbd_time_show_word0]
  · simp only [toshiba_cpu_mode_show, h1, h2, h3]
  · simp only [toshiba_illumination_mode_store,
      __toshiba_illumination_mode_store, communicate_word0_none]
  · simp only [toshiba_illumination_flash_store,
      __toshiba_illumination_flash_store, communicate_word0_none]
  · simp only [toshiba_kbd_backlight_mode_store, kbd_time_show_word0,
      kbd_store_word0]
  · simp only [toshiba_kbd_backlight_time_store, kbd_mode_show_word0,
      kbd_store_word0]

/-- The status toshiba_spfc_communicate returns is the status of the firmware
call. -/
theorem communicate_status {σ : Type} (spfc : Spfc σ) (w : World σ)
    (inp : List Nat) (out : Option (Nat → Nat)) :
    (toshiba_spfc_communicate spfc w inp out).1 = (spfc w.fw inp).1.status := by
  unfold toshiba_spfc_communicate
  cases out with
  | none => rfl
  | some o =>
    simp only
    split_ifs <;> rfl

/-- The firmware state after toshiba_spfc_communicate is the one the call
left. -/
theorem communicate_fw {σ : Type} (spfc : Spfc σ) (w : World σ)
    (inp : List Nat) (out : Option (Nat → Nat)) :
    (toshiba_spfc_communicate spfc w inp out).2.2.fw = (spfc w.fw inp).2 := by
  unfold toshiba_spfc_communicate
  cases out with
  | none => rfl
  | some o =>
    simp only
    split_ifs <;> rfl

/-- A show handler that prints out[2] returns EIO exactly when its firmware
call fails. -/
theorem show_word2_eio {σ : Type} (spfc : Spfc σ) (w : World σ)
    (get reg : Nat) (out0 : Nat → Nat) :
    (show_word2 spfc w get reg out0).1 = .error (- EIO) ↔
      (spfc w.fw [get, reg, 0, 0, 0, 0]).1.status ≠ AE_OK := by
  unfold show_word2
  simp only [communicate_status]
  split_ifs with h <;> simp [h]

/-- The cpu_mode read returns EIO exactly when its firmware call fails. -/
theorem cpu_mode_show_eio {σ : Type} (spfc : Spfc σ) (w : World σ)
    (out0 : Nat → Nat) :
    (toshiba_cpu_mode_show spfc w out0).1 = .error (- EIO) ↔
      (spfc w.fw [SPFC_LOWER_GET, SPFC_CPU_MODE, 0, 0, 0, 0]).1.status
        ≠ AE_OK := by
  unfold toshiba_cpu_mode_show
  simp only [communicate_status]
  split_ifs with h <;> simp [h]

/-- The read of the mode field fails, with EIO, exactly when its firmware call
fails; else it yields the mode field of out[2]. -/
theorem kbd_mode_show_cases {σ : Type} (spfc : Spfc σ) (w : World σ)
    (out0 : Nat → Nat) :
    ((spfc w.fw [SPFC_UPPER_GET, SPFC_KBD_BACKLIGHT, 0, 0, 0, 0]).1.status
        ≠ AE_OK →
      (__toshiba_kbd_backlight_mode_show spfc w out0).1 = .error (- EIO)) ∧
    ((spfc w.fw [SPFC_UPPER_GET, SPFC_KBD_BACKLIGHT, 0, 0, 0, 0]).1.status
        = AE_OK →
      (__toshiba_kbd_backlight_mode_show spfc w out0).1 =
        .ok (kbd_backlight_mode_of (out_word (toshiba_spfc_communicate spfc w
          [SPFC_UPPER_GET, SPFC_KBD_BACKLIGHT, 0, 0, 0, 0] (some out0)).2.1 2))) ∧
    (__toshiba_kbd_backlight_mode_show spfc w out0).2.fw =
      (spfc w.fw [SPFC_UPPER_GET, SPFC_KBD_BACKLIGHT, 0, 0, 0, 0]).2 := by
  unfold __toshiba_kbd_backlight_mode_show
  simp only [communicate_status]
  split_ifs with h <;> simp [h, communicate_fw]

/-- The read of the timeout field fails, with EIO, exactly when its firmware
call fails; else it yields the timeout field of out[2]. -/
theorem kbd_time_show_cases {σ : Type} (spfc : Spfc σ) (w : World σ)
    (out0 : Nat → Nat) :
    ((spfc w.fw [SPFC_UPPER_GET, SPFC_KBD_BACKLIGHT, 0, 0, 0, 0]).1.status
        ≠ AE_OK →
      (__toshiba_kbd_backlight_time_show spfc w out0).1 = .error (- EIO)) ∧
    ((spfc w.fw [SPFC_UPPER_GET, SPFC_KBD_BACKLIGHT, 0, 0, 0, 0]).1.status
        = AE_OK →
      (__toshiba_kbd_backlight_time_show spfc w out0).1 =
        .ok (kbd_backlight_time_of (out_word (toshiba_spfc_communicate spfc w
          [SPFC_UPPER_GET, SPFC_KBD_BACKLIGHT, 0, 0, 0, 0] (some out0)).2.1 2))) ∧
    (__toshiba_kbd_backlight_time_show spfc w out0).2.fw =
      (spfc w.fw [SPFC_UPPER_GET, SPFC_KBD_BACKLIGHT, 0, 0, 0, 0]).2 := by
  unfold __toshiba_kbd_backlight_time_show
  simp only [communicate_status]
  split_ifs with h <;> simp [h, communicate_fw]

/-- The sysfs read of kbd_backlight returns EIO exactly when its firmware call
fails. -/
theorem kbd_mode_show_eio {σ : Type} (spfc : Spfc σ) (w : World σ)
    (out0 : Nat → Nat) :
    (toshiba_kbd_backlight_mode_show spfc w out0).1 = .error (- EIO) ↔
      (spfc w.fw [SPFC_UPPER_GET, SPFC_KBD_BACKLIGHT, 0, 0, 0, 0]).1.status
        ≠ AE_OK := by
  obtain ⟨h1, h2, -⟩ := kbd_mode_show_cases spfc w out0
  unfold toshiba_kbd_backlight_mode_show
  by_cases h : (spfc w.fw [SPFC_UPPER_GET, SPFC_KBD_BACKLIGHT, 0, 0, 0, 0]).1.status
      = AE_OK
  · have e := h2 h
    rcases hm : __toshiba_kbd_backlight_mode_show spfc w out0 with ⟨r, w1⟩
    rw [hm] at e
    simp only at e
    subst e
    simp only
    split_ifs <;> simp [h]
  · have e := h1 h
    rcases hm : __toshiba_kbd_backlight_mode_show spfc w out0 with ⟨r, w1⟩
    rw [hm] at e
    simp only at e
    subst e
    simp [h]

/-- The sysfs read of kbd_backlight_timeout returns EIO exactly when its
firmware call fails. -/
theorem kbd_time_show_eio {σ : Type} (spfc : Spfc σ) (w : World σ)
    (out0 : Nat → Nat) :
    (toshiba_kbd_backlight_time_show spfc w out0).1 = .error (- EIO) ↔
      (spfc w.fw [SPFC_UPPER_GET, SPFC_KBD_BACKLIGHT, 0, 0, 0, 0]).1.status
        ≠ AE_OK := by
  obtain ⟨h1, h2, -⟩ := kbd_time_show_cases spfc w out0
  unfold toshiba_kbd_backlight_time_show
  by_cases h : (spfc w.fw [SPFC_UPPER_GET, SPFC_KBD_BACKLIGHT, 0, 0, 0, 0]).1.status
      = AE_OK
  · have e := h2 h
    rcases hm : __toshiba_kbd_backlight_time_show spfc w out0 with ⟨r, w1⟩
    rw [hm] at e
    simp only at e
    subst e
    simp [h]
  · have e := h1 h
    rcases hm : __toshiba_kbd_backlight_time_show spfc w out0 with ⟨r, w1⟩
    rw [hm] at e
    simp only at e
    subst e
    simp [h]

/-- A store handler of an on/off feature returns EIO exactly when the text is
accepted and its firmware call fails. -/
theorem store_flag_eio {σ : Type} (spfc : Spfc σ) (w : World σ)
    (set reg count : Nat) (parsed : Option Nat) :
    (store_flag spfc w set reg count parsed).1 = - EIO ↔
      count ≤ 31 ∧ ∃ v, parsed = some v ∧
        (spfc w.fw [set, reg, if v ≠ 0 then 1 else 0, 0, 0, 0]).1.status
          ≠ AE_OK := by
  unfold store_flag
  by_cases hc : count > 31
  · rw [if_pos hc]
    constructor
    · intro h; simp [ EIO, EINVAL] at h
    · rintro ⟨h, -⟩; omega
  · rw [if_neg hc]
    cases parsed with
    | none =>
      constructor
      · intro h; simp [ EIO, EINVAL] at h
      · rintro ⟨-, v, hv, -⟩; cases hv
    | some value =>
      simp only [communicate_status]
      by_cases h : (spfc w.fw [set, reg, if value ≠ 0 then 1 else 0, 0, 0,
          0]).1.status ≠ AE_OK
      · rw [if_pos h]
        constructor
        · intro _; exact ⟨by omega, value, rfl, h⟩
        · intro _; rfl
      · rw [if_neg h]
        constructor
        · intro he
          simp only [ EIO] at he
          omega
        · rintro ⟨-, v, hv, hf⟩
          cases hv
          exact absurd hf h

/-- The write of the keyboard-backlight word returns EIO exactly when mode and
timeout are accepted and its firmware call fails. -/
theorem kbd_store_eio {σ : Type} (spfc : Spfc σ) (w : World σ) (m t : Nat) :
    (__toshiba_kbd_backlight_store spfc w m t).1 = - EIO ↔
      t ≤ 60 ∧ (m = 0x10 ∨ m = 0x08 ∨ m = 0x02) ∧
        (spfc w.fw [SPFC_UPPER_SET, SPFC_KBD_BACKLIGHT, kbd_backlight_word m t,
          0, 0, 0]).1.status ≠ AE_OK := by
  unfold __toshiba_kbd_backlight_store
  by_cases h1 : t > 60
  · rw [if_pos h1]
    constructor
    · intro h; simp [ EIO, EINVAL] at h
    · rintro ⟨h, -⟩; omega
  · rw [if_neg h1]
    by_cases h2 : m ≠ 0x10 ∧ m ≠ 0x08 ∧ m ≠ 0x02
    · rw [if_pos h2]
      constructor
      · intro h; simp [ EIO, EINVAL] at h
      · rintro ⟨-, hm, -⟩
        rcases hm with rfl | rfl | rfl <;> simp at h2
    · rw [if_neg h2]
      have hm : m = 0x10 ∨ m = 0x08 ∨ m = 0x02 := by
        by_contra hn
        apply h2
        refine ⟨fun h => hn (Or.inl h), fun h => hn (Or.inr (Or.inl h)),
          fun h => hn (Or.inr (Or.inr h))⟩
      simp only [communicate_status]
      split_ifs with h
      · exact ⟨fun _ => ⟨by omega, hm, h⟩, fun _ => rfl⟩
      · constructor
        · intro he; simp [ EIO] at he
        · rintro ⟨-, -, hf⟩; exact absurd hf h

/-- A keyboard-backlight store handler, once its read succeeded, returns EIO
exactly when the write of the word does. -/
theorem kbd_store_result_ne_zero {σ : Type} (spfc : Spfc σ) (w : World σ)
    (m t count : Nat) :
    (if (__toshiba_kbd_backlight_store spfc w m t).1 ≠ 0 then
        ((__toshiba_kbd_backlight_store spfc w m t).1,
          (__toshiba_kbd_backlight_store spfc w m t).2)
      else ((count : Int), (__toshiba_kbd_backlight_store spfc w m t).2)).1
        = - EIO ↔
      (__toshiba_kbd_backlight_store spfc w m t).1 = - EIO := by
  split_ifs with h
  · exact Iff.rfl
  · have h0 : (__toshiba_kbd_backlight_store spfc w m t).1 = 0 := by
      by_contra hn; exact h hn
    rw [h0]
    constructor
    · intro he; simp only [ EIO] at he; omega
    · intro he; simp [ EIO] at he

/-- The illumination write returns EIO exactly when the text is accepted and
its firmware call fails. -/
theorem illumination_store_eio {σ : Type} (spfc : Spfc σ) (w : World σ)
    (count : Nat) (parsed : Option Nat) :
    (toshiba_illumination_mode_store spfc w count parsed).1 = - EIO ↔
      count ≤ 31 ∧ ∃ v, parsed = some v ∧
        (spfc w.fw [SPFC_UPPER_SET, SPFC_ILLUMINATION,
          if v % 2 ^ 32 ≠ 0 then 1 else 0, 0, 0, 0]).1.status ≠ AE_OK := by
  unfold toshiba_illumination_mode_store
  by_cases hc : count > 31
  · rw [if_pos hc]
    constructor
    · intro h; simp [ EIO, EINVAL] at h
    · rintro ⟨h, -⟩; omega
  · rw [if_neg hc]
    cases parsed with
    | none =>
      constructor
      · intro h; simp [ EIO, EINVAL] at h
      · rintro ⟨-, v, hv, -⟩; cases hv
    | some value =>
      simp only [__toshiba_illumination_mode_store, communicate_status]
      by_cases h : (spfc w.fw [SPFC_UPPER_SET, SPFC_ILLUMINATION,
          if value % 2 ^ 32 ≠ 0 then 1 else 0, 0, 0, 0]).1.status ≠ AE_OK
      · rw [if_pos h]
        have hne : (- EIO : Int) ≠ 0 := by simp [ EIO]
        rw [if_pos hne]
        exact ⟨fun _ => ⟨by omega, value, rfl, h⟩, fun _ => rfl⟩
      · rw [if_neg h]
        simp only [ne_eq, not_true_eq_false, if_false]
        constructor
        · intro he
          simp only [ EIO] at he
          omega
        · rintro ⟨-, v, hv, hf⟩
          cases hv
          exact absurd hf h

/-- The illumination_flash write returns EIO exactly when the text and the
narrowed value are accepted and its firmware call fails. -/
theorem flash_store_eio {σ : Type} (spfc : Spfc σ) (s : DriverState σ)
    (count : Nat) (parsed : Option Nat) :
    (toshiba_illumination_flash_store spfc s count parsed).1 = - EIO ↔
      count ≤ 31 ∧ ∃ v, parsed = some v ∧ v % 2 ^ 32 < 3 ∧
        (spfc s.world.fw [SPFC_LOWER_SET, SPFC_ILLUMIN_FLASH, v % 2 ^ 32,
          0, 0, 0]).1.status ≠ AE_OK := by
  unfold toshiba_illumination_flash_store
  by_cases hc : count > 31
  · rw [if_pos hc]
    constructor
    · intro h; simp [ EIO, EINVAL] at h
    · rintro ⟨h, -⟩; omega
  · rw [if_neg hc]
    cases parsed with
    | none =>
      constructor
      · intro h; simp [ EIO, EINVAL] at h
      · rintro ⟨-, v, hv, -⟩; cases hv
    | some value =>
      simp only [__toshiba_illumination_flash_store, communicate_status]
      by_cases h3 : value % 2 ^ 32 ≥ 3
      · rw [if_pos h3]
        constructor
        · intro h; simp [ EIO, EINVAL] at h
        · rintro ⟨-, v, hv, hlt, -⟩
          cases hv
          omega
      · rw [if_neg h3]
        by_cases h : (spfc s.world.fw [SPFC_LOWER_SET, SPFC_ILLUMIN_FLASH,
            value % 2 ^ 32, 0, 0, 0]).1.status ≠ AE_OK
        · rw [if_pos h]
          have hne : (- EIO : Int) ≠ 0 := by simp [ EIO]
          rw [if_pos hne]
          exact ⟨fun _ => ⟨by omega, value, rfl, by omega, h⟩, fun _ => rfl⟩
        · rw [if_neg h]
          simp only [ne_eq, not_true_eq_false, if_false]
          constructor
          · intro he
            simp only [ EIO] at he
            omega
          · rintro ⟨-, v, hv, -, hf⟩
            cases hv
            exact absurd hf h

/-- The kbd_backlight write returns EIO exactly when the text is accepted and
either its read of the timeout fails, or the read succeeds, the timeout read
is accepted and the write of the word fails. -/
theorem kbd_mode_store_eio {σ : Type} (spfc : Spfc σ) (w : World σ)
    (out0 : Nat → Nat) (count : Nat) (parsed : Option Nat) :
    (toshiba_kbd_backlight_mode_store spfc w out0 count parsed).1 = - EIO ↔
      count ≤ 31 ∧ ∃ v, parsed = some v ∧
        ((spfc w.fw [SPFC_UPPER_GET, SPFC_KBD_BACKLIGHT, 0, 0, 0, 0]).1.status
            ≠ AE_OK ∨
          (kbd_backlight_time_of (out_word (toshiba_spfc_communicate spfc w
              [SPFC_UPPER_GET, SPFC_KBD_BACKLIGHT, 0, 0, 0, 0]
              (some out0)).2.1 2) ≤ 60 ∧
            (spfc (spfc w.fw [SPFC_UPPER_GET, SPFC_KBD_BACKLIGHT, 0, 0, 0, 0]).2
              [SPFC_UPPER_SET, SPFC_KBD_BACKLIGHT,
                kbd_backlight_word (kbd_backlight_mode_code v)
                  (kbd_backlight_time_of (out_word (toshiba_spfc_communicate
                    spfc w [SPFC_UPPER_GET, SPFC_KBD_BACKLIGHT, 0, 0, 0, 0]
                    (some out0)).2.1 2)),
                0, 0, 0]).1.status ≠ AE_OK)) := by
  obtain ⟨h1, h2, hfw⟩ := kbd_time_show_cases spfc w out0
  unfold toshiba_kbd_backlight_mode_store
  by_cases hc : count > 31
  · rw [if_pos hc]
    constructor
    · intro h; simp [ EIO, EINVAL] at h
    · rintro ⟨h, -⟩; omega
  · rw [if_neg hc]
    cases parsed with
    | none =>
      constructor
      · intro h; simp [ EIO, EINVAL] at h
      · rintro ⟨-, v, hv, -⟩; cases hv
    | some value =>
      simp only
      by_cases h : (spfc w.fw [SPFC_UPPER_GET, SPFC_KBD_BACKLIGHT, 0, 0, 0,
          0]).1.status = AE_OK
      · have e := h2 h
        rcases hm : __toshiba_kbd_backlight_time_show spfc w out0 with ⟨r, w1⟩
        rw [hm] at e hfw
        simp only at e hfw
        subst e
        simp only
        rw [kbd_store_result_ne_zero, kbd_store_eio, hfw]
        constructor
        · rintro ⟨ht, -, hf⟩
          exact ⟨by omega, value, rfl, Or.inr ⟨ht, hf⟩⟩
        · rintro ⟨-, v, hv, hh | ⟨ht, hf⟩⟩
          · exact absurd h hh
          · cases hv
            exact ⟨ht, kbd_backlight_mode_code_valid _, hf⟩
      · have e := h1 h
        rcases hm : __toshiba_kbd_backlight_time_show spfc w out0 with ⟨r, w1⟩
        rw [hm] at e
        simp only at e
        subst e
        simp only
        exact ⟨fun _ => ⟨by omega, value, rfl, Or.inl h⟩, fun _ => trivial⟩

/-- The kbd_backlight_timeout write returns EIO exactly when the text is
accepted and either its read of the mode fails, or the read succeeds, the
narrowed timeout and the mode read are accepted and the write of the word
fails. -/
theorem kbd_time_store_eio {σ : Type} (spfc : Spfc σ) (w : World σ)
    (out0 : Nat → Nat) (count : Nat) (parsed : Option Nat) :
    (toshiba_kbd_backlight_time_store spfc w out0 count parsed).1 = - EIO ↔
      count ≤ 31 ∧ ∃ v, parsed = some v ∧
        ((spfc w.fw [SPFC_UPPER_GET, SPFC_KBD_BACKLIGHT, 0, 0, 0, 0]).1.status
            ≠ AE_OK ∨
          (v % 2 ^ 32 ≤ 60 ∧
            (kbd_backlight_mode_of (out_word (toshiba_spfc_communicate spfc w
                [SPFC_UPPER_GET, SPFC_KBD_BACKLIGHT, 0, 0, 0, 0]
                (some out0)).2.1 2) = 0x10 ∨
              kbd_backlight_mode_of (out_word (toshiba_spfc_communicate spfc w
                [SPFC_UPPER_GET, SPFC_KBD_BACKLIGHT, 0, 0, 0, 0]
                (some out0)).2.1 2) = 0x08 ∨
              kbd_backlight_mode_of (out_word (toshiba_spfc_communicate spfc w
                [SPFC_UPPER_GET, SPFC_KBD_BACKLIGHT, 0, 0, 0, 0]
                (some out0)).2.1 2) = 0x02) ∧
            (spfc (spfc w.fw [SPFC_UPPER_GET, SPFC_KBD_BACKLIGHT, 0, 0, 0, 0]).2
              [SPFC_UPPER_SET, SPFC_KBD_BACKLIGHT,
                kbd_backlight_word
                  (kbd_backlight_mode_of (out_word (toshiba_spfc_communicate
                    spfc w [SPFC_UPPER_GET, SPFC_KBD_BACKLIGHT, 0, 0, 0, 0]
                    (some out0)).2.1 2))
                  (v % 2 ^ 32),
                0, 0, 0]).1.status ≠ AE_OK)) := by
  obtain ⟨h1, h2, hfw⟩ := kbd_mode_show_cases spfc w out0
  unfold toshiba_kbd_backlight_time_store
  by_cases hc : count > 31
  · rw [if_pos hc]
    constructor
    · intro h; simp [ EIO, EINVAL] at h
    · rintro ⟨h, -⟩; omega
  · rw [if_neg hc]
    cases parsed with
    | none =>
      constructor
      · intro h; simp [ EIO, EINVAL] at h
      · rintro ⟨-, v, hv, -⟩; cases hv
    | some value =>
      simp only
      by_cases h : (spfc w.fw [SPFC_UPPER_GET, SPFC_KBD_BACKLIGHT, 0, 0, 0,
          0]).1.status = AE_OK
      · have e := h2 h
        rcases hm : __toshiba_kbd_backlight_mode_show spfc w out0 with ⟨r, w1⟩
        rw [hm] at e hfw
        simp only at e hfw
        subst e
        simp only
        rw [kbd_store_result_ne_zero, kbd_store_eio, hfw]
        constructor
        · rintro ⟨ht, hmode, hf⟩
          exact ⟨by omega, value, rfl, Or.inr ⟨ht, hmode, hf⟩⟩
        · rintro ⟨-, v, hv, hh | ⟨ht, hmode, hf⟩⟩
          · exact absurd h hh
          · cases hv
            exact ⟨ht, hmode, hf⟩
      · have e := h1 h
        rcases hm : __toshiba_kbd_backlight_mode_show spfc w out0 with ⟨r, w1⟩
        rw [hm] at e
        simp only at e
        subst e
        simp only
        exact ⟨fun _ => ⟨by omega, value, rfl, Or.inl h⟩, fun _ => trivial⟩

/-- C18 (amended): no tos1900 feature read or write handler looks at response
word 0. Replacing word 0 of every reply by any value s0 (an embedded failure
status or SUCCESS) changes neither the value returned nor the state left by
any handler, so with a successful transport the outcome for an embedded
failure status is the outcome for SUCCESS. Only a transport failure gives EIO:
each handler returns EIO exactly when a firmware call it makes fails (for a
write handler, after the text and the value were accepted). -/
theorem handlers_ignore_word0 {σ : Type} (s0 : Nat) (spfc : Spfc σ)
    (w : World σ) (s : DriverState σ) (out0 : Nat → Nat) (count : Nat)
    (parsed : Option Nat) :
    (toshiba_illumination_mode_show (with_word0 s0 spfc) w out0
      = toshiba_illumination_mode_show spfc w out0 ∧
    toshiba_kbd_backlight_mode_show (with_word0 s0 spfc) w out0
      = toshiba_kbd_backlight_mode_show spfc w out0 ∧
    toshiba_kbd_backlight_time_show (with_word0 s0 spfc) w out0
      = toshiba_kbd_backlight_time_show spfc w out0 ∧
    toshiba_alt_kbdbl_show (with_word0 s0 spfc) w out0
      = toshiba_alt_kbdbl_show spfc w out0 ∧
    toshiba_boot_speed_show (with_word0 s0 spfc) w out0
      = toshiba_boot_speed_show spfc w out0 ∧
    toshiba_sleep_music_show (with_word0 s0 spfc) w out0
      = toshiba_sleep_music_show spfc w out0 ∧
    toshiba_trackpad_show (with_word0 s0 spfc) w out0
      = toshiba_trackpad_show spfc w out0 ∧
    toshiba_cpu_mode_show (with_word0 s0 spfc) w out0
      = toshiba_cpu_mode_show spfc w out0 ∧
    toshiba_illumination_mode_store (with_word0 s0 spfc) w count parsed
      = toshiba_illumination_mode_store spfc w count parsed ∧
    toshiba_illumination_flash_store (with_word0 s0 spfc) s count parsed
      = toshiba_illumination_flash_store spfc s count parsed ∧
    toshiba_kbd_backlight_mode_store (with_word0 s0 spfc) w out0 count parsed
      = toshiba_kbd_backlight_mode_store spfc w out0 count parsed ∧
    toshiba_kbd_backlight_time_store (with_word0 s0 spfc) w out0 count parsed
      = toshiba_kbd_backlight_time_store spfc w out0 count parsed ∧
    toshiba_alt_kbdbl_store (with_word0 s0 spfc) w count parsed
      = toshiba_alt_kbdbl_store spfc w count parsed ∧
    toshiba_boot_speed_store (with_word0 s0 spfc) w count parsed
      = toshiba_boot_speed_store spfc w count parsed ∧
    toshiba_sleep_music_store (with_word0 s0 spfc) w count parsed
      = toshiba_sleep_music_store spfc w count parsed ∧
    toshiba_trackpad_store (with_word0 s0 spfc) w count parsed
      = toshiba_trackpad_store spfc w count parsed ∧
    toshiba_cpu_mode_store (with_word0 s0 spfc) w count parsed
      = toshiba_cpu_mode_store spfc w count parsed) ∧
    (((toshiba_illumination_mode_show spfc w out0).1 = .error (- EIO) ↔
      (spfc w.fw [SPFC_UPPER_GET, SPFC_ILLUMINATION, 0, 0, 0, 0]).1.status
        ≠ AE_OK) ∧
    ((toshiba_kbd_backlight_mode_show spfc w out0).1 = .error (- EIO) ↔
      (spfc w.fw [SPFC_UPPER_GET, SPFC_KBD_BACKLIGHT, 0, 0, 0, 0]).1.status
        ≠ AE_OK) ∧
    ((toshiba_kbd_backlight_time_show spfc w out0).1 = .error (- EIO) ↔
      (spfc w.fw [SPFC_UPPER_GET, SPFC_KBD_BACKLIGHT, 0, 0, 0, 0]).1.status
        ≠ AE_OK) ∧
    ((toshiba_alt_kbdbl_show spfc w out0).1 = .error (- EIO) ↔
      (spfc w.fw [SPFC_LOWER_GET, SPFC_ALT_KBD_BL, 0, 0, 0, 0]).1.status
        ≠ AE_OK) ∧
    ((toshiba_boot_speed_show spfc w out0).1 = .error (- EIO) ↔
      (spfc w.fw [SPFC_UPPER_GET, SPFC_BOOT_SPEED, 0, 0, 0, 0]).1.status
        ≠ AE_OK) ∧
    ((toshiba_sleep_music_show spfc w out0).1 = .error (- EIO) ↔
      (spfc w.fw [SPFC_UPPER_GET, SPFC_SLEEP_MUSIC, 0, 0, 0, 0]).1.status
        ≠ AE_OK) ∧
    ((toshiba_trackpad_show spfc w out0).1 = .error (- EIO) ↔
      (spfc w.fw [SPFC_UPPER_GET, SPFC_TRACKPAD, 0, 0, 0, 0]).1.status
        ≠ AE_OK) ∧
    ((toshiba_cpu_mode_show spfc w out0).1 = .error (- EIO) ↔
      (spfc w.fw [SPFC_LOWER_GET, SPFC_CPU_MODE, 0, 0, 0, 0]).1.status
        ≠ AE_OK) ∧
    ((toshiba_illumination_mode_store spfc w count parsed).1 = - EIO ↔
      count ≤ 31 ∧ ∃ v, parsed = some v ∧
        (spfc w.fw [SPFC_UPPER_SET, SPFC_ILLUMINATION,
          if v % 2 ^ 32 ≠ 0 then 1 else 0, 0, 0, 0]).1.status ≠ AE_OK) ∧
    ((toshiba_illumination_flash_store spfc s count parsed).1 = - EIO ↔
      count ≤ 31 ∧ ∃ v, parsed = some v ∧ v % 2 ^ 32 < 3 ∧
        (spfc s.world.fw [SPFC_LOWER_SET, SPFC_ILLUMIN_FLASH, v % 2 ^ 32,
          0, 0, 0]).1.status ≠ AE_OK) ∧
    ((toshiba_kbd_backlight_mode_store spfc w out0 count parsed).1 = - EIO ↔
      count ≤ 31 ∧ ∃ v, parsed = some v ∧
        ((spfc w.fw [SPFC_UPPER_GET, SPFC_KBD_BACKLIGHT, 0, 0, 0, 0]).1.status
            ≠ AE_OK ∨
          (kbd_backlight_time_of (out_word (toshiba_spfc_communicate spfc w
              [SPFC_UPPER_GET, SPFC_KBD_BACKLIGHT, 0, 0, 0, 0]
              (some out0)).2.1 2) ≤ 60 ∧
            (spfc (spfc w.fw [SPFC_UPPER_GET, SPFC_KBD_BACKLIGHT, 0, 0, 0, 0]).2
              [SPFC_UPPER_SET, SPFC_KBD_BACKLIGHT,
                kbd_backlight_word (kbd_backlight_mode_code v)
                  (kbd_backlight_time_of (out_word (toshiba_spfc_communicate
                    spfc w [SPFC_UPPER_GET, SPFC_KBD_BACKLIGHT, 0, 0, 0, 0]
                    (some out0)).2.1 2)),
                0, 0, 0]).1.status ≠ AE_OK))) ∧
    ((toshiba_kbd_backlight_time_store spfc w out0 count parsed).1 = - EIO ↔
      count ≤ 31 ∧ ∃ v, parsed = some v ∧
        ((spfc w.fw [SPFC_UPPER_GET, SPFC_KBD_BACKLIGHT, 0, 0, 0, 0]).1.status
            ≠ AE_OK ∨
          (v % 2 ^ 32 ≤ 60 ∧
            (kbd_backlight_mode_of (out_word (toshiba_spfc_communicate spfc w
                [SPFC_UPPER_GET, SPFC_KBD_BACKLIGHT, 0, 0, 0, 0]
                (some out0)).2.1 2) = 0x10 ∨
              kbd_backlight_mode_of (out_word (toshiba_spfc_communicate spfc w
                [SPFC_UPPER_GET, SPFC_KBD_BACKLIGHT, 0, 0, 0, 0]
                (some out0)).2.1 2) = 0x08 ∨
              kbd_backlight_mode_of (out_word (toshiba_spfc_communicate spfc w
                [SPFC_UPPER_GET, SPFC_KBD_BACKLIGHT, 0, 0, 0, 0]
                (some out0)).2.1 2) = 0x02) ∧
            (spfc (spfc w.fw [SPFC_UPPER_GET, SPFC_KBD_BACKLIGHT, 0, 0, 0, 0]).2
              [SPFC_UPPER_SET, SPFC_KBD_BACKLIGHT,
                kbd_backlight_word
                  (kbd_backlight_mode_of (out_word (toshiba_spfc_communicate
                    spfc w [SPFC_UPPER_GET, SPFC_KBD_BACKLIGHT, 0, 0, 0, 0]
                    (some out0)).2.1 2))
                  (v % 2 ^ 32),
                0, 0, 0]).1.status ≠ AE_OK))) ∧
    ((toshiba_alt_kbdbl_store spfc w count parsed).1 = - EIO ↔
      count ≤ 31 ∧ ∃ v, parsed = some v ∧
        (spfc w.fw [SPFC_LOWER_SET, SPFC_ALT_KBD_BL,
          if v ≠ 0 then 1 else 0, 0, 0, 0]).1.status ≠ AE_OK) ∧
    ((toshiba_boot_speed_store spfc w count parsed).1 = - EIO ↔
      count ≤ 31 ∧ ∃ v, parsed = some v ∧
        (spfc w.fw [SPFC_UPPER_SET, SPFC_BOOT_SPEED,
          if v ≠ 0 then 1 else 0, 0, 0, 0]).1.status ≠ AE_OK) ∧
    ((toshiba_sleep_music_store spfc w count parsed).1 = - EIO ↔
      count ≤ 31 ∧ ∃ v, parsed = some v ∧
        (spfc w.fw [SPFC_UPPER_SET, SPFC_SLEEP_MUSIC,
          if v ≠ 0 then 1 else 0, 0, 0, 0]).1.status ≠ AE_OK) ∧
    ((toshiba_trackpad_store spfc w count parsed).1 = - EIO ↔
      count ≤ 31 ∧ ∃ v, parsed = some v ∧
        (spfc w.fw [SPFC_UPPER_SET, SPFC_TRACKPAD,
          if v ≠ 0 then 1 else 0, 0, 0, 0]).1.status ≠ AE_OK) ∧
    ((toshiba_cpu_mode_store spfc w count parsed).1 = - EIO ↔
      count ≤ 31 ∧ ∃ v, parsed = some v ∧
        (spfc w.fw [SPFC_LOWER_SET, SPFC_CPU_MODE,
          if v ≠ 0 then 1 else 0, 0, 0, 0]).1.status ≠ AE_OK)) := by
  refine ⟨word0_not_read s0 spfc w s out0 count parsed, ?_⟩
  exact ⟨show_word2_eio _ _ _ _ _, kbd_mode_show_eio _ _ _,
    kbd_time_show_eio _ _ _, show_word2_eio _ _ _ _ _,
    show_word2_eio _ _ _ _ _, show_word2_eio _ _ _ _ _,
    show_word2_eio _ _ _ _ _, cpu_mode_show_eio _ _ _,
    illumination_store_eio _ _ _ _, flash_store_eio _ _ _ _,
    kbd_mode_store_eio _ _ _ _ _, kbd_time_store_eio _ _ _ _ _,
    store_flag_eio _ _ _ _ _ _, store_flag_eio _ _ _ _ _ _,
    store_flag_eio _ _ _ _ _ _, store_flag_eio _ _ _ _ _ _,
    store_flag_eio _ _ _ _ _ _⟩

theorem handlers_ignore_word0_witness :
    toshiba_trackpad_show
        (with_word0 0x8000 (fixed_reply [0, 0x050E, 1, 0, 0, 0])) ⟨(), []⟩
        (fun _ => 0)
      = toshiba_trackpad_show (fixed_reply [0, 0x050E, 1, 0, 0, 0]) ⟨(), []⟩
        (fun _ => 0) ∧
    (toshiba_trackpad_show
        (with_word0 0x8000 (fixed_reply [0, 0x050E, 1, 0, 0, 0])) ⟨(), []⟩
        (fun _ => 0)).1 ≠ .error (- EIO) ∧
    (toshiba_trackpad_show failed_transport ⟨(), []⟩ (fun _ => 0)).1
      = .error (- EIO) ∧
    (toshiba_trackpad_store failed_transport ⟨(), []⟩ 1 (some 1)).1 = - EIO ∧
    (toshiba_illumination_flash_store failed_transport
      ⟨0, [], [], [], ⟨(), []⟩⟩ 1 (some 2)).1 = - EIO ∧
    (toshiba_kbd_backlight_mode_store (read_only_register 0x1E0010) ⟨(), []⟩
      (fun _ => 0) 1 (some 1)).1 = - EIO ∧
    (toshiba_kbd_backlight_time_store (read_only_register 0x1E0010) ⟨(), []⟩
      (fun _ => 0) 2 (some 45)).1 = - EIO :=
  ⟨(handlers_ignore_word0 0x8000 (fixed_reply [0, 0x050E, 1, 0, 0, 0])
      ⟨(), []⟩ ⟨0, [], [], [], ⟨(), []⟩⟩ (fun _ => 0) 1 (some 1)).1.2.2.2.2.2.2.1,
   fun h => absurd
    ((handlers_ignore_word0 0 (with_word0 0x8000 (fixed_reply [0, 0x050E, 1, 0, 0, 0]))
      ⟨(), []⟩ ⟨0, [], [], [], ⟨(), []⟩⟩ (fun _ => 0) 1
      (some 1)).2.2.2.2.2.2.2.1.mp h) (by decide),
   (handlers_ignore_word0 0 failed_transport ⟨(), []⟩
      ⟨0, [], [], [], ⟨(), []⟩⟩ (fun _ => 0) 1
      (some 1)).2.2.2.2.2.2.2.1.mpr (by decide),
   (handlers_ignore_word0 0 failed_transport ⟨(), []⟩
      ⟨0, [], [], [], ⟨(), []⟩⟩ (fun _ => 0) 1
      (some 1)).2.2.2.2.2.2.2.2.2.2.2.2.2.2.2.2.1.mpr
      ⟨by decide, 1, rfl, by decide⟩,
   (handlers_ignore_word0 0 failed_transport ⟨(), []⟩
      ⟨0, [], [], [], ⟨(), []⟩⟩ (fun _ => 0) 1
      (some 2)).2.2.2.2.2.2.2.2.2.2.1.mpr
      ⟨by decide, 2, rfl, by decide, by decide⟩,
   (handlers_ignore_word0 0 (read_only_register 0x1E0010) ⟨(), []⟩
      ⟨0, [], [], [], ⟨(), []⟩⟩ (fun _ => 0) 1
      (some 1)).2.2.2.2.2.2.2.2.2.2.2.1.mpr
      ⟨by decide, 1, rfl, Or.inr ⟨by decide, by decide⟩⟩,
   (handlers_ignore_word0 0 (read_only_register 0x1E0010) ⟨(), []⟩
      ⟨0, [], [], [], ⟨(), []⟩⟩ (fun _ => 0) 2
      (some 45)).2.2.2.2.2.2.2.2.2.2.2.2.1.mpr
      ⟨by decide, 45, rfl, Or.inr ⟨by decide, by decide, by decide⟩⟩⟩

/-! ## Theorems: setup pass -/

/-- Membership in the attributes of the earlier steps. -/
theorem mem_early_attrs (a : Attr) (b1 b2 b3 b4 b5 b6 : Bool) :
    a ∈ early_attrs b1 b2 b3 b4 b5 b6 ↔
      (b1 = true ∧ a = Attr.lumin_mode) ∨ (b2 = true ∧ a = Attr.boot_speed) ∨
      (b3 = true ∧ a = Attr.sleep_music) ∨ (b4 = true ∧ a = Attr.lumin_flash) ∨
      (b5 = true ∧ a = Attr.trackpad) ∨ (b6 = true ∧ a = Attr.cpu_mode) := by
  cases b1 <;> cases b2 <;> cases b3 <;> cases b4 <;> cases b5 <;> cases b6 <;>
    simp [early_attrs, opt]

/-- Clearing a pointer that is NULL changes nothing. -/
theorem clear_ptr_of_not_mem (a : Attr) (l : List Attr) (h : a ∉ l) :
    clear_ptr a l = l := by
  unfold clear_ptr
  rw [List.filter_eq_self]
  intro x hx
  have : x ≠ a := fun e => h (e ▸ hx)
  simpa using this

/-- A cleanup of an attribute whose pointer is NULL does nothing. -/
theorem attr_cleanup_of_not_mem {σ : Type} (a : Attr) (s : DriverState σ)
    (h : a ∉ s.attrs) : attr_cleanup a s = s := by
  unfold attr_cleanup
  rw [if_neg h]

/-- One cleanup in front of a cleanup label: when the label out removes the
attributes E in reverse order, the cleanup of a further attribute a followed
by out removes E and then a in reverse order, whether a is registered
(b true) or not. -/
theorem cleanup_step {σ : Type} (a : Attr) (E : List Attr) (hna : a ∉ E)
    (out : DriverState σ → DriverState σ)
    (Hout : ∀ s, s.attrs = E → s.files = E →
      (out s).attrs = [] ∧ (out s).files = [] ∧
      (out s).log = s.log ++ E.reverse.map SysfsOp.remove)
    (b : Bool) (s : DriverState σ)
    (ha : s.attrs = E ++ opt b a) (hf : s.files = E ++ opt b a) :
    (out (attr_cleanup a s)).attrs = [] ∧
    (out (attr_cleanup a s)).files = [] ∧
    (out (attr_cleanup a s)).log
      = s.log ++ (E ++ opt b a).reverse.map SysfsOp.remove := by
  have hfil : List.filter (fun x => decide (x ≠ a)) E = E :=
    clear_ptr_of_not_mem a E hna
  cases b with
  | false =>
    have ha2 : s.attrs = E := by simpa [opt] using ha
    have hf2 : s.files = E := by simpa [opt] using hf
    have hn : a ∉ s.attrs := by rw [ha2]; exact hna
    rw [attr_cleanup_of_not_mem a s hn]
    obtain ⟨o1, o2, o3⟩ := Hout s ha2 hf2
    exact ⟨o1, o2, by rw [o3]; simp [opt]⟩
  | true =>
    have ha2 : s.attrs = E ++ [a] := by simpa [opt] using ha
    have hf2 : s.files = E ++ [a] := by simpa [opt] using hf
    have hin : a ∈ s.attrs := by rw [ha2]; simp
    have hc : attr_cleanup a s
        = { s with attrs := E, files := E,
                   log := s.log ++ [SysfsOp.remove a] } := by
      unfold attr_cleanup clear_ptr
      rw [if_pos hin, ha2, hf2, List.filter_append, hfil]
      simp
    rw [hc]
    obtain ⟨o1, o2, o3⟩ := Hout
      { s with attrs := E, files := E, log := s.log ++ [SysfsOp.remove a] }
      rfl rfl
    exact ⟨o1, o2, by rw [o3]; simp [opt]⟩

/-- The cleanup labels remove the attributes registered by the earlier steps
in the reverse of the setup order and leave no pointer and no file. -/
theorem outillumination_removes {σ : Type} (b1 : Bool)
    (s : DriverState σ)
    (ha : s.attrs = early_attrs b1 false false false false false)
    (hf : s.files = early_attrs b1 false false false false false) :
    (outillumination s).attrs = [] ∧ (outillumination s).files = [] ∧
    (outillumination s).log = s.log ++
      (early_attrs b1 false false false false false).reverse.map
        SysfsOp.remove := by
  have he : early_attrs b1 false false false false false
      = [] ++ opt b1 Attr.lumin_mode := by
    simp [early_attrs, opt]
  rw [he] at ha hf ⊢
  exact cleanup_step Attr.lumin_mode [] (by simp) (fun s => s)
    (fun s h1 h2 => by simp [h1, h2]) b1 s ha hf

theorem outbootspeed_removes {σ : Type} (b1 b2 : Bool)
    (s : DriverState σ)
    (ha : s.attrs = early_attrs b1 b2 false false false false)
    (hf : s.files = early_attrs b1 b2 false false false false) :
    (outbootspeed s).attrs = [] ∧ (outbootspeed s).files = [] ∧
    (outbootspeed s).log = s.log ++
      (early_attrs b1 b2 false false false false).reverse.map SysfsOp.remove := by
  have he : early_attrs b1 b2 false false false false
      = early_attrs b1 false false false false false ++
        opt b2 Attr.boot_speed := by
    simp [early_attrs, opt]
  rw [he] at ha hf ⊢
  exact cleanup_step Attr.boot_speed _ (by simp [mem_early_attrs])
    outillumination (fun s => outillumination_removes b1 s) b2 s ha hf

theorem outsleepmusic_removes {σ : Type} (b1 b2 b3 : Bool)
    (s : DriverState σ) (ha : s.attrs = early_attrs b1 b2 b3 false false false)
    (hf : s.files = early_attrs b1 b2 b3 false false false) :
    (outsleepmusic s).attrs = [] ∧ (outsleepmusic s).files = [] ∧
    (outsleepmusic s).log = s.log ++
      (early_attrs b1 b2 b3 false false false).reverse.map SysfsOp.remove := by
  have he : early_attrs b1 b2 b3 false false false
      = early_attrs b1 b2 false false false false ++
        opt b3 Attr.sleep_music := by
    simp [early_attrs, opt]
  rw [he] at ha hf ⊢
  exact cleanup_step Attr.sleep_music _ (by simp [mem_early_attrs])
    outbootspeed (fun s => outbootspeed_removes b1 b2 s) b3 s ha hf

theorem outluminflash_removes {σ : Type} (b1 b2 b3 b4 : Bool)
    (s : DriverState σ) (ha : s.attrs = early_attrs b1 b2 b3 b4 false false)
    (hf : s.files = early_attrs b1 b2 b3 b4 false false) :
    (outluminflash s).attrs = [] ∧ (outluminflash s).files = [] ∧
    (outluminflash s).log = s.log ++
      (early_attrs b1 b2 b3 b4 false false).reverse.map SysfsOp.remove := by
  have he : early_attrs b1 b2 b3 b4 false false
      = early_attrs b1 b2 b3 false false false ++
        opt b4 Attr.lumin_flash := by
    simp [early_attrs, opt]
  rw [he] at ha hf ⊢
  exact cleanup_step Attr.lumin_flash _ (by simp [mem_early_attrs])
    outsleepmusic (fun s => outsleepmusic_removes b1 b2 b3 s) b4 s ha hf

theorem outtrackpad_removes {σ : Type} (b1 b2 b3 b4 b5 : Bool)
    (s : DriverState σ) (ha : s.attrs = early_attrs b1 b2 b3 b4 b5 false)
    (hf : s.files = early_attrs b1 b2 b3 b4 b5 false) :
    (outtrackpad s).attrs = [] ∧ (outtrackpad s).files = [] ∧
    (outtrackpad s).log = s.log ++
      (early_attrs b1 b2 b3 b4 b5 false).reverse.map SysfsOp.remove := by
  have he : early_attrs b1 b2 b3 b4 b5 false
      = early_attrs b1 b2 b3 b4 false false ++ opt b5 Attr.trackpad := by
    simp [early_attrs, opt]
  rw [he] at ha hf ⊢
  exact cleanup_step Attr.trackpad _ (by simp [mem_early_attrs])
    outluminflash (fun s => outluminflash_removes b1 b2 b3 b4 s) b5 s ha hf

theorem outcpumode_removes {σ : Type} (b1 b2 b3 b4 b5 b6 : Bool)
    (s : DriverState σ) (ha : s.attrs = early_attrs b1 b2 b3 b4 b5 b6)
    (hf : s.files = early_attrs b1 b2 b3 b4 b5 b6) :
    (outcpumode s).attrs = [] ∧ (outcpumode s).files = [] ∧
    (outcpumode s).log = s.log ++
      (early_attrs b1 b2 b3 b4 b5 b6).reverse.map SysfsOp.remove := by
  have he : early_attrs b1 b2 b3 b4 b5 b6
      = early_attrs b1 b2 b3 b4 b5 false ++ opt b6 Attr.cpu_mode := by
    simp [early_attrs, opt]
  rw [he] at ha hf ⊢
  exact cleanup_step Attr.cpu_mode _ (by simp [mem_early_attrs])
    outtrackpad (fun s => outtrackpad_removes b1 b2 b3 b4 b5 s) b6 s ha hf

/-- The outcome of attr_setup on an attribute whose pointer is NULL: it
succeeds exactly when allocation and file creation do, and then registers the
attribute; else it returns ENOMEM or the error of the file creation and leaves
the state as it was. -/
theorem attr_setup_outcome {σ : Type} (env : SetupEnv) (a : Attr)
    (s : DriverState σ) (h : a ∉ s.attrs) :
    (env.kzalloc a = true ∧ env.device_create_file a = 0 ∧
      (attr_setup env a s).1 = 0 ∧
      (attr_setup env a s).2.attrs = s.attrs ++ [a] ∧
      (attr_setup env a s).2.files = s.files ++ [a] ∧
      (attr_setup env a s).2.log = s.log ++ [SysfsOp.create a]) ∨
    (¬ (env.kzalloc a = true ∧ env.device_create_file a = 0) ∧
      (attr_setup env a s).1 ≠ 0 ∧
      (attr_setup env a s).1
        = (if env.kzalloc a = true then env.device_create_file a else - ENOMEM) ∧
      (attr_setup env a s).2 = s) := by
  have hclear := clear_ptr_of_not_mem a s.attrs h
  have hset : set_ptr a s.attrs = s.attrs ++ [a] := by
    unfold set_ptr
    have := hclear
    unfold clear_ptr at this
    rw [this]
  unfold attr_setup
  by_cases hk : env.kzalloc a = false
  · right
    simp [hk, hclear, ENOMEM]
  · by_cases hc : env.device_create_file a ≠ 0
    · right
      have hk2 : env.kzalloc a = true := by simpa using hk
      simp [hk2, hc, hclear]
    · left
      have hk2 : env.kzalloc a = true := by simpa using hk
      have hc2 : env.device_create_file a = 0 := by simpa using hc
      simp [hk2, hc2, hset]

/-- A feature with one attribute exposes exactly when the allocation and the
file creation of that attribute succeed. -/
theorem exposes_single (env : SetupEnv) (f : Feature) (a : Attr)
    (hfa : f.attrs = [a]) :
    exposes env f = true ↔
      (env.kzalloc a = true ∧ env.device_create_file a = 0) := by
  simp [exposes, hfa]

/-- The failure code and trace of a failing feature with one attribute. -/
theorem failure_single (env : SetupEnv) (f : Feature) (a : Attr)
    (hfa : f.attrs = [a])
    (h : ¬ (env.kzalloc a = true ∧ env.device_create_file a = 0)) :
    failure_code env f
      = (if env.kzalloc a = true then env.device_create_file a else - ENOMEM) ∧
    failure_trace env f = [] := by
  by_cases hk : env.kzalloc a = true
  · have hc : env.device_create_file a ≠ 0 := fun e => h ⟨hk, e⟩
    simp [failure_code, failure_trace, hfa, hk, hc, List.find?, List.takeWhile]
  · have hk2 : env.kzalloc a = false := by simpa using hk
    simp [failure_code, failure_trace, hfa, hk2]

/-- One step of the pass for a feature with one attribute a, not registered
yet: when the cleanup label out removes the attributes E registered so far in
reverse order, and the rest of the pass next meets the expected outcome from
E ++ [a], the step followed by next meets the expected outcome from E. -/
theorem single_step {σ : Type} (env : SetupEnv) (f : Feature) (a : Attr)
    (hfa : f.attrs = [a]) (E : List Attr) (O : List Feature) (hna : a ∉ E)
    (setup : DriverState σ → Int × DriverState σ)
    (out : DriverState σ → DriverState σ)
    (next : DriverState σ → Int × DriverState σ)
    (Hsetup : ∀ s, (setup s).1 = (attr_setup env a s).1 ∧
      (setup s).2.attrs = (attr_setup env a s).2.attrs ∧
      (setup s).2.files = (attr_setup env a s).2.files ∧
      (setup s).2.log = (attr_setup env a s).2.log)
    (Hout : ∀ s, s.attrs = E → s.files = E →
      (out s).attrs = [] ∧ (out s).files = [] ∧
      (out s).log = s.log ++ E.reverse.map SysfsOp.remove)
    (Hnext : ∀ s, s.attrs = E ++ [a] → s.files = E ++ [a] →
      s.log = (E ++ [a]).map SysfsOp.create →
      ((next s).1, (next s).2.log, (next s).2.files)
        = expected_outcome env (E ++ [a]) O ∧
      (next s).2.attrs = (next s).2.files)
    (s : DriverState σ) (ha : s.attrs = E) (hf : s.files = E)
    (hl : s.log = E.map SysfsOp.create) :
    ((if (setup s).1 ≠ 0 then ((setup s).1, out (setup s).2)
        else next (setup s).2).1,
      (if (setup s).1 ≠ 0 then ((setup s).1, out (setup s).2)
        else next (setup s).2).2.log,
      (if (setup s).1 ≠ 0 then ((setup s).1, out (setup s).2)
        else next (setup s).2).2.files)
      = expected_outcome env E (f :: O) ∧
    (if (setup s).1 ≠ 0 then ((setup s).1, out (setup s).2)
        else next (setup s).2).2.attrs
      = (if (setup s).1 ≠ 0 then ((setup s).1, out (setup s).2)
        else next (setup s).2).2.files := by
  obtain ⟨hs1, hs2, hs3, hs4⟩ := Hsetup s
  have hna2 : a ∉ s.attrs := by rw [ha]; exact hna
  rcases attr_setup_outcome env a s hna2 with
    ⟨hk, hc, h1, h2, h3, h4⟩ | ⟨hno, h1, h2, h3⟩
  · have hexp : exposes env f = true := (exposes_single env f a hfa).mpr ⟨hk, hc⟩
    have hz : ¬ ((setup s).1 ≠ 0) := by rw [hs1, h1]; simp
    rw [if_neg hz]
    have hn := Hnext (setup s).2 (by rw [hs2, h2, ha]) (by rw [hs3, h3, hf])
      (by rw [hs4, h4, hl]; simp)
    refine ⟨?_, hn.2⟩
    rw [hn.1]
    simp [expected_outcome, hexp, hfa]
  · have hexp : ¬ (exposes env f = true) := fun e =>
      hno ((exposes_single env f a hfa).mp e)
    obtain ⟨hcode, htrace⟩ := failure_single env f a hfa hno
    have hz : (setup s).1 ≠ 0 := by rw [hs1]; exact h1
    rw [if_pos hz]
    rw [h3] at hs2 hs3 hs4
    obtain ⟨o1, o2, o3⟩ := Hout (setup s).2 (by rw [hs2, ha]) (by rw [hs3, hf])
    refine ⟨?_, by simp only; rw [o1, o2]⟩
    simp only [expected_outcome, if_neg hexp, hcode, htrace, o2, o3, hs4, hl,
      hs1, h2, List.append_nil]

/-- Outcomes of toshiba_kbd_backlight_setup when neither of its pointers is
set and its mode file does not exist: a failed allocation gives ENOMEM and
the state as it was. -/
theorem kbd_setup_enomem {σ : Type} (env : SetupEnv) (s : DriverState σ)
    (hm : Attr.kbdbl_mode ∉ s.attrs) (ht : Attr.kbdbl_time ∉ s.attrs)
    (hk : ¬ (env.kzalloc Attr.kbdbl_mode = true ∧
      env.kzalloc Attr.kbdbl_time = true)) :
    toshiba_kbd_backlight_setup env s = (- ENOMEM, s) := by
  have hcm := clear_ptr_of_not_mem _ _ hm
  have hct := clear_ptr_of_not_mem _ _ ht
  unfold toshiba_kbd_backlight_setup
  by_cases km : env.kzalloc Attr.kbdbl_mode = false
  · rw [if_pos km, hcm]
  · have km2 : env.kzalloc Attr.kbdbl_mode = true := by simpa using km
    have kt : env.kzalloc Attr.kbdbl_time = false := by
      cases h : env.kzalloc Attr.kbdbl_time
      · rfl
      · exact absurd ⟨km2, h⟩ hk
    rw [if_neg km, if_pos kt, hct, hcm]

/-- A failed creation of the mode file gives its error and the state as it
was. -/
theorem kbd_setup_mode_file_fails {σ : Type} (env : SetupEnv)
    (s : DriverState σ)
    (hm : Attr.kbdbl_mode ∉ s.attrs) (ht : Attr.kbdbl_time ∉ s.attrs)
    (km : env.kzalloc Attr.kbdbl_mode = true)
    (kt : env.kzalloc Attr.kbdbl_time = true)
    (cm : env.device_create_file Attr.kbdbl_mode ≠ 0) :
    toshiba_kbd_backlight_setup env s
      = (env.device_create_file Attr.kbdbl_mode, s) := by
  have hcm := clear_ptr_of_not_mem _ _ hm
  have hct := clear_ptr_of_not_mem _ _ ht
  have km2 : ¬ (env.kzalloc Attr.kbdbl_mode = false) := by simp [km]
  have kt2 : ¬ (env.kzalloc Attr.kbdbl_time = false) := by simp [kt]
  unfold toshiba_kbd_backlight_setup
  rw [if_neg km2, if_neg kt2, if_pos cm, hct, hcm]

/-- A failed creation of the timeout file gives its error; the mode file was
created and removed again. -/
theorem kbd_setup_time_file_fails {σ : Type} (env : SetupEnv)
    (s : DriverState σ)
    (hm : Attr.kbdbl_mode ∉ s.attrs) (ht : Attr.kbdbl_time ∉ s.attrs)
    (hfm : Attr.kbdbl_mode ∉ s.files)
    (km : env.kzalloc Attr.kbdbl_mode = true)
    (kt : env.kzalloc Attr.kbdbl_time = true)
    (cm : env.device_create_file Attr.kbdbl_mode = 0)
    (ct : env.device_create_file Attr.kbdbl_time ≠ 0) :
    toshiba_kbd_backlight_setup env s
      = (env.device_create_file Attr.kbdbl_time,
        { s with log := s.log ++
          [SysfsOp.create Attr.kbdbl_mode, SysfsOp.remove Attr.kbdbl_mode] }) := by
  have hcm := clear_ptr_of_not_mem _ _ hm
  have hct := clear_ptr_of_not_mem _ _ ht
  have hff : (s.files ++ [Attr.kbdbl_mode]).filter
      (fun x => x ≠ Attr.kbdbl_mode) = s.files := by
    have := clear_ptr_of_not_mem _ _ hfm
    unfold clear_ptr at this
    rw [List.filter_append, this]
    simp
  have km2 : ¬ (env.kzalloc Attr.kbdbl_mode = false) := by simp [km]
  have kt2 : ¬ (env.kzalloc Attr.kbdbl_time = false) := by simp [kt]
  have cm2 : ¬ (env.device_create_file Attr.kbdbl_mode ≠ 0) := by simp [cm]
  unfold toshiba_kbd_backlight_setup
  rw [if_neg km2, if_neg kt2, if_neg cm2, if_pos ct, hct, hcm, hff]

/-- When both allocations and both file creations succeed, the setup returns
0 and registers the mode and the timeout attribute, in this order. -/
theorem kbd_setup_ok {σ : Type} (env : SetupEnv) (s : DriverState σ)
    (hm : Attr.kbdbl_mode ∉ s.attrs) (ht : Attr.kbdbl_time ∉ s.attrs)
    (km : env.kzalloc Attr.kbdbl_mode = true)
    (kt : env.kzalloc Attr.kbdbl_time = true)
    (cm : env.device_create_file Attr.kbdbl_mode = 0)
    (ct : env.device_create_file Attr.kbdbl_time = 0) :
    toshiba_kbd_backlight_setup env s
      = (0, { s with
          attrs := s.attrs ++ [Attr.kbdbl_mode, Attr.kbdbl_time],
          files := s.files ++ [Attr.kbdbl_mode, Attr.kbdbl_time],
          log := s.log ++
            [SysfsOp.create Attr.kbdbl_mode, SysfsOp.create Attr.kbdbl_time] }) := by
  have hcm := clear_ptr_of_not_mem _ _ hm
  have hct := clear_ptr_of_not_mem _ _ ht
  unfold clear_ptr at hcm hct
  have hset : set_ptr Attr.kbdbl_time (set_ptr Attr.kbdbl_mode s.attrs)
      = s.attrs ++ [Attr.kbdbl_mode, Attr.kbdbl_time] := by
    unfold set_ptr
    rw [hcm, List.filter_append, hct]
    simp
  have km2 : ¬ (env.kzalloc Attr.kbdbl_mode = false) := by simp [km]
  have kt2 : ¬ (env.kzalloc Attr.kbdbl_time = false) := by simp [kt]
  have cm2 : ¬ (env.device_create_file Attr.kbdbl_mode ≠ 0) := by simp [cm]
  have ct2 : ¬ (env.device_create_file Attr.kbdbl_time ≠ 0) := by simp [ct]
  unfold toshiba_kbd_backlight_setup
  rw [if_neg km2, if_neg kt2, if_neg cm2, if_neg ct2, hset]

/-- The end of the pass meets the expected outcome of an empty order. -/
theorem pass_end_meets {σ : Type} (env : SetupEnv) (E : List Attr)
    (s : DriverState σ) (ha : s.attrs = E) (hf : s.files = E)
    (hl : s.log = E.map SysfsOp.create) :
    (((0 : Int), s).1, ((0 : Int), s).2.log, ((0 : Int), s).2.files)
      = expected_outcome env E [] ∧
    ((0 : Int), s).2.attrs = ((0 : Int), s).2.files := by
  simp [expected_outcome, ha, hf, hl]

/-- The keyboard-backlight step, run with the attributes of the earlier steps
registered, meets the expected outcome of the rest of the setup order. -/
theorem acpi_setup_kbd_meets {σ : Type} (env : SetupEnv) (b1 b2 b3 b4 : Bool)
    (s : DriverState σ)
    (ha : s.attrs = early_attrs b1 b2 b3 b4 true true)
    (hf : s.files = early_attrs b1 b2 b3 b4 true true)
    (hl : s.log = (early_attrs b1 b2 b3 b4 true true).map SysfsOp.create) :
    ((acpi_setup_kbd env s).1, (acpi_setup_kbd env s).2.log,
      (acpi_setup_kbd env s).2.files)
      = expected_outcome env (early_attrs b1 b2 b3 b4 true true)
          (order_from_kbd env) ∧
    (acpi_setup_kbd env s).2.attrs = (acpi_setup_kbd env s).2.files := by
  have hm : Attr.kbdbl_mode ∉ s.attrs := by rw [ha]; simp [mem_early_attrs]
  have ht : Attr.kbdbl_time ∉ s.attrs := by rw [ha]; simp [mem_early_attrs]
  have hfm : Attr.kbdbl_mode ∉ s.files := by rw [hf]; simp [mem_early_attrs]
  have halt : Attr.alt_kbdbl ∉ early_attrs b1 b2 b3 b4 true true := by
    simp [mem_early_attrs]
  unfold acpi_setup_kbd order_from_kbd
  by_cases p12 : toshiba_acpi_is_device env PIDC_ID_KBD_BL = true
  · rw [if_pos p12, if_pos p12]
    by_cases hk : env.kzalloc Attr.kbdbl_mode = true ∧
        env.kzalloc Attr.kbdbl_time = true
    · obtain ⟨km, kt⟩ := hk
      by_cases cm : env.device_create_file Attr.kbdbl_mode = 0
      · by_cases ct : env.device_create_file Attr.kbdbl_time = 0
        · rw [kbd_setup_ok env s hm ht km kt cm ct]
          simp [ha, hf, hl, expected_outcome, exposes, Feature.attrs, km, kt,
            cm, ct]
        · rw [kbd_setup_time_file_fails env s hm ht hfm km kt cm ct]
          obtain ⟨o1, o2, o3⟩ := outcpumode_removes b1 b2 b3 b4 true true
            { s with log := s.log ++ [SysfsOp.create Attr.kbdbl_mode,
                SysfsOp.remove Attr.kbdbl_mode] } ha hf
          simp only [ne_eq, ct, not_false_eq_true, ite_true, o1, o2, o3]
          simp [hl, expected_outcome, exposes, failure_code, failure_trace,
            Feature.attrs, km, kt, cm, ct, List.find?, List.takeWhile]
      · rw [kbd_setup_mode_file_fails env s hm ht km kt cm]
        obtain ⟨o1, o2, o3⟩ := outcpumode_removes b1 b2 b3 b4 true true s ha hf
        simp only [ne_eq, cm, not_false_eq_true, ite_true, o1, o2, o3]
        simp [hl, expected_outcome, exposes, failure_code, failure_trace,
          Feature.attrs, km, kt, cm, List.find?, List.takeWhile]
    · rw [kbd_setup_enomem env s hm ht hk]
      obtain ⟨o1, o2, o3⟩ := outcpumode_removes b1 b2 b3 b4 true true s ha hf
      have hne : (- ENOMEM) ≠ 0 := by simp [ENOMEM]
      have hall : ¬ ((Feature.kbd_backlight.attrs.all env.kzalloc) = true) := by
        simpa [Feature.attrs] using hk
      have hexp : ¬ (exposes env Feature.kbd_backlight = true) := by
        intro h
        apply hk
        simp [exposes, Feature.attrs] at h
        exact ⟨h.1.1, h.2.1⟩
      simp only [ne_eq, hne, not_false_eq_true, ite_true, o1, o2, o3,
        expected_outcome, if_neg hexp, failure_code, failure_trace, if_neg hall,
        hl, List.append_nil, and_self]
  · rw [if_neg p12, if_neg p12]
    by_cases p15 : toshiba_acpi_is_device env PIDC_ID_ALT_KBD_BL = true
    · rw [if_pos p15, if_pos p15]
      exact single_step env Feature.alt_kbd_backlight Attr.alt_kbdbl rfl
        (early_attrs b1 b2 b3 b4 true true) [] halt
        (toshiba_alt_kbd_backlight_setup env) outcpumode (fun s => (0, s))
        (fun s => ⟨rfl, rfl, rfl, rfl⟩)
        (fun s => outcpumode_removes b1 b2 b3 b4 true true s)
        (fun s => pass_end_meets env _ s) s ha hf hl
    · rw [if_neg p15, if_neg p15]
      exact pass_end_meets env _ s ha hf hl

/-- The cpu_mode step meets the expected outcome. -/
theorem acpi_setup_cpu_mode_meets {σ : Type} (env : SetupEnv)
    (b1 b2 b3 b4 : Bool) (s : DriverState σ)
    (ha : s.attrs = early_attrs b1 b2 b3 b4 true false)
    (hf : s.files = early_attrs b1 b2 b3 b4 true false)
    (hl : s.log = (early_attrs b1 b2 b3 b4 true false).map SysfsOp.create) :
    ((acpi_setup_cpu_mode env s).1, (acpi_setup_cpu_mode env s).2.log,
      (acpi_setup_cpu_mode env s).2.files)
      = expected_outcome env (early_attrs b1 b2 b3 b4 true false)
          (order_from_cpu_mode env) ∧
    (acpi_setup_cpu_mode env s).2.attrs
      = (acpi_setup_cpu_mode env s).2.files := by
  have hsnoc : early_attrs b1 b2 b3 b4 true false ++ [Attr.cpu_mode]
      = early_attrs b1 b2 b3 b4 true true := by
    simp [early_attrs, opt]
  exact single_step env Feature.cpu_mode Attr.cpu_mode rfl
    (early_attrs b1 b2 b3 b4 true false) (order_from_kbd env)
    (by simp [mem_early_attrs])
    (toshiba_cpu_mode_setup env) outtrackpad (acpi_setup_kbd env)
    (fun s => ⟨rfl, rfl, rfl, rfl⟩)
    (fun s => outtrackpad_removes b1 b2 b3 b4 true s)
    (fun s h1 h2 h3 => by
      rw [hsnoc] at h1 h2 h3 ⊢
      exact acpi_setup_kbd_meets env b1 b2 b3 b4 s h1 h2 h3)
    s ha hf hl

/-- The trackpad step meets the expected outcome. -/
theorem acpi_setup_trackpad_meets {σ : Type} (env : SetupEnv)
    (b1 b2 b3 b4 : Bool) (s : DriverState σ)
    (ha : s.attrs = early_attrs b1 b2 b3 b4 false false)
    (hf : s.files = early_attrs b1 b2 b3 b4 false false)
    (hl : s.log = (early_attrs b1 b2 b3 b4 false false).map SysfsOp.create) :
    ((acpi_setup_trackpad env s).1, (acpi_setup_trackpad env s).2.log,
      (acpi_setup_trackpad env s).2.files)
      = expected_outcome env (early_attrs b1 b2 b3 b4 false false)
          (order_from_trackpad env) ∧
    (acpi_setup_trackpad env s).2.attrs
      = (acpi_setup_trackpad env s).2.files := by
  have hsnoc : early_attrs b1 b2 b3 b4 false false ++ [Attr.trackpad]
      = early_attrs b1 b2 b3 b4 true false := by
    simp [early_attrs, opt]
  exact single_step env Feature.trackpad Attr.trackpad rfl
    (early_attrs b1 b2 b3 b4 false false) (order_from_cpu_mode env)
    (by simp [mem_early_attrs])
    (toshiba_trackpad_setup env) outluminflash (acpi_setup_cpu_mode env)
    (fun s => ⟨rfl, rfl, rfl, rfl⟩)
    (fun s => outluminflash_removes b1 b2 b3 b4 s)
    (fun s h1 h2 h3 => by
      rw [hsnoc] at h1 h2 h3 ⊢
      exact acpi_setup_cpu_mode_meets env b1 b2 b3 b4 s h1 h2 h3)
    s ha hf hl

/-- The setup of illumination_flash acts on pointers and files as attr_setup
does: the firmware call it adds touches the cache and the world only. -/
theorem flash_setup_as_attr_setup {σ : Type} (spfc : Spfc σ) (env : SetupEnv)
    (s : DriverState σ) :
    (toshiba_illumination_flash_setup spfc env s).1
      = (attr_setup env Attr.lumin_flash s).1 ∧
    (toshiba_illumination_flash_setup spfc env s).2.attrs
      = (attr_setup env Attr.lumin_flash s).2.attrs ∧
    (toshiba_illumination_flash_setup spfc env s).2.files
      = (attr_setup env Attr.lumin_flash s).2.files ∧
    (toshiba_illumination_flash_setup spfc env s).2.log
      = (attr_setup env Attr.lumin_flash s).2.log := by
  unfold toshiba_illumination_flash_setup
  by_cases h : (attr_setup env Attr.lumin_flash s).1 ≠ 0
  · rw [if_pos h]
    exact ⟨rfl, rfl, rfl, rfl⟩
  · rw [if_neg h]
    have h0 : (attr_setup env Attr.lumin_flash s).1 = 0 := by simpa using h
    refine ⟨h0.symm, ?_, ?_, ?_⟩ <;>
    · unfold __toshiba_illumination_flash_store
      have h3 : ¬ ((0 : Nat) ≥ 3) := by decide
      rw [if_neg h3]
      simp only
      split_ifs <;> rfl

/-- The illumination_flash step meets the expected outcome. -/
theorem acpi_setup_flash_meets {σ : Type} (spfc : Spfc σ) (env : SetupEnv)
    (b1 b2 b3 : Bool) (s : DriverState σ)
    (ha : s.attrs = early_attrs b1 b2 b3 false false false)
    (hf : s.files = early_attrs b1 b2 b3 false false false)
    (hl : s.log = (early_attrs b1 b2 b3 false false false).map SysfsOp.create) :
    ((acpi_setup_flash spfc env s).1, (acpi_setup_flash spfc env s).2.log,
      (acpi_setup_flash spfc env s).2.files)
      = expected_outcome env (early_attrs b1 b2 b3 false false false)
          (order_from_flash env) ∧
    (acpi_setup_flash spfc env s).2.attrs
      = (acpi_setup_flash spfc env s).2.files := by
  have hsnoc : early_attrs b1 b2 b3 false false false ++ [Attr.lumin_flash]
      = early_attrs b1 b2 b3 true false false := by
    simp [early_attrs, opt]
  unfold acpi_setup_flash order_from_flash
  by_cases p : toshiba_acpi_is_device env PIDC_ID_ILLUMIN_FLASH = true
  · rw [if_pos p, if_pos p]
    exact single_step env Feature.illumination_flash Attr.lumin_flash rfl
      (early_attrs b1 b2 b3 false false false) (order_from_trackpad env)
      (by simp [mem_early_attrs])
      (toshiba_illumination_flash_setup spfc env) outsleepmusic
      (acpi_setup_trackpad env)
      (fun s => flash_setup_as_attr_setup spfc env s)
      (fun s => outsleepmusic_removes b1 b2 b3 s)
      (fun s h1 h2 h3 => by
        rw [hsnoc] at h1 h2 h3 ⊢
        exact acpi_setup_trackpad_meets env b1 b2 b3 true s h1 h2 h3)
      s ha hf hl
  · rw [if_neg p, if_neg p]
    exact acpi_setup_trackpad_meets env b1 b2 b3 false s ha hf hl

/-- The sleep_and_music step meets the expected outcome. -/
theorem acpi_setup_sleep_music_meets {σ : Type} (spfc : Spfc σ)
    (env : SetupEnv) (b1 b2 : Bool) (s : DriverState σ)
    (ha : s.attrs = early_attrs b1 b2 false false false false)
    (hf : s.files = early_attrs b1 b2 false false false false)
    (hl : s.log
      = (early_attrs b1 b2 false false false false).map SysfsOp.create) :
    ((acpi_setup_sleep_music spfc env s).1,
      (acpi_setup_sleep_music spfc env s).2.log,
      (acpi_setup_sleep_music spfc env s).2.files)
      = expected_outcome env (early_attrs b1 b2 false false false false)
          (order_from_sleep_music env) ∧
    (acpi_setup_sleep_music spfc env s).2.attrs
      = (acpi_setup_sleep_music spfc env s).2.files := by
  have hsnoc : early_attrs b1 b2 false false false false ++ [Attr.sleep_music]
      = early_attrs b1 b2 true false false false := by
    simp [early_attrs, opt]
  unfold acpi_setup_sleep_music order_from_sleep_music
  by_cases p : toshiba_acpi_is_device env PIDC_ID_SLEEP_MUSIC = true
  · rw [if_pos p, if_pos p]
    exact single_step env Feature.sleep_and_music Attr.sleep_music rfl
      (early_attrs b1 b2 false false false false) (order_from_flash env)
      (by simp [mem_early_attrs])
      (toshiba_sleep_music_setup env) outbootspeed (acpi_setup_flash spfc env)
      (fun s => ⟨rfl, rfl, rfl, rfl⟩)
      (fun s => outbootspeed_removes b1 b2 s)
      (fun s h1 h2 h3 => by
        rw [hsnoc] at h1 h2 h3 ⊢
        exact acpi_setup_flash_meets spfc env b1 b2 true s h1 h2 h3)
      s ha hf hl
  · rw [if_neg p, if_neg p]
    exact acpi_setup_flash_meets spfc env b1 b2 false s ha hf hl

/-- The fast_boot step meets the expected outcome. -/
theorem acpi_setup_boot_speed_meets {σ : Type} (spfc : Spfc σ)
    (env : SetupEnv) (b1 : Bool) (s : DriverState σ)
    (ha : s.attrs = early_attrs b1 false false false false false)
    (hf : s.files = early_attrs b1 false false false false false)
    (hl : s.log
      = (early_attrs b1 false false false false false).map SysfsOp.create) :
    ((acpi_setup_boot_speed spfc env s).1,
      (acpi_setup_boot_speed spfc env s).2.log,
      (acpi_setup_boot_speed spfc env s).2.files)
      = expected_outcome env (early_attrs b1 false false false false false)
          (order_from_boot_speed env) ∧
    (acpi_setup_boot_speed spfc env s).2.attrs
      = (acpi_setup_boot_speed spfc env s).2.files := by
  have hsnoc : early_attrs b1 false false false false false ++ [Attr.boot_speed]
      = early_attrs b1 true false false false false := by
    simp [early_attrs, opt]
  unfold acpi_setup_boot_speed order_from_boot_speed
  by_cases p : toshiba_acpi_is_device env PIDC_ID_BOOT_SPEED = true
  · rw [if_pos p, if_pos p]
    exact single_step env Feature.fast_boot Attr.boot_speed rfl
      (early_attrs b1 false false false false false)
      (order_from_sleep_music env)
      (by simp [mem_early_attrs])
      (toshiba_boot_speed_setup env) outillumination
      (acpi_setup_sleep_music spfc env)
      (fun s => ⟨rfl, rfl, rfl, rfl⟩)
      (fun s => outillumination_removes b1 s)
      (fun s h1 h2 h3 => by
        rw [hsnoc] at h1 h2 h3 ⊢
        exact acpi_setup_sleep_music_meets spfc env b1 true s h1 h2 h3)
      s ha hf hl
  · rw [if_neg p, if_neg p]
    exact acpi_setup_sleep_music_meets spfc env b1 false s ha hf hl

/-- The setup pass, started with no attribute registered, returns the value,
records the file operations and leaves the files that the rollback property
gives for the setup order; the pointers left are those of the files left. -/
theorem acpi_setup_meets {σ : Type} (spfc : Spfc σ) (env : SetupEnv)
    (s : DriverState σ) (ha : s.attrs = []) (hf : s.files = [])
    (hl : s.log = []) :
    ((tos1900_acpi_setup spfc env s).1, (tos1900_acpi_setup spfc env s).2.log,
      (tos1900_acpi_setup spfc env s).2.files)
      = expected_outcome env [] (setup_order env) ∧
    (tos1900_acpi_setup spfc env s).2.attrs
      = (tos1900_acpi_setup spfc env s).2.files := by
  have he : early_attrs false false false false false false = [] := by
    simp [early_attrs, opt]
  have hsnoc : ([] : List Attr) ++ [Attr.lumin_mode]
      = early_attrs true false false false false false := by
    simp [early_attrs, opt]
  unfold tos1900_acpi_setup setup_order
  by_cases p : (toshiba_acpi_is_device env PIDC_ID_ILLUMIN
      || toshiba_acpi_is_device env PIDC_ID_0A) = true
  · rw [if_pos p, if_pos p]
    exact single_step env Feature.illumination Attr.lumin_mode rfl
      [] (order_from_boot_speed env) (by simp)
      (toshiba_illumination_setup env) (fun s => s)
      (acpi_setup_boot_speed spfc env)
      (fun s => ⟨rfl, rfl, rfl, rfl⟩)
      (fun s h1 h2 => by simp [h1, h2])
      (fun s h1 h2 h3 => by
        rw [hsnoc] at h1 h2 h3 ⊢
        exact acpi_setup_boot_speed_meets spfc env true s h1 h2 h3)
      s ha hf (by simp [hl])
  · rw [if_neg p, if_neg p]
    have := acpi_setup_boot_speed_meets spfc env false s
      (by rw [he]; exact ha) (by rw [he]; exact hf) (by rw [he]; simp [hl])
    rw [he] at this
    exact this

/-- The expected outcome of a pass whose n-th feature is the first that fails
to expose. -/
theorem expected_first_failure (env : SetupEnv) (O : List Feature) :
    ∀ (E : List Attr) (n : Nat) (f : Feature), O[n]? = some f →
      (∀ g ∈ O.take n, exposes env g = true) → exposes env f = false →
      expected_outcome env E O
        = (failure_code env f,
            (E ++ (O.take n).flatMap Feature.attrs).map SysfsOp.create ++
              failure_trace env f ++
              ((E ++ (O.take n).flatMap Feature.attrs).reverse).map
                SysfsOp.remove,
            []) := by
  induction O with
  | nil => intro E n f h; simp at h
  | cons g rest ih =>
    intro E n f hn hprev hfail
    cases n with
    | zero =>
      simp only [List.getElem?_cons_zero, Option.some.injEq] at hn
      subst hn
      have hf2 : ¬ (exposes env g = true) := by simp [hfail]
      simp [expected_outcome, hf2]
    | succ m =>
      simp only [List.getElem?_cons_succ] at hn
      have hg : exposes env g = true := hprev g (by simp)
      have hprev2 : ∀ x ∈ rest.take m, exposes env x = true := fun x hx =>
        hprev x (by simp [hx])
      have := ih (E ++ g.attrs) m f hn hprev2 hfail
      simp only [expected_outcome, hg, if_true, this]
      simp [List.flatMap_cons, List.append_assoc]

/-- A feature that fails to expose has a failure code other than 0. -/
theorem failure_code_ne_zero (env : SetupEnv) (f : Feature)
    (hfail : exposes env f = false) : failure_code env f ≠ 0 := by
  unfold failure_code
  by_cases hall : f.attrs.all env.kzalloc = true
  · rw [if_pos hall]
    cases hfind : f.attrs.find? (fun a => decide (env.device_create_file a ≠ 0)) with
    | none =>
      exfalso
      rw [List.find?_eq_none] at hfind
      have : exposes env f = true := by
        unfold exposes
        rw [List.all_eq_true] at hall ⊢
        intro a ha
        have h1 := hall a ha
        have h2 := hfind a ha
        simp at h2
        simp [h1, h2]
      rw [hfail] at this
      exact absurd this (by simp)
    | some a =>
      have := List.find?_some hfind
      simpa using this
  · rw [if_neg hall]
    simp [ENOMEM]

/-- The files left by the expected outcome are attributes registered before
the pass or attributes of features of the order. -/
theorem expected_files_subset (env : SetupEnv) (O : List Feature) :
    ∀ (E : List Attr) (a : Attr), a ∈ (expected_outcome env E O).2.2 →
      a ∈ E ∨ ∃ f ∈ O, a ∈ f.attrs := by
  induction O with
  | nil => intro E a h; left; simpa [expected_outcome] using h
  | cons g rest ih =>
    intro E a h
    by_cases hg : exposes env g = true
    · simp only [expected_outcome, hg, if_true] at h
      rcases ih (E ++ g.attrs) a h with h1 | ⟨f, hf, hfa⟩
      · rcases List.mem_append.mp h1 with h2 | h2
        · exact Or.inl h2
        · exact Or.inr ⟨g, by simp, h2⟩
      · exact Or.inr ⟨f, by simp [hf], hfa⟩
    · simp [expected_outcome, hg] at h

/-- A feature of the setup order is a feature of its last step or is neither
the keyboard backlight nor its alternate. -/
theorem mem_setup_order (env : SetupEnv) (f : Feature)
    (h : f ∈ setup_order env) :
    f ∈ order_from_kbd env ∨
      (f ≠ Feature.kbd_backlight ∧ f ≠ Feature.alt_kbd_backlight) := by
  have h6 : f ∈ order_from_cpu_mode env → f ∈ order_from_kbd env ∨
      (f ≠ Feature.kbd_backlight ∧ f ≠ Feature.alt_kbd_backlight) := by
    intro h
    rcases List.mem_cons.mp h with rfl | h
    · right; decide
    · left; exact h
  have h5 : f ∈ order_from_trackpad env → f ∈ order_from_kbd env ∨
      (f ≠ Feature.kbd_backlight ∧ f ≠ Feature.alt_kbd_backlight) := by
    intro h
    rcases List.mem_cons.mp h with rfl | h
    · right; decide
    · exact h6 h
  have h4 : f ∈ order_from_flash env → f ∈ order_from_kbd env ∨
      (f ≠ Feature.kbd_backlight ∧ f ≠ Feature.alt_kbd_backlight) := by
    intro h
    unfold order_from_flash at h
    split_ifs at h
    · rcases List.mem_cons.mp h with rfl | h
      · right; decide
      · exact h5 h
    · exact h5 h
  have h3 : f ∈ order_from_sleep_music env → f ∈ order_from_kbd env ∨
      (f ≠ Feature.kbd_backlight ∧ f ≠ Feature.alt_kbd_backlight) := by
    intro h
    unfold order_from_sleep_music at h
    split_ifs at h
    · rcases List.mem_cons.mp h with rfl | h
      · right; decide
      · exact h4 h
    · exact h4 h
  have h2 : f ∈ order_from_boot_speed env → f ∈ order_from_kbd env ∨
      (f ≠ Feature.kbd_backlight ∧ f ≠ Feature.alt_kbd_backlight) := by
    intro h
    unfold order_from_boot_speed at h
    split_ifs at h
    · rcases List.mem_cons.mp h with rfl | h
      · right; decide
      · exact h3 h
    · exact h3 h
  unfold setup_order at h
  split_ifs at h
  · rcases List.mem_cons.mp h with rfl | h
    · right; decide
    · exact h2 h
  · exact h2 h

/-- The alternate keyboard backlight is in the setup order only when the
probe of id 0x12 reports absent and the probe of id 0x15 present. -/
theorem alt_in_setup_order (env : SetupEnv)
    (h : Feature.alt_kbd_backlight ∈ setup_order env) :
    toshiba_acpi_is_device env PIDC_ID_KBD_BL = false ∧
    toshiba_acpi_is_device env PIDC_ID_ALT_KBD_BL = true := by
  rcases mem_setup_order env _ h with h | h
  · unfold order_from_kbd at h
    split_ifs at h with h1 h2
    · simp at h
    · exact ⟨by simpa using h1, h2⟩
    · simp at h
  · exact absurd rfl h.2

/-- The keyboard backlight is in the setup order only when the probe of id
0x12 reports present. -/
theorem kbd_in_setup_order (env : SetupEnv)
    (h : Feature.kbd_backlight ∈ setup_order env) :
    toshiba_acpi_is_device env PIDC_ID_KBD_BL = true := by
  rcases mem_setup_order env _ h with h | h
  · unfold order_from_kbd at h
    split_ifs at h with h1 h2
    · exact h1
    · simp at h
    · simp at h
  · exact absurd rfl h.1

/-- C19: start the setup pass with no attribute registered and let the n-th
feature of the setup order be the first that fails to expose (an allocation or
a file creation of it fails). Then tos1900_acpi_setup returns the failure code
of that feature, which is not 0; the file operations of the pass are the
creations of the attributes of the features before it, in setup order, what
the failing feature created and removed by itself, and the removals of those
attributes in exactly the reverse order; no file and no attribute pointer is
left. -/
theorem setup_failure_rolls_back {σ : Type} (spfc : Spfc σ) (env : SetupEnv)
    (s : DriverState σ) (ha : s.attrs = []) (hf : s.files = [])
    (hl : s.log = []) (n : Nat) (f : Feature)
    (hn : (setup_order env)[n]? = some f)
    (hprev : ∀ g ∈ (setup_order env).take n, exposes env g = true)
    (hfail : exposes env f = false) :
    (tos1900_acpi_setup spfc env s).1 = failure_code env f ∧
    (tos1900_acpi_setup spfc env s).1 ≠ 0 ∧
    (tos1900_acpi_setup spfc env s).2.log
      = (((setup_order env).take n).flatMap Feature.attrs).map SysfsOp.create ++
        failure_trace env f ++
        ((((setup_order env).take n).flatMap Feature.attrs).reverse).map
          SysfsOp.remove ∧
    (tos1900_acpi_setup spfc env s).2.files = [] ∧
    (tos1900_acpi_setup spfc env s).2.attrs = [] := by
  obtain ⟨h1, h2⟩ := acpi_setup_meets spfc env s ha hf hl
  rw [expected_first_failure env (setup_order env) [] n f hn hprev hfail] at h1
  simp only [Prod.mk.injEq, List.nil_append] at h1
  obtain ⟨e1, e2, e3⟩ := h1
  refine ⟨e1, ?_, e2, e3, ?_⟩
  · rw [e1]; exact failure_code_ne_zero env f hfail
  · rw [h2, e3]

/-- C20: after tos1900_acpi_setup, started with no attribute registered, has
returned (with success or failure), the files and pointers of the primary
keyboard-backlight attributes and of the alternate keyboard-backlight
attribute are never both registered, and the alternate is registered only if
the probe of id 0x12 reported absent and the probe of id 0x15 present. -/
theorem kbd_backlight_exclusive {σ : Type} (spfc : Spfc σ) (env : SetupEnv)
    (s : DriverState σ) (ha : s.attrs = []) (hf : s.files = [])
    (hl : s.log = []) :
    (tos1900_acpi_setup spfc env s).2.attrs
      = (tos1900_acpi_setup spfc env s).2.files ∧
    ¬ ((Attr.kbdbl_mode ∈ (tos1900_acpi_setup spfc env s).2.files ∨
        Attr.kbdbl_time ∈ (tos1900_acpi_setup spfc env s).2.files) ∧
      Attr.alt_kbdbl ∈ (tos1900_acpi_setup spfc env s).2.files) ∧
    (Attr.alt_kbdbl ∈ (tos1900_acpi_setup spfc env s).2.files →
      toshiba_acpi_is_device env 0x12 = false ∧
      toshiba_acpi_is_device env 0x15 = true) := by
  obtain ⟨h1, h2⟩ := acpi_setup_meets spfc env s ha hf hl
  have hfiles : (tos1900_acpi_setup spfc env s).2.files
      = (expected_outcome env [] (setup_order env)).2.2 := by
    rw [← h1]
  have halt : Attr.alt_kbdbl ∈ (tos1900_acpi_setup spfc env s).2.files →
      toshiba_acpi_is_device env PIDC_ID_KBD_BL = false ∧
      toshiba_acpi_is_device env PIDC_ID_ALT_KBD_BL = true := by
    intro h
    rw [hfiles] at h
    rcases expected_files_subset env _ [] _ h with h0 | ⟨f, hf1, hf2⟩
    · simp at h0
    · have : f = Feature.alt_kbd_backlight := by
        cases f <;> simp [Feature.attrs] at hf2 ⊢
      subst this
      exact alt_in_setup_order env hf1
  have hkbd : (Attr.kbdbl_mode ∈ (tos1900_acpi_setup spfc env s).2.files ∨
      Attr.kbdbl_time ∈ (tos1900_acpi_setup spfc env s).2.files) →
      toshiba_acpi_is_device env PIDC_ID_KBD_BL = true := by
    intro h
    rw [hfiles] at h
    have key : ∀ a, (a = Attr.kbdbl_mode ∨ a = Attr.kbdbl_time) →
        a ∈ (expected_outcome env [] (setup_order env)).2.2 →
        toshiba_acpi_is_device env PIDC_ID_KBD_BL = true := by
      intro a hak h
      rcases expected_files_subset env _ [] _ h with h0 | ⟨f, hf1, hf2⟩
      · simp at h0
      · have : f = Feature.kbd_backlight := by
          rcases hak with rfl | rfl <;> cases f <;>
            simp [Feature.attrs] at hf2 ⊢
        subst this
        exact kbd_in_setup_order env hf1
    rcases h with h | h
    · exact key _ (Or.inl rfl) h
    · exact key _ (Or.inr rfl) h
  refine ⟨h2, ?_, halt⟩
  rintro ⟨hk, hal⟩
  have a1 := hkbd hk
  have a2 := (halt hal).1
  rw [a1] at a2
  exact absurd a2 (by simp)

theorem setup_failure_rolls_back_witness :
    (tos1900_acpi_setup register_file (sample_env [] [Attr.cpu_mode])
      ⟨0, [], [], [], ⟨fun _ => 0, []⟩⟩).1 = -17 ∧
    (tos1900_acpi_setup register_file (sample_env [] [Attr.cpu_mode])
      ⟨0, [], [], [], ⟨fun _ => 0, []⟩⟩).1 ≠ 0 ∧
    (tos1900_acpi_setup register_file (sample_env [] [Attr.cpu_mode])
      ⟨0, [], [], [], ⟨fun _ => 0, []⟩⟩).2.log
      = [SysfsOp.create Attr.lumin_mode, SysfsOp.create Attr.boot_speed,
         SysfsOp.create Attr.sleep_music, SysfsOp.create Attr.lumin_flash,
         SysfsOp.create Attr.trackpad, SysfsOp.remove Attr.trackpad,
         SysfsOp.remove Attr.lumin_flash, SysfsOp.remove Attr.sleep_music,
         SysfsOp.remove Attr.boot_speed, SysfsOp.remove Attr.lumin_mode] ∧
    (tos1900_acpi_setup register_file (sample_env [] [Attr.cpu_mode])
      ⟨0, [], [], [], ⟨fun _ => 0, []⟩⟩).2.files = [] ∧
    (tos1900_acpi_setup register_file (sample_env [] [Attr.cpu_mode])
      ⟨0, [], [], [], ⟨fun _ => 0, []⟩⟩).2.attrs = [] := by
  have h := setup_failure_rolls_back register_file
    (sample_env [] [Attr.cpu_mode]) ⟨0, [], [], [], ⟨fun _ => 0, []⟩⟩
    rfl rfl rfl 5 Feature.cpu_mode (by decide) (by decide) (by decide)
  have e1 : failure_code (sample_env [] [Attr.cpu_mode]) Feature.cpu_mode
      = -17 := by decide
  have e2 : failure_trace (sample_env [] [Attr.cpu_mode]) Feature.cpu_mode
      = [] := by decide
  have e3 : ((setup_order (sample_env [] [Attr.cpu_mode])).take 5).flatMap
      Feature.attrs = [Attr.lumin_mode, Attr.boot_speed, Attr.sleep_music,
        Attr.lumin_flash, Attr.trackpad] := by decide
  rw [e1, e2, e3] at h
  exact h

theorem kbd_backlight_exclusive_witness :
    Attr.alt_kbdbl ∈ (tos1900_acpi_setup register_file (sample_env [0x12] [])
      ⟨0, [], [], [], ⟨fun _ => 0, []⟩⟩).2.files ∧
    ¬ ((Attr.kbdbl_mode ∈ (tos1900_acpi_setup register_file
          (sample_env [0x12] []) ⟨0, [], [], [], ⟨fun _ => 0, []⟩⟩).2.files ∨
        Attr.kbdbl_time ∈ (tos1900_acpi_setup register_file
          (sample_env [0x12] []) ⟨0, [], [], [], ⟨fun _ => 0, []⟩⟩).2.files) ∧
      Attr.alt_kbdbl ∈ (tos1900_acpi_setup register_file
        (sample_env [0x12] []) ⟨0, [], [], [], ⟨fun _ => 0, []⟩⟩).2.files) ∧
    toshiba_acpi_is_device (sample_env [0x12] []) 0x12 = false ∧
    toshiba_acpi_is_device (sample_env [0x12] []) 0x15 = true := by
  have h := kbd_backlight_exclusive register_file (sample_env [0x12] [])
    ⟨0, [], [], [], ⟨fun _ => 0, []⟩⟩ rfl rfl rfl
  have hin : Attr.alt_kbdbl ∈ (tos1900_acpi_setup register_file
      (sample_env [0x12] []) ⟨0, [], [], [], ⟨fun _ => 0, []⟩⟩).2.files := by
    decide
  exact ⟨hin, h.2.1, h.2.2 hin⟩

/-! ## Theorems: keystroke filter, pending state and ordinary keys -/

/-- In ExtendedPending a byte other than 0xE0 is returned and scheduled as in
Idle, and the flag btn_strip stays set. -/
theorem filter_pending_other_byte (d str : Nat) (hd : d ≠ 0xe0) :
    tos1900_i8042_filter true d str =
      ⟨(tos1900_i8042_filter false d str).ret, true,
        (tos1900_i8042_filter false d str).scheduled⟩ := by
  unfold tos1900_i8042_filter
  split_ifs <;> simp_all

/-- While no byte 0xE0 arrives, every call of the filter on a stream started in
ExtendedPending ends in ExtendedPending, however long the stream is. -/
theorem feed_pending_persists (bs : List (Nat × Nat))
    (h : ∀ b ∈ bs, b.1 ≠ 0xe0) :
    ∀ r ∈ feed true bs, r.btn_strip = true := by
  induction bs with
  | nil => intro r hr; simp [feed] at hr
  | cons b rest ih =>
    obtain ⟨d, str⟩ := b
    have hd : d ≠ 0xe0 := h (d, str) (List.mem_cons_self _ _)
    have hrest : ∀ b ∈ rest, b.1 ≠ 0xe0 :=
      fun b hb => h b (List.mem_cons_of_mem _ hb)
    have e := filter_pending_other_byte d str hd
    intro r hr
    simp only [feed, List.mem_cons] at hr
    rcases hr with hr | hr
    · rw [hr, e]
    · rw [e] at hr
      exact ih hrest r hr

/-- C21 (as stated, refuted): in ExtendedPending with a clear status byte, the
byte 0x1E (low seven bits not 0x42) is passed through and leaves the filter in
ExtendedPending; the byte 0xE0 of a later key is then swallowed. -/
theorem filter_pending_survives_ordinary_byte :
    (0 &&& 0x20 = 0) ∧ (0x1E &&& 0x7F ≠ 0x42) ∧
    tos1900_i8042_filter true 0x1E 0 = ⟨false, true, 0⟩ ∧
    feed true [(0x1E, 0), (0xE0, 0)] = [⟨false, true, 0⟩, ⟨true, false, 0⟩] := by
  decide

/-- C21 (amended): in ExtendedPending with status bit 0x20 clear, the byte 0xE0
alone resolves the pending state: after a byte d the filter is in Idle exactly
when d is 0xE0, which is swallowed without scheduling; any other byte leaves
the filter in ExtendedPending and is returned and scheduled as the Idle rules
say. -/
theorem filter_pending_resolved_only_by_e0 (d str : Nat)
    (hstr : str &&& 0x20 = 0) :
    ((tos1900_i8042_filter true d str).btn_strip = false ↔ d = 0xe0) ∧
    (d = 0xe0 → tos1900_i8042_filter true d str = ⟨true, false, 0⟩) ∧
    (d ≠ 0xe0 →
      tos1900_i8042_filter true d str =
        ⟨(tos1900_i8042_filter false d str).ret, true,
          (tos1900_i8042_filter false d str).scheduled⟩) := by
  refine ⟨?_, ?_, filter_pending_other_byte d str⟩
  · constructor
    · intro hb
      by_contra hd
      rw [filter_pending_other_byte d str hd] at hb
      simp at hb
    · rintro rfl
      simp [tos1900_i8042_filter, hstr]
  · rintro rfl
    simp [tos1900_i8042_filter, hstr]

theorem filter_pending_resolved_only_by_e0_witness :
    (0 &&& 0x20 = 0) ∧
    ((tos1900_i8042_filter true 0x1E 0).btn_strip = false ↔ 0x1E = 0xe0) ∧
    (tos1900_i8042_filter true 0xE0 0 = ⟨true, false, 0⟩) ∧
    tos1900_i8042_filter true 0x6E 0 = ⟨true, true, 1⟩ :=
  ⟨by decide,
   (filter_pending_resolved_only_by_e0 0x1E 0 (by decide)).1,
   (filter_pending_resolved_only_by_e0 0xE0 0 (by decide)).2.1 rfl,
   (filter_pending_resolved_only_by_e0 0x6E 0 (by decide)).2.2 (by decide)⟩

/-- C22: whatever the filter state, the status byte and the data byte d, a
swallowed byte has low seven bits 0x6E or 0x42, or is 0xE0 met in
ExtendedPending; work is scheduled only for low seven bits 0x6E or 0x42; and
every other byte is passed through with no work scheduled and the state
unchanged. -/
theorem filter_leaves_ordinary_keys (btn_strip : Bool) (d str : Nat) :
    ((tos1900_i8042_filter btn_strip d str).ret = true →
      d &&& 0x7F = 0x6E ∨ d &&& 0x7F = 0x42 ∨ (d = 0xE0 ∧ btn_strip = true)) ∧
    ((tos1900_i8042_filter btn_strip d str).scheduled ≠ 0 →
      d &&& 0x7F = 0x6E ∨ d &&& 0x7F = 0x42) ∧
    (¬ (d &&& 0x7F = 0x6E ∨ d &&& 0x7F = 0x42 ∨ (d = 0xE0 ∧ btn_strip = true)) →
      tos1900_i8042_filter btn_strip d str = ⟨false, btn_strip, 0⟩) := by
  unfold tos1900_i8042_filter
  split_ifs <;> simp_all

theorem filter_leaves_ordinary_keys_witness :
    (tos1900_i8042_filter true 0xE0 0).ret = true ∧
    (tos1900_i8042_filter false 0xC2 0).scheduled ≠ 0 ∧
    (0xC2 &&& 0x7F = 0x6E ∨ 0xC2 &&& 0x7F = 0x42) ∧
    tos1900_i8042_filter true 0x1E 0 = ⟨false, true, 0⟩ ∧
    tos1900_i8042_filter false 0xE0 0 = ⟨false, false, 0⟩ :=
  ⟨by decide, by decide,
   (filter_leaves_ordinary_keys false 0xC2 0).2.1 (by decide),
   (filter_leaves_ordinary_keys true 0x1E 0).2.2 (by decide),
   (filter_leaves_ordinary_keys false 0xE0 0).2.2 (by decide)⟩

/-! ## Theorems: attach and detach -/

/-- With the pointer tos1900_dev set, tos1900_add returns EBUSY and changes
nothing. -/
theorem add_busy {σ : Type} (spfc : Spfc σ) (env : AddEnv) (m : Module σ)
    (h : m.tos1900_dev ≠ none) :
    tos1900_add spfc env m = (- EBUSY, m) := by
  unfold tos1900_add
  rw [if_pos h]

/-- With the pointer set, every call of a run of attaches returns EBUSY and
the state stays as it is. -/
theorem adds_busy {σ : Type} (spfc : Spfc σ) (envs : List AddEnv)
    (m : Module σ) (h : m.tos1900_dev ≠ none) :
    adds spfc envs m = (List.replicate envs.length (- EBUSY), m) := by
  induction envs with
  | nil => rfl
  | cons env rest ih =>
    simp only [adds, add_busy spfc env m h, ih, List.length_cons,
      List.replicate_succ]

/-- The address freed is no longer among the allocations. -/
theorem not_mem_kfree (p : Nat) (live : List Nat) :
    p ∉ kfree (some p) live := by
  simp [kfree]

/-- The keyboard step and what follows keep the pointer; when they fail the
object it points to is freed. -/
theorem add_keyboard_slot {σ : Type} (spfc : Spfc σ) (env : AddEnv)
    (m : Module σ) :
    (add_keyboard spfc env m).2.tos1900_dev = m.tos1900_dev ∧
    ((add_keyboard spfc env m).1 ≠ 0 →
      (add_keyboard spfc env m).2.live = kfree m.tos1900_dev m.live ∧
      (add_keyboard spfc env m).1 =
        (toshiba_acpi_keyboard_setup spfc env m.keyboard m.dev.world).1) := by
  unfold add_keyboard
  simp only []
  split_ifs with h1 h2
  · exact ⟨rfl, fun _ => ⟨rfl, rfl⟩⟩
  · exact absurd rfl h2
  · exact ⟨rfl, fun h => absurd rfl h⟩

/-- The feature step and what follows keep the pointer; when they fail the
object is freed and the error is that of the setup pass or of the keyboard
setup. -/
theorem add_acpi_slot {σ : Type} (spfc : Spfc σ) (env : AddEnv)
    (m : Module σ) :
    (add_acpi spfc env m).2.tos1900_dev = m.tos1900_dev ∧
    ((add_acpi spfc env m).1 ≠ 0 →
      (add_acpi spfc env m).2.live = kfree m.tos1900_dev m.live ∧
      ((env.acpi_get_handle = AE_OK ∧
          (add_acpi spfc env m).1 = (tos1900_acpi_setup spfc env.setup m.dev).1) ∨
        ∃ k w, (add_acpi spfc env m).1 =
          (toshiba_acpi_keyboard_setup spfc env k w).1)) := by
  unfold add_acpi
  simp only []
  split_ifs with h1 h2
  · exact ⟨rfl, fun _ => ⟨rfl, Or.inl ⟨h1, rfl⟩⟩⟩
  · have hk := add_keyboard_slot spfc env
      { m with dev := (tos1900_acpi_setup spfc env.setup m.dev).2 }
    exact ⟨hk.1, fun h => ⟨(hk.2 h).1, Or.inr ⟨_, _, (hk.2 h).2⟩⟩⟩
  · have hk := add_keyboard_slot spfc env m
    exact ⟨hk.1, fun h => ⟨(hk.2 h).1, Or.inr ⟨_, _, (hk.2 h).2⟩⟩⟩

/-- The steps of tos1900_add after the allocation keep the pointer; when they
fail the object is freed and the error is that of tos1900_pf_add, of the setup
pass or of the keyboard setup. -/
theorem add_pf_slot {σ : Type} (spfc : Spfc σ) (env : AddEnv) (m : Module σ) :
    (add_pf spfc env m).2.tos1900_dev = m.tos1900_dev ∧
    ((add_pf spfc env m).1 ≠ 0 →
      (add_pf spfc env m).2.live = kfree m.tos1900_dev m.live ∧
      ((add_pf spfc env m).1 = (tos1900_pf_add env m.platform).1 ∨
        (env.acpi_get_handle = AE_OK ∧
          (add_pf spfc env m).1 = (tos1900_acpi_setup spfc env.setup m.dev).1) ∨
        ∃ k w, (add_pf spfc env m).1 =
          (toshiba_acpi_keyboard_setup spfc env k w).1)) := by
  unfold add_pf
  simp only []
  split_ifs with h1
  · exact ⟨rfl, fun _ => ⟨rfl, Or.inl rfl⟩⟩
  · have ha := add_acpi_slot spfc env
      { m with platform := (tos1900_pf_add env m.platform).2 }
    exact ⟨ha.1, fun h => ⟨(ha.2 h).1, Or.inr (ha.2 h).2⟩⟩

/-- After an attach that starts with the pointer NULL, allocates the device
object at p and then fails, the pointer holds p, the object at p is freed, and
the error is that of tos1900_pf_add, of the setup pass or of the keyboard
setup. -/
theorem failed_add_dangles {σ : Type} (spfc : Spfc σ) (env : AddEnv)
    (m : Module σ) (p : Nat)
    (hempty : m.tos1900_dev = none) (halloc : env.kzalloc_dev = some p)
    (hfail : (tos1900_add spfc env m).1 ≠ 0) :
    ((tos1900_add spfc env m).1 = (tos1900_pf_add env m.platform).1 ∨
      (env.acpi_get_handle = AE_OK ∧
        ∃ s, (tos1900_add spfc env m).1 =
          (tos1900_acpi_setup spfc env.setup s).1) ∨
      ∃ k w, (tos1900_add spfc env m).1 =
        (toshiba_acpi_keyboard_setup spfc env k w).1) ∧
    (tos1900_add spfc env m).2.tos1900_dev = some p ∧
    p ∉ (tos1900_add spfc env m).2.live := by
  have hne : ¬ (m.tos1900_dev ≠ none) := fun h => h hempty
  have e : tos1900_add spfc env m =
      add_pf spfc env
        { m with
          tos1900_dev := some p,
          live := p :: m.live,
          keyboard := { m.keyboard with hotkey_dev := none },
          dev := { m.dev with lumin_flash_mode := 0, attrs := [] } } := by
    unfold tos1900_add
    rw [if_neg hne, halloc]
  rw [e] at hfail ⊢
  have hs := add_pf_slot spfc env
    { m with
      tos1900_dev := some p,
      live := p :: m.live,
      keyboard := { m.keyboard with hotkey_dev := none },
      dev := { m.dev with lumin_flash_mode := 0, attrs := [] } }
  have hslot := hs.1
  have hlive := (hs.2 hfail).1
  have hsrc := (hs.2 hfail).2
  refine ⟨?_, hslot, ?_⟩
  · rcases hsrc with h | ⟨h1, h2⟩ | h
    · exact Or.inl h
    · exact Or.inr (Or.inl ⟨h1, _, h2⟩)
    · exact Or.inr (Or.inr h)
  · rw [hlive]
    exact not_mem_kfree p _

/-- With the pointer at a live object, tos1900_remove returns 0 and leaves the
pointer NULL. -/
theorem remove_clears_slot {σ : Type} (m : Module σ) (q : Nat)
    (hq : m.tos1900_dev = some q) (hlive : q ∈ m.live) :
    ∃ m1, tos1900_remove m = some (0, m1) ∧ m1.tos1900_dev = none := by
  simp only [tos1900_remove, hq, if_pos hlive]
  exact ⟨_, rfl, rfl⟩

/-- On the state a failed attach leaves, the pointer dangles, so a detach
would read the freed object and free it again: tos1900_remove has no defined
result there. -/
theorem remove_after_failed_add {σ : Type} (spfc : Spfc σ) (env : AddEnv)
    (m : Module σ) (p : Nat)
    (hempty : m.tos1900_dev = none) (halloc : env.kzalloc_dev = some p)
    (hfail : (tos1900_add spfc env m).1 ≠ 0) :
    tos1900_remove (tos1900_add spfc env m).2 = none := by
  obtain ⟨-, hslot, hfree⟩ := failed_add_dangles spfc env m p hempty halloc hfail
  simp only [tos1900_remove, hslot, if_neg hfree]

/-- C23: when tos1900_add starts with the pointer tos1900_dev NULL, allocates
the device object at p and then fails, the error it returns is that of
tos1900_pf_add, of tos1900_acpi_setup or of toshiba_acpi_keyboard_setup, and
the pointer is left at p although the object is freed. Every later run of
attaches returns EBUSY on each call and changes nothing. The pointer goes back
to NULL only in tos1900_remove, which does so whenever it runs on a live
device object. -/
theorem failed_add_keeps_slot {σ : Type} (spfc : Spfc σ) (env : AddEnv)
    (m : Module σ) (p : Nat)
    (hempty : m.tos1900_dev = none) (halloc : env.kzalloc_dev = some p)
    (hfail : (tos1900_add spfc env m).1 ≠ 0) :
    ((tos1900_add spfc env m).1 = (tos1900_pf_add env m.platform).1 ∨
      (env.acpi_get_handle = AE_OK ∧
        ∃ s, (tos1900_add spfc env m).1 =
          (tos1900_acpi_setup spfc env.setup s).1) ∨
      ∃ k w, (tos1900_add spfc env m).1 =
        (toshiba_acpi_keyboard_setup spfc env k w).1) ∧
    (tos1900_add spfc env m).2.tos1900_dev = some p ∧
    p ∉ (tos1900_add spfc env m).2.live ∧
    (∀ envs : List AddEnv,
      adds spfc envs (tos1900_add spfc env m).2 =
        (List.replicate envs.length (- EBUSY), (tos1900_add spfc env m).2)) ∧
    (∀ (m1 : Module σ) (q : Nat), m1.tos1900_dev = some q → q ∈ m1.live →
      ∃ m2, tos1900_remove m1 = some (0, m2) ∧ m2.tos1900_dev = none) := by
  obtain ⟨hsrc, hslot, hfree⟩ :=
    failed_add_dangles spfc env m p hempty halloc hfail
  refine ⟨hsrc, hslot, hfree, ?_, remove_clears_slot⟩
  intro envs
  apply adds_busy
  rw [hslot]
  simp

theorem failed_add_keeps_slot_witness :
    (tos1900_add (fixed_reply [0, 0, 0, 0, 0, 0])
        (sample_add_env 7 (sample_env [] [Attr.trackpad])) initial_module).1
      = -17 ∧
    (tos1900_add (fixed_reply [0, 0, 0, 0, 0, 0])
        (sample_add_env 7 (sample_env [] [Attr.trackpad]))
        initial_module).2.tos1900_dev = some 7 ∧
    7 ∉ (tos1900_add (fixed_reply [0, 0, 0, 0, 0, 0])
        (sample_add_env 7 (sample_env [] [Attr.trackpad]))
        initial_module).2.live ∧
    (adds (fixed_reply [0, 0, 0, 0, 0, 0])
        [sample_add_env 8 (sample_env [] []), failing_pf_env 9]
        (tos1900_add (fixed_reply [0, 0, 0, 0, 0, 0])
          (sample_add_env 7 (sample_env [] [Attr.trackpad]))
          initial_module).2).1 = [- EBUSY, - EBUSY] ∧
    (tos1900_add (fixed_reply [0, 0, 0, 0, 0, 0]) (failing_pf_env 7)
        initial_module).2.tos1900_dev = some 7 ∧
    (tos1900_add (fixed_reply [0, 0, 0, 0, 0, 0]) (failing_keyboard_env 7)
        initial_module).2.tos1900_dev = some 7 ∧
    (tos1900_add (fixed_reply [0, 0, 0, 0, 0, 0])
        (sample_add_env 8 (sample_env [] [])) initial_module).1 = 0 ∧
    (∃ m2,
      tos1900_remove
        (tos1900_add (fixed_reply [0, 0, 0, 0, 0, 0])
          (sample_add_env 8 (sample_env [] [])) initial_module).2
        = some (0, m2) ∧
      m2.tos1900_dev = none) := by
  have h := failed_add_keeps_slot (fixed_reply [0, 0, 0, 0, 0, 0])
    (sample_add_env 7 (sample_env [] [Attr.trackpad])) initial_module 7
    rfl rfl (by decide)
  have hp := failed_add_keeps_slot (fixed_reply [0, 0, 0, 0, 0, 0])
    (failing_pf_env 7) initial_module 7 rfl rfl (by decide)
  have hk := failed_add_keeps_slot (fixed_reply [0, 0, 0, 0, 0, 0])
    (failing_keyboard_env 7) initial_module 7 rfl rfl (by decide)
  exact ⟨by decide, h.2.1, h.2.2.1,
    congrArg Prod.fst
      (h.2.2.2.1 [sample_add_env 8 (sample_env [] []), failing_pf_env 9]),
    hp.2.1, hk.2.1, by decide,
    h.2.2.2.2
      (tos1900_add (fixed_reply [0, 0, 0, 0, 0, 0])
        (sample_add_env 8 (sample_env [] [])) initial_module).2 8
      (by decide) (by decide)⟩

end Tos1900
